import Mathlib

/-!
# FunctionPathDiffusedEllipsoidHeatSource

A shallow embedding of `src/materials/FunctionPathDiffusedEllipsoidHeatSource.C`:
the constructor's parameter checks and `computeQpProperties`; and of `initialSetup` and
`resetQp` of `src/userobjects/NEMLMaterialPropertyReset.C`.

* The definitions translated from the code are generic in the arithmetic of the framework
  type `Real`: they use only the operations `+ - * /`, unary minus, `<`, decimal literals
  and the conversion of the loop counter. They are run on exact fields (`ℝ`, `ℚ`, or an
  arbitrary linearly ordered field `α`), where there is no rounding, infinity or NaN, and
  on `Dbl`, a model of IEEE 754 binary64 with round-to-nearest-even, infinities, NaN and
  signed zeros. Every expression is evaluated operation by operation in the order the C++
  source gives (no fused multiply-add).
* The `<cmath>` calls `std::exp`, `std::sin`, `std::cos`, `std::pow` and the constant
  `libMesh::pi` are the fields of `StdMath`; over `ℝ` they are instantiated with
  `Real.exp`, `Real.sin`, `Real.cos`, real powers and `Real.pi`, and over `Dbl` with
  `libm rest`, which fixes the special values of C Annex F and the nearest double at
  arguments of moderate size and leaves every other result to an arbitrary `rest`.
* `mooseError` aborts construction: the constructor returns `Except.error` with the
  message of the first check that fires.
* The automatic-differentiation part of `ADMaterialProperty<Real>` is not modelled,
  only the values.
-/

namespace Tg4

/-- The numerical primitives called by `computeQpProperties`. -/
structure StdMath (α : Type) where
  /-- The function std::exp. -/
  exp : α → α
  /-- The function std::sin. -/
  sin : α → α
  /-- The function std::cos. -/
  cos : α → α
  /-- The function std::pow. -/
  pow : α → α → α
  /-- The constant libMesh::pi. -/
  pi : α

/-- The user input of a heat source block. A field is `none` when the user did not set
the parameter; `FunctionName` and `PostprocessorName` are names resolved by the host. -/
structure InputParameters (α : Type) where
  path_x : Option α := none
  path_y : Option α := none
  path_z : Option α := none
  function_path_x : Option String := none
  function_path_y : Option String := none
  function_path_z : Option String := none
  rx : Option α := none
  ry : Option α := none
  rz : Option α := none
  function_rx : Option String := none
  function_ry : Option String := none
  function_rz : Option String := none
  power : Option α := none
  efficiency : Option α := none
  function_power : Option String := none
  function_efficiency : Option String := none
  tilt : Option α := none
  function_tilt : Option String := none
  weave_amp_x : Option α := none
  function_weave_amp_x : Option String := none
  weave_amp_y : Option α := none
  function_weave_amp_y : Option String := none
  weave_amp_z : Option α := none
  function_weave_amp_z : Option String := none
  half_model : Option Bool := none
  va : Option α := none
  function_va : Option String := none
  pp_va : Option String := none

/-- The call `isParamSetByUser(name)`: whether the user wrote the parameter. -/
def isParamSetByUser {β : Type} (param : Option β) : Bool :=
  param.isSome

/-- The call `getParam<T>(name)`: the user's value, or the default that `validParams`
registered with `addParam` (passed here as `dflt`). -/
def getParam {β : Type} (param : Option β) (dflt : β) : β :=
  param.getD dflt

/-- The members of the material object, together with the parameters it was built from
(`isParamSetByUser` is also called during evaluation). A `const Function &` member is the
time function the host resolved the name to; the `const PostprocessorValue &` member is
kept as the name of the postprocessor, whose value is read at evaluation time. -/
structure FunctionPathDiffusedEllipsoidHeatSource (α : Type) where
  pars : InputParameters α
  _path_x : α
  _path_y : α
  _path_z : α
  _function_path_x : α → α
  _function_path_y : α → α
  _function_path_z : α → α
  _rx : α
  _ry : α
  _rz : α
  _function_rx : α → α
  _function_ry : α → α
  _function_rz : α → α
  _power : α
  _efficiency : α
  _function_power : α → α
  _function_efficiency : α → α
  _tilt : α
  _function_tilt : α → α
  _weave_amp_x : α
  _function_weave_amp_x : α → α
  _weave_amp_y : α
  _function_weave_amp_y : α → α
  _weave_amp_z : α
  _function_weave_amp_z : α → α
  _half_model : Bool
  _va : α
  _function_va : α → α
  _pp_va : String

/-- The member initialiser list of the constructor (lines 90-127), with the defaults of
`validParams` (lines 22-82). `getFunction` is the host's lookup of a function by name. -/
def memberInit {α : Type} [Zero α] [One α] (getFunction : String → α → α)
    (p : InputParameters α) : FunctionPathDiffusedEllipsoidHeatSource α :=
  { pars := p
    _path_x := getParam p.path_x 0
    _path_y := getParam p.path_y 0
    _path_z := getParam p.path_z 0
    _function_path_x := getFunction (getParam p.function_path_x "0")
    _function_path_y := getFunction (getParam p.function_path_y "0")
    _function_path_z := getFunction (getParam p.function_path_z "0")
    _rx := getParam p.rx 0
    _ry := getParam p.ry 0
    _rz := getParam p.rz 0
    _function_rx := getFunction (getParam p.function_rx "0")
    _function_ry := getFunction (getParam p.function_ry "0")
    _function_rz := getFunction (getParam p.function_rz "0")
    _power := getParam p.power 0
    _efficiency := getParam p.efficiency 1
    _function_power := getFunction (getParam p.function_power "0")
    _function_efficiency := getFunction (getParam p.function_efficiency "1")
    _tilt := getParam p.tilt 0
    _function_tilt := getFunction (getParam p.function_tilt "0")
    _weave_amp_x := getParam p.weave_amp_x 0
    _function_weave_amp_x := getFunction (getParam p.function_weave_amp_x "0")
    _weave_amp_y := getParam p.weave_amp_y 0
    _function_weave_amp_y := getFunction (getParam p.function_weave_amp_y "0")
    _weave_amp_z := getParam p.weave_amp_z 0
    _function_weave_amp_z := getFunction (getParam p.function_weave_amp_z "0")
    _half_model := getParam p.half_model false
    _va := getParam p.va 0
    _function_va := getFunction (getParam p.function_va "0")
    _pp_va := getParam p.pp_va "1" }

/-- The body of the constructor (lines 129-237): the checks in source order; the first
`mooseError` reached aborts with its message. -/
def constructorBody {α : Type} (p : InputParameters α) : Except String Unit :=
  if isParamSetByUser p.path_x && isParamSetByUser p.function_path_x then
    .error "Cannot set both path_x and function_path_x"
  else if !isParamSetByUser p.path_x && !isParamSetByUser p.function_path_x then
    .error "No path_x or function_path_x defined"
  else if isParamSetByUser p.path_y && isParamSetByUser p.function_path_y then
    .error "Cannot set both path_y and function_path_y"
  else if !isParamSetByUser p.path_y && !isParamSetByUser p.function_path_y then
    .error "No path_y or function_path_y defined"
  else if isParamSetByUser p.path_z && isParamSetByUser p.function_path_z then
    .error "Cannot set both path_z and function_path_z"
  else if !isParamSetByUser p.path_z && !isParamSetByUser p.function_path_z then
    .error "No path_z or function_path_z defined"
  else if isParamSetByUser p.rx && isParamSetByUser p.function_rx then
    .error "Cannot set both rx and function_rx"
  else if !isParamSetByUser p.rx && !isParamSetByUser p.function_rx then
    .error "No rx or function_rx defined"
  else if isParamSetByUser p.ry && isParamSetByUser p.function_ry then
    .error "Cannot set both ry and function_ry"
  else if !isParamSetByUser p.ry && !isParamSetByUser p.function_ry then
    .error "No ry or function_ry defined"
  else if isParamSetByUser p.rz && isParamSetByUser p.function_rz then
    .error "Cannot set both rz and function_rz"
  else if !isParamSetByUser p.rz && !isParamSetByUser p.function_rz then
    .error "No rz or function_rz defined"
  else if isParamSetByUser p.power && isParamSetByUser p.function_power then
    .error "Cannot set both power and function_power"
  else if !isParamSetByUser p.power && !isParamSetByUser p.function_power then
    .error "No power or function_power defined"
  else if isParamSetByUser p.efficiency && isParamSetByUser p.function_efficiency then
    .error "Cannot set both efficiency and function_efficiency"
  else if isParamSetByUser p.tilt && isParamSetByUser p.function_tilt then
    .error "Cannot set both tilt and function_tilt"
  else if isParamSetByUser p.weave_amp_x && isParamSetByUser p.function_weave_amp_x then
    .error "Cannot set both weave_amp_x and function_weave_amp_x"
  else if isParamSetByUser p.weave_amp_y && isParamSetByUser p.function_weave_amp_y then
    .error "Cannot set both weave_amp_x and function_weave_amp_x"
  else if isParamSetByUser p.weave_amp_z && isParamSetByUser p.function_weave_amp_z then
    .error "Cannot set both weave_amp_x and function_weave_amp_x"
  else if isParamSetByUser p.va && isParamSetByUser p.function_va then
    .error "Cannot set both va and function_va"
  else if isParamSetByUser p.va && isParamSetByUser p.pp_va then
    .error "Cannot set both va and pp_va"
  else if isParamSetByUser p.function_va && isParamSetByUser p.pp_va then
    .error "Cannot set both function_va and pp_va"
  else if isParamSetByUser p.va && isParamSetByUser p.function_va
      && isParamSetByUser p.pp_va then
    .error "Cannot set va, function_va and pp_va"
  else if !isParamSetByUser p.va && !isParamSetByUser p.function_va
      && !isParamSetByUser p.pp_va then
    .error "No va, function_va or pp_va defined"
  else
    .ok ()

/-- The constructor `FunctionPathDiffusedEllipsoidHeatSource(parameters)`: the members are
initialised, then the body runs; an error of the body means no object is built. -/
def FunctionPathDiffusedEllipsoidHeatSource.construct {α : Type} [Zero α] [One α]
    (getFunction : String → α → α) (p : InputParameters α) :
    Except String (FunctionPathDiffusedEllipsoidHeatSource α) :=
  match constructorBody p with
  | .error msg => .error msg
  | .ok () => .ok (memberInit getFunction p)

/-- The local variables `path_x_t` ... `weave_z_t` of `computeQpProperties`. -/
structure Locals (α : Type) where
  path_x_t : α
  path_y_t : α
  path_z_t : α
  rx_t : α
  ry_t : α
  rz_t : α
  p_t : α
  eta_t : α
  tilt_t : α
  weave_x_t : α
  weave_y_t : α
  weave_z_t : α

/-- Lines 262-390 of `computeQpProperties`: each local is set from the user value, from
the function at the current time `_t`, or (optional parameters) from the literal default. -/
def resolveParameters {α : Type} [OfScientific α]
    (self : FunctionPathDiffusedEllipsoidHeatSource α) (_t : α) : Locals α :=
  { path_x_t :=
      if isParamSetByUser self.pars.path_x then self._path_x else self._function_path_x _t
    path_y_t :=
      if isParamSetByUser self.pars.path_y then self._path_y else self._function_path_y _t
    path_z_t :=
      if isParamSetByUser self.pars.path_z then self._path_z else self._function_path_z _t
    rx_t := if isParamSetByUser self.pars.rx then self._rx else self._function_rx _t
    ry_t := if isParamSetByUser self.pars.ry then self._ry else self._function_ry _t
    rz_t := if isParamSetByUser self.pars.rz then self._rz else self._function_rz _t
    p_t := if isParamSetByUser self.pars.power then self._power else self._function_power _t
    eta_t :=
      if isParamSetByUser self.pars.efficiency then self._efficiency
      else if isParamSetByUser self.pars.function_efficiency then
        self._function_efficiency _t
      else 1.0
    tilt_t :=
      if isParamSetByUser self.pars.tilt then self._tilt
      else if isParamSetByUser self.pars.function_tilt then self._function_tilt _t
      else 0.0
    weave_x_t :=
      if isParamSetByUser self.pars.weave_amp_x then self._weave_amp_x
      else if isParamSetByUser self.pars.function_weave_amp_x then
        self._function_weave_amp_x _t
      else 0.0
    weave_y_t :=
      if isParamSetByUser self.pars.weave_amp_y then self._weave_amp_y
      else if isParamSetByUser self.pars.function_weave_amp_y then
        self._function_weave_amp_y _t
      else 0.0
    weave_z_t :=
      if isParamSetByUser self.pars.weave_amp_z then self._weave_amp_z
      else if isParamSetByUser self.pars.function_weave_amp_z then
        self._function_weave_amp_z _t
      else 0.0 }

/-- Line 397: the local `x_rot`. -/
def x_rot {α : Type} [Sub α] [Mul α] (m : StdMath α) (l : Locals α) (x y : α) : α :=
  (x - l.path_x_t) * m.cos l.tilt_t - (y - l.path_y_t) * m.sin l.tilt_t

/-- Line 398: the local `y_rot`. -/
def y_rot {α : Type} [Add α] [Sub α] [Mul α] (m : StdMath α) (l : Locals α) (x y : α) :
    α :=
  (x - l.path_x_t) * m.sin l.tilt_t + (y - l.path_y_t) * m.cos l.tilt_t

/-- Lines 406-427: one pass of the loop body for the counter `i`, updating the
accumulator `calc_va_temp`. -/
def weaveLoopBody {α : Type} [Add α] [Sub α] [Mul α] [Div α] [Neg α] [LT α]
    [DecidableRel (fun a b : α => a < b)] [OfScientific α] [NatCast α]
    (m : StdMath α) (l : Locals α) (xr yr z : α) (calc_va_temp : α) (i : Nat) : α :=
  let acc1 :=
    if l.weave_x_t > 1e-6 then
      calc_va_temp + m.exp (-(
        m.pow (xr + l.weave_x_t * m.sin (m.pi * (i : α) / ((6 : Nat) : α))) 2.0 /
          m.pow l.rx_t 2.0 +
        m.pow yr 2.0 / m.pow l.ry_t 2.0 +
        m.pow (z - l.path_z_t) 2.0 / m.pow l.rz_t 2.0))
    else calc_va_temp
  let acc2 :=
    if l.weave_y_t > 1e-6 then
      acc1 + m.exp (-(
        m.pow xr 2.0 / m.pow l.rx_t 2.0 +
        m.pow (yr + l.weave_y_t * m.sin (m.pi * (i : α) / ((6 : Nat) : α))) 2.0 /
          m.pow l.ry_t 2.0 +
        m.pow (z - l.path_z_t) 2.0 / m.pow l.rz_t 2.0))
    else acc1
  if l.weave_z_t > 1e-6 then
    acc2 + m.exp (-(
      m.pow xr 2.0 / m.pow l.rx_t 2.0 +
      m.pow yr 2.0 / m.pow l.ry_t 2.0 +
      m.pow (z - l.path_z_t + l.weave_z_t * m.sin (m.pi * (i : α) / ((6 : Nat) : α))) 2.0 /
        m.pow l.rz_t 2.0))
  else acc2

/-- Line 402: the condition that selects the 13-sample loop. -/
def weaveActive {α : Type} [LT α] [DecidableRel (fun a b : α => a < b)] [OfScientific α]
    (l : Locals α) : Bool :=
  decide (l.weave_x_t > 1e-6) || decide (l.weave_y_t > 1e-6) || decide (l.weave_z_t > 1e-6)

/-- Lines 430-435: the single base Gaussian added to the accumulator on the no-weave path. -/
def baseGaussian {α : Type} [Add α] [Sub α] [Div α] [Neg α] [OfScientific α]
    (m : StdMath α) (l : Locals α) (xr yr z : α) : α :=
  m.exp (-(m.pow xr 2.0 / m.pow l.rx_t 2.0 +
           m.pow yr 2.0 / m.pow l.ry_t 2.0 +
           m.pow (z - l.path_z_t) 2.0 / m.pow l.rz_t 2.0))

/-- Lines 400-435: the accumulator `calc_va_temp` after the branch; the loop
`for (int i = 0; i <= 12; ++i)` is a left fold over the counters 0..12. -/
def calc_va_temp {α : Type} [Add α] [Sub α] [Mul α] [Div α] [Neg α] [LT α]
    [DecidableRel (fun a b : α => a < b)] [OfScientific α] [NatCast α]
    (m : StdMath α) (l : Locals α) (xr yr z : α) : α :=
  if weaveActive l then
    (List.range 13).foldl (weaveLoopBody m l xr yr z) 0.0
  else
    0.0 + baseGaussian m l xr yr z

/-- The two material properties written at the quadrature point. -/
structure QpProperties (α : Type) where
  calc_va : α
  volumetric_heat : α

/-- The method `computeQpProperties` at time `_t` and quadrature point `(x, y, z)`;
`postprocessor` gives the current value of each postprocessor. -/
def FunctionPathDiffusedEllipsoidHeatSource.computeQpProperties {α : Type}
    [Add α] [Sub α] [Mul α] [Div α] [Neg α] [LT α] [DecidableRel (fun a b : α => a < b)]
    [OfScientific α] [NatCast α] (m : StdMath α) (postprocessor : String → α)
    (self : FunctionPathDiffusedEllipsoidHeatSource α) (_t : α) (x y z : α) :
    QpProperties α :=
  let l := resolveParameters self _t
  let xr := x_rot m l x y
  let yr := y_rot m l x y
  let _calc_va := calc_va_temp m l xr yr z
  let _volumetric_heat :=
    if isParamSetByUser self.pars.va then
      if self._half_model then 0.5 * l.p_t * l.eta_t * _calc_va / self._va
      else l.p_t * l.eta_t * _calc_va / self._va
    else if isParamSetByUser self.pars.function_va then
      if self._half_model then 0.5 * l.p_t * l.eta_t * _calc_va / self._function_va _t
      else l.p_t * l.eta_t * _calc_va / self._function_va _t
    else
      if self._half_model then 0.5 * l.p_t * l.eta_t * _calc_va / postprocessor self._pp_va
      else l.p_t * l.eta_t * _calc_va / postprocessor self._pp_va
  { calc_va := _calc_va, volumetric_heat := _volumetric_heat }

/-! ## Vocabulary of the specification -/

/-- The twelve parameters that have a constant form and a `function_` form. -/
inductive TwoSource where
  | path_x | path_y | path_z | rx | ry | rz | power
  | efficiency | tilt | weave_amp_x | weave_amp_y | weave_amp_z
  deriving DecidableEq, Repr

/-- The seven parameters the specification calls required; the other five are optional. -/
def TwoSource.required : TwoSource → Bool
  | .path_x | .path_y | .path_z | .rx | .ry | .rz | .power => true
  | .efficiency | .tilt | .weave_amp_x | .weave_amp_y | .weave_amp_z => false

/-- The constant form of a two-source parameter in the user input. -/
def TwoSource.constant {α : Type} (P : TwoSource) (p : InputParameters α) : Option α :=
  match P with
  | .path_x => p.path_x
  | .path_y => p.path_y
  | .path_z => p.path_z
  | .rx => p.rx
  | .ry => p.ry
  | .rz => p.rz
  | .power => p.power
  | .efficiency => p.efficiency
  | .tilt => p.tilt
  | .weave_amp_x => p.weave_amp_x
  | .weave_amp_y => p.weave_amp_y
  | .weave_amp_z => p.weave_amp_z

/-- The `function_` form of a two-source parameter in the user input. -/
def TwoSource.function {α : Type} (P : TwoSource) (p : InputParameters α) : Option String :=
  match P with
  | .path_x => p.function_path_x
  | .path_y => p.function_path_y
  | .path_z => p.function_path_z
  | .rx => p.function_rx
  | .ry => p.function_ry
  | .rz => p.function_rz
  | .power => p.function_power
  | .efficiency => p.function_efficiency
  | .tilt => p.function_tilt
  | .weave_amp_x => p.function_weave_amp_x
  | .weave_amp_y => p.function_weave_amp_y
  | .weave_amp_z => p.function_weave_amp_z

/-- The user input with the constant form of one two-source parameter set to `c`. -/
def TwoSource.setConstant {α : Type} (P : TwoSource) (c : α) (p : InputParameters α) :
    InputParameters α :=
  match P with
  | .path_x => { p with path_x := some c }
  | .path_y => { p with path_y := some c }
  | .path_z => { p with path_z := some c }
  | .rx => { p with rx := some c }
  | .ry => { p with ry := some c }
  | .rz => { p with rz := some c }
  | .power => { p with power := some c }
  | .efficiency => { p with efficiency := some c }
  | .tilt => { p with tilt := some c }
  | .weave_amp_x => { p with weave_amp_x := some c }
  | .weave_amp_y => { p with weave_amp_y := some c }
  | .weave_amp_z => { p with weave_amp_z := some c }

/-- The local variable of `computeQpProperties` that holds a two-source parameter. -/
def TwoSource.resolved {α : Type} (P : TwoSource) (l : Locals α) : α :=
  match P with
  | .path_x => l.path_x_t
  | .path_y => l.path_y_t
  | .path_z => l.path_z_t
  | .rx => l.rx_t
  | .ry => l.ry_t
  | .rz => l.rz_t
  | .power => l.p_t
  | .efficiency => l.eta_t
  | .tilt => l.tilt_t
  | .weave_amp_x => l.weave_x_t
  | .weave_amp_y => l.weave_y_t
  | .weave_amp_z => l.weave_z_t

/-- The documented default of a two-source parameter (used for the optional ones). -/
def TwoSource.default {α : Type} [LinearOrderedField α] : TwoSource → α
  | .efficiency => 1
  | _ => 0

/-- Every group other than the calibration one is validly configured: each required
parameter has exactly one of its two forms set, each optional one at most one. -/
def othersValid {α : Type} (p : InputParameters α) : Prop :=
  ∀ P : TwoSource,
    ¬ (isParamSetByUser (P.constant p) = true ∧ isParamSetByUser (P.function p) = true) ∧
    (P.required = true →
      isParamSetByUser (P.constant p) = true ∨ isParamSetByUser (P.function p) = true)

/-- How many of `va`, `function_va`, `pp_va` the user set. -/
def calibrationSourcesSet {α : Type} (p : InputParameters α) : Nat :=
  p.va.isSome.toNat + p.function_va.isSome.toNat + p.pp_va.isSome.toNat

/-- The calibration value by the three-source rule of the specification: the constant
`va` when set, else `function_va` at time `t` when set, else the current value of the
postprocessor `pp_va`. -/
def calibration {α : Type} (postprocessor : String → α)
    (self : FunctionPathDiffusedEllipsoidHeatSource α) (t : α) : α :=
  if isParamSetByUser self.pars.va then self._va
  else if isParamSetByUser self.pars.function_va then self._function_va t
  else postprocessor self._pp_va

/-- The end-to-end scenario of the specification, with `half_model` as given. -/
def scenario (α : Type) [LinearOrderedField α] (half : Bool) : InputParameters α :=
  { path_x := some 0, path_y := some 0, path_z := some 0
    rx := some 1, ry := some 1, rz := some 1
    power := some 100, efficiency := some 1, tilt := some 0
    va := some 1, half_model := some half }

/-- The scenario with the power given by the time function named `ramp` rather than by a
constant. -/
def rampScenario : InputParameters ℚ :=
  { scenario ℚ false with power := none, function_power := some "ramp" }

/-- The weave scenario of the specification: the end-to-end scenario with
`weave_amp_x = 0.1` and the other two amplitudes left unset. -/
def weaveScenario (α : Type) [LinearOrderedField α] : InputParameters α :=
  { scenario α false with weave_amp_x := some 0.1 }

/-- The three local axes along which the source can weave. -/
inductive Axis where
  | x | y | z
  deriving DecidableEq, Fintype, Repr

/-- The resolved weave amplitude of an axis. -/
def Axis.amplitude {α : Type} (l : Locals α) : Axis → α
  | .x => l.weave_x_t
  | .y => l.weave_y_t
  | .z => l.weave_z_t

/-- The Gaussian term of the specification for sample `i` and one weaving axis: the local
coordinate of that axis is offset by `amplitude * sin(pi * i / 6)`, the other two are not. -/
def weaveTerm {α : Type} [LinearOrderedField α] (m : StdMath α) (l : Locals α)
    (xr yr z : α) (a : Axis) (i : Nat) : α :=
  let offset (b : Axis) : α :=
    if b = a then a.amplitude l * m.sin (m.pi * (i : α) / 6) else 0
  m.exp (-(m.pow (xr + offset .x) 2.0 / m.pow l.rx_t 2.0 +
           m.pow (yr + offset .y) 2.0 / m.pow l.ry_t 2.0 +
           m.pow (z - l.path_z_t + offset .z) 2.0 / m.pow l.rz_t 2.0))

/-- Whether the text `msg` contains `name` as a contiguous run of characters. -/
def mentions (msg name : String) : Bool :=
  msg.toList.tails.any (fun rest => name.toList.isPrefixOf rest)

/-- The scenario with both forms of `weave_amp_x` set. -/
def bothWeaveX : InputParameters ℚ :=
  { scenario ℚ false with weave_amp_x := some 1, function_weave_amp_x := some "wx" }

/-- The scenario with both forms of `weave_amp_y` set. -/
def bothWeaveY : InputParameters ℚ :=
  { scenario ℚ false with weave_amp_y := some 1, function_weave_amp_y := some "wy" }

/-- The scenario with both forms of `weave_amp_z` set. -/
def bothWeaveZ : InputParameters ℚ :=
  { scenario ℚ false with weave_amp_z := some 1, function_weave_amp_z := some "wz" }

/-! ## NEMLMaterialPropertyReset

A shallow embedding of `src/userobjects/NEMLMaterialPropertyReset.C`. The coupled variable
is a function from the quadrature point index to its value; the NEML material is external
and is represented by the calls the user object makes on it. -/

/-- A call made on the NEML material, with the arguments `(_indices, _qp)`. -/
inductive MaterialCall where
  | reset_state (indices : List Nat) (qp : Nat)
  | const_state (indices : List Nat) (qp : Nat)
  deriving DecidableEq, Repr

/-- The user input of a `NEMLMaterialPropertyReset` block (lines 21-28); `none` is a
parameter the user did not set. The coupled variable is passed separately. -/
structure ResetInputParameters (α : Type) where
  two_stage : Option Bool := none
  critical_value : Option α := none
  lower_value : Option α := none
  upper_value : Option α := none
  properties : List String := []
  material : String := ""

/-- The members of the user object, together with the parameters it was built from. -/
structure NEMLMaterialPropertyReset (α : Type) where
  pars : ResetInputParameters α
  _variable : Nat → α
  _two_stage : Bool
  _critical_value : α
  _lower_value : α
  _upper_value : α
  _props : List String
  _indices : List Nat

/-- The constructor (lines 33-42), with the defaults of `validParams`; `coupledValue` is the
value of the coupled variable. The indices are filled in by `initialSetup`. -/
def NEMLMaterialPropertyReset.construct {α : Type} [LinearOrderedField α]
    (coupledValue : Nat → α) (p : ResetInputParameters α) : NEMLMaterialPropertyReset α :=
  { pars := p
    _variable := coupledValue
    _two_stage := getParam p.two_stage false
    _critical_value := getParam p.critical_value 0
    _lower_value := getParam p.lower_value 0
    _upper_value := getParam p.upper_value 0
    _props := p.properties
    _indices := [] }

/-- The method `initialSetup` (lines 44-91). `neml_material` is the result of the dynamic
cast of the material named by the user: `none` for a null pointer, else the material's
`provide_indices`. The single-stage checks run first, then the two-stage checks. -/
def NEMLMaterialPropertyReset.initialSetup {α : Type} [LinearOrderedField α]
    (neml_material : Option (List String → List Nat)) (self : NEMLMaterialPropertyReset α) :
    Except String (NEMLMaterialPropertyReset α) :=
  match neml_material with
  | none => .error "Unable to link NEMLMaterialPropertyReset object to the stress calculator"
  | some provide_indices =>
    let self1 := { self with _indices := provide_indices self._props }
    let twoStageChecks : Except String (NEMLMaterialPropertyReset α) :=
      if self1._two_stage then
        if self1._lower_value >= self1._upper_value then
          .error "Lower value must be less than upper value for two-stage reset"
        else if isParamSetByUser self1.pars.lower_value &&
            !isParamSetByUser self1.pars.upper_value then
          .error "Upper value must be set for two-stage reset"
        else if !isParamSetByUser self1.pars.lower_value &&
            isParamSetByUser self1.pars.upper_value then
          .error "Lower value must be set for two-stage reset"
        else if !isParamSetByUser self1.pars.lower_value &&
            !isParamSetByUser self1.pars.upper_value then
          .error "Lower and upper values must be set for two-stage reset"
        else if isParamSetByUser self1.pars.critical_value then
          .error ("Critical value should not be set for two-stage reset. " ++
            "Set lower and upper values instead.")
        else .ok self1
      else .ok self1
    if !self1._two_stage then
      if isParamSetByUser self1.pars.lower_value ||
          isParamSetByUser self1.pars.upper_value then
        .error ("Lower and upper values should not be set for single-stage reset. " ++
          "Set critical value instead.")
      else if !isParamSetByUser self1.pars.critical_value then
        .error "Critical value must be set for single-stage reset"
      else twoStageChecks
    else twoStageChecks

/-- The method `resetQp` (lines 105-126) at the quadrature point `_qp`: the calls it makes
on the NEML material, in order. -/
def NEMLMaterialPropertyReset.resetQp {α : Type} [LinearOrderedField α]
    (self : NEMLMaterialPropertyReset α) (_qp : Nat) : List MaterialCall :=
  if !self._two_stage then
    if self._variable _qp >= self._critical_value then
      [MaterialCall.reset_state self._indices _qp]
    else []
  else if self._two_stage then
    if self._variable _qp >= self._upper_value then
      [MaterialCall.reset_state self._indices _qp]
    else if self._variable _qp >= self._lower_value ∧
        self._variable _qp < self._upper_value then
      [MaterialCall.const_state self._indices _qp]
    else []
  else []

/-- The method `NEMLMaterialPropertyResetTest::resetQp` (lines 61-66 of
`NEMLMaterialPropertyResetTest.C`), the single-stage variant. -/
def NEMLMaterialPropertyResetTest.resetQp {α : Type} [LinearOrderedField α]
    (_variable : Nat → α) (_critical_value : α) (_indices : List Nat) (_qp : Nat) :
    List MaterialCall :=
  if _variable _qp >= _critical_value then [MaterialCall.reset_state _indices _qp] else []

/-- Whether `reset_state` is among the calls. -/
def callsReset (calls : List MaterialCall) : Bool :=
  calls.any (fun c => match c with
    | .reset_state _ _ => true
    | .const_state _ _ => false)

/-- Whether `const_state` is among the calls. -/
def callsConst (calls : List MaterialCall) : Bool :=
  calls.any (fun c => match c with
    | .reset_state _ _ => false
    | .const_state _ _ => true)

/-- A two-stage reset block with thresholds 2 and 5. -/
def twoStageInput : ResetInputParameters ℚ :=
  { two_stage := some true, lower_value := some 2, upper_value := some 5,
    properties := ["alpha"], material := "stress" }

/-- The scenario with all three calibration sources set. -/
def threeCalibrations : InputParameters ℚ :=
  { scenario ℚ false with function_va := some "fva", pp_va := some "ppva" }

/-- The two-stage user object after `initialSetup`, with the coupled variable equal to the
quadrature point index and the material indices `[0]`. -/
def twoStageObject : NEMLMaterialPropertyReset ℚ :=
  { NEMLMaterialPropertyReset.construct (fun qp => (qp : ℚ)) twoStageInput with
    _indices := [0] }

/-! ## IEEE 754 binary64

The C++ type `double` behind the framework type `Real`: values, and the operations
`+ - * /`, unary minus, `<`, `<=`, `==` and the conversion of decimal literals and integers,
all rounded to nearest with ties to even. The heat source definitions above are generic in
the arithmetic, so they run on `Dbl` as they run on an exact field. -/

/-- A double: the finite value `(-1)^sign * m * 2^e`, an infinity or a NaN. The results of
the operations are in canonical form: `m < 2^53`, `-1074 ≤ e ≤ 971`, and `m < 2^52` only
for `e = -1074` (subnormals and the two zeros). -/
inductive Dbl where
  | finite (sign : Bool) (m : Nat) (e : Int)
  | inf (sign : Bool)
  | nan
  deriving DecidableEq, Repr

/-- Whether the rational `n / d` is at least `2^52 * 2^(b - 1074)`. -/
def Dbl.atLeast (n d b : Nat) : Bool :=
  decide (d * 2 ^ (b + 52) ≤ n * 2 ^ 1074)

/-- Bisection for the largest `b` in `[lo, hi)` with `atLeast n d b`, when it holds at `lo`
and fails at `hi`. -/
def Dbl.search (n d : Nat) : Nat → Nat → Nat → Nat
  | 0, lo, _ => lo
  | fuel + 1, lo, hi =>
    if hi ≤ lo + 1 then lo
    else if Dbl.atLeast n d ((lo + hi) / 2) then Dbl.search n d fuel ((lo + hi) / 2) hi
    else Dbl.search n d fuel lo ((lo + hi) / 2)

/-- The double nearest to `(-1)^sign * n / d` (for `d > 0`), ties to even: the exponent
`b - 1074` is the largest one that leaves a 53-bit significand (or `-1074` for a
subnormal), the quotient is rounded on its remainder, and values from `2^1024` on, or
rounding up to it, overflow to infinity. -/
def Dbl.round (sign : Bool) (n d : Nat) : Dbl :=
  if n = 0 then .finite sign 0 (-1074)
  else if Dbl.atLeast n d 2046 then .inf sign
  else
    let b := if Dbl.atLeast n d 0 then Dbl.search n d 12 0 2046 else 0
    let q := (n * 2 ^ 1074) / (d * 2 ^ b)
    let r := (n * 2 ^ 1074) % (d * 2 ^ b)
    let q1 := if d * 2 ^ b < 2 * r ∨ (2 * r = d * 2 ^ b ∧ q % 2 = 1) then q + 1 else q
    if q1 = 2 ^ 53 then
      if b + 1 = 2046 then .inf sign else .finite sign (2 ^ 52) ((b : Int) + 1 - 1074)
    else .finite sign q1 ((b : Int) - 1074)

/-- The exponent that `Dbl.round` chooses for the rational `n / d`: the largest `b` with
`n / d ≥ 2^52 * 2^(b - 1074)`, or 0 when there is none (a subnormal). -/
def Dbl.expo (n d : Nat) : Nat :=
  if Dbl.atLeast n d 0 then Dbl.search n d 12 0 2046 else 0

/-- The significand that `Dbl.round` computes at the exponent `b - 1074`: the quotient of
`n / d` by `2^(b - 1074)`, rounded to the nearest integer on its remainder, ties to even. -/
def Dbl.quotient (n d b : Nat) : Nat :=
  let q := (n * 2 ^ 1074) / (d * 2 ^ b)
  let r := (n * 2 ^ 1074) % (d * 2 ^ b)
  if d * 2 ^ b < 2 * r ∨ (2 * r = d * 2 ^ b ∧ q % 2 = 1) then q + 1 else q

/-- The result of `Dbl.round` at the exponent `b - 1074`: a significand that rounds up to
`2^53` moves to the next exponent, and past the largest exponent to infinity. -/
def Dbl.roundAt (sign : Bool) (n d b : Nat) : Dbl :=
  if Dbl.quotient n d b = 2 ^ 53 then
    if b + 1 = 2046 then .inf sign else .finite sign (2 ^ 52) ((b : Int) + 1 - 1074)
  else .finite sign (Dbl.quotient n d b) ((b : Int) - 1074)

/-- The integer `(-1)^sign * m * 2^(e - base)`, for `base ≤ e`. -/
def Dbl.scaled (sign : Bool) (m : Nat) (e base : Int) : Int :=
  if sign then -((m * 2 ^ (e - base).toNat : Nat) : Int)
  else ((m * 2 ^ (e - base).toNat : Nat) : Int)

/-- Unary minus. -/
def Dbl.neg : Dbl → Dbl
  | .finite s m e => .finite (!s) m e
  | .inf s => .inf (!s)
  | .nan => .nan

/-- Addition. An exact zero sum is `+0`, except that `(-0) + (-0)` is `-0`. -/
def Dbl.add : Dbl → Dbl → Dbl
  | .nan, _ => .nan
  | _, .nan => .nan
  | .inf s, .inf t => if s = t then .inf s else .nan
  | .inf s, .finite _ _ _ => .inf s
  | .finite _ _ _, .inf t => .inf t
  | .finite s m e, .finite t k f =>
    if Dbl.scaled s m e (min e f) + Dbl.scaled t k f (min e f) = 0 then
      .finite (s && t) 0 (-1074)
    else if min e f < 0 then
      Dbl.round (decide (Dbl.scaled s m e (min e f) + Dbl.scaled t k f (min e f) < 0))
        (Dbl.scaled s m e (min e f) + Dbl.scaled t k f (min e f)).natAbs
        (2 ^ (-(min e f)).toNat)
    else
      Dbl.round (decide (Dbl.scaled s m e (min e f) + Dbl.scaled t k f (min e f) < 0))
        ((Dbl.scaled s m e (min e f) + Dbl.scaled t k f (min e f)).natAbs *
          2 ^ (min e f).toNat) 1

/-- Subtraction. -/
def Dbl.sub (x y : Dbl) : Dbl :=
  Dbl.add x (Dbl.neg y)

/-- Multiplication; infinity times zero is NaN. -/
def Dbl.mul : Dbl → Dbl → Dbl
  | .nan, _ => .nan
  | _, .nan => .nan
  | .inf s, .inf t => .inf (xor s t)
  | .inf s, .finite t k _ => if k = 0 then .nan else .inf (xor s t)
  | .finite s m _, .inf t => if m = 0 then .nan else .inf (xor s t)
  | .finite s m e, .finite t k f =>
    if e + f < 0 then Dbl.round (xor s t) (m * k) (2 ^ (-(e + f)).toNat)
    else Dbl.round (xor s t) (m * k * 2 ^ (e + f).toNat) 1

/-- Division; `0 / 0` and `inf / inf` are NaN, a non-zero value over zero is an infinity. -/
def Dbl.div : Dbl → Dbl → Dbl
  | .nan, _ => .nan
  | _, .nan => .nan
  | .inf _, .inf _ => .nan
  | .inf s, .finite t _ _ => .inf (xor s t)
  | .finite s _ _, .inf t => .finite (xor s t) 0 (-1074)
  | .finite s m e, .finite t k f =>
    if k = 0 then (if m = 0 then .nan else .inf (xor s t))
    else if e - f < 0 then Dbl.round (xor s t) m (k * 2 ^ (-(e - f)).toNat)
    else Dbl.round (xor s t) (m * 2 ^ (e - f).toNat) k

/-- The comparison `<`; false when either side is NaN, and `-0 < +0` is false. -/
def Dbl.lt : Dbl → Dbl → Bool
  | .nan, _ => false
  | _, .nan => false
  | .inf s, .inf t => s && !t
  | .inf s, .finite _ _ _ => s
  | .finite _ _ _, .inf t => !t
  | .finite s m e, .finite t k f =>
    decide (Dbl.scaled s m e (min e f) < Dbl.scaled t k f (min e f))

/-- The comparison `<=`; false when either side is NaN. -/
def Dbl.le : Dbl → Dbl → Bool
  | .nan, _ => false
  | _, .nan => false
  | .inf s, .inf t => s || !t
  | .inf s, .finite _ _ _ => s
  | .finite _ _ _, .inf t => !t
  | .finite s m e, .finite t k f =>
    decide (Dbl.scaled s m e (min e f) ≤ Dbl.scaled t k f (min e f))

/-- Whether the double is finite: neither an infinity nor a NaN. -/
def Dbl.isFinite : Dbl → Bool
  | .finite _ _ _ => true
  | _ => false

/-- Whether the double is `+0` or `-0`. -/
def Dbl.isZero : Dbl → Bool
  | .finite _ 0 _ => true
  | _ => false

/-- Whether the double is finite, non-zero and positive. -/
def Dbl.isPositive : Dbl → Bool
  | .finite false (_ + 1) _ => true
  | _ => false

/-- Whether the double is normal with magnitude at least `2^-1020`, so that its half is a
normal double as well. -/
def Dbl.isHalvable : Dbl → Bool
  | .finite _ m e => decide (2 ^ 52 ≤ m ∧ m < 2 ^ 53 ∧ -1072 ≤ e ∧ e ≤ 971)
  | _ => false

/-- Whether the double is finite and in the form the operations produce: significand below
`2^53`, exponent from `-1074` to `971`, and significand at least `2^52` unless the exponent
is `-1074`. -/
def Dbl.isDouble : Dbl → Bool
  | .finite _ m e =>
    decide (m < 2 ^ 53 ∧ -1074 ≤ e ∧ e ≤ 971 ∧ (2 ^ 52 ≤ m ∨ e = -1074))
  | _ => false

/-- The comparison `==`: false when either side is NaN, and `-0 == +0` is true. -/
def Dbl.eq : Dbl → Dbl → Bool
  | .nan, _ => false
  | _, .nan => false
  | .inf s, .inf t => s == t
  | .inf _, .finite _ _ _ => false
  | .finite _ _ _, .inf _ => false
  | .finite s m e, .finite t k f =>
    decide (Dbl.scaled s m e (min e f) = Dbl.scaled t k f (min e f))

instance : Zero Dbl := ⟨.finite false 0 (-1074)⟩

instance : One Dbl := ⟨Dbl.round false 1 1⟩

instance : Add Dbl := ⟨Dbl.add⟩

instance : Sub Dbl := ⟨Dbl.sub⟩

instance : Mul Dbl := ⟨Dbl.mul⟩

instance : Div Dbl := ⟨Dbl.div⟩

instance : Neg Dbl := ⟨Dbl.neg⟩

instance : LT Dbl := ⟨fun a b => Dbl.lt a b = true⟩

instance : LE Dbl := ⟨fun a b => Dbl.le a b = true⟩

instance : DecidableRel (fun a b : Dbl => a < b) :=
  fun a b => inferInstanceAs (Decidable (Dbl.lt a b = true))

instance : DecidableRel (fun a b : Dbl => a ≤ b) :=
  fun a b => inferInstanceAs (Decidable (Dbl.le a b = true))

/-- The conversion of an integer (`int` to `double`). -/
instance : NatCast Dbl := ⟨fun n => Dbl.round false n 1⟩

/-- The conversion of a decimal literal `mantissa * 10^(±decimalExponent)`. -/
instance : OfScientific Dbl where
  ofScientific mantissa exponentSign decimalExponent :=
    if exponentSign then Dbl.round false mantissa (10 ^ decimalExponent)
    else Dbl.round false (mantissa * 10 ^ decimalExponent) 1

/-- The magnitude `m * 2^e` as a fraction `(numerator, denominator)`. -/
def Dbl.ratio (m : Nat) (e : Int) : Nat × Nat :=
  if e < 0 then (m, 2 ^ (-e).toNat) else (m * 2 ^ e.toNat, 1)

/-- Horner evaluation of a power series from the innermost factor outwards: `k` steps
`E ↦ 1 + (a / (b * c j)) * E` for `j = k - 1, ..., 0`, on the fraction `n / d`. -/
def Dbl.horner (a : Int) (b : Nat) (c : Nat → Nat) : Nat → Int → Nat → Int × Nat
  | 0, n, d => (n, d)
  | k + 1, n, d => Dbl.horner a b c k (((b * c k * d : Nat) : Int) + a * n) (b * c k * d)

/-- The Taylor polynomial of degree 200 of `exp` at the positive fraction `a / b`; for
`a / b ≤ 32` it differs from the exponential by less than `10^-60`. -/
def Dbl.expSeries (a b : Nat) : Int × Nat :=
  Dbl.horner a b (fun j => j + 1) 200 1 1

/-- The Taylor polynomial of degree 80 of `cos` at an argument with square `a / b`; for
an argument of magnitude at most 8 it differs from the cosine by less than `10^-48`. -/
def Dbl.cosSeries (a b : Nat) : Int × Nat :=
  Dbl.horner (-(a : Int)) b (fun j => (2 * j + 1) * (2 * j + 2)) 40 1 1

/-- The Taylor polynomial of degree 80 of `sin x / x` at an argument with square
`a / b`; for an argument of magnitude at most 8 it differs from `sin x / x` by less than
`10^-48`. -/
def Dbl.sinSeries (a b : Nat) : Int × Nat :=
  Dbl.horner (-(a : Int)) b (fun j => (2 * j + 2) * (2 * j + 3)) 40 1 1

/-- The math library `exp` at a finite non-zero argument of magnitude at most 32: the
double nearest to the Taylor polynomial (for a negative argument, to its reciprocal at the
magnitude). -/
def Dbl.expNear (s : Bool) (m : Nat) (e : Int) : Dbl :=
  if s then
    Dbl.round false (Dbl.expSeries (Dbl.ratio m e).1 (Dbl.ratio m e).2).2
      (Dbl.expSeries (Dbl.ratio m e).1 (Dbl.ratio m e).2).1.natAbs
  else
    Dbl.round false (Dbl.expSeries (Dbl.ratio m e).1 (Dbl.ratio m e).2).1.natAbs
      (Dbl.expSeries (Dbl.ratio m e).1 (Dbl.ratio m e).2).2

/-- The math library `cos` at a finite non-zero argument of magnitude at most 8. -/
def Dbl.cosNear (m : Nat) (e : Int) : Dbl :=
  Dbl.round (decide ((Dbl.cosSeries (Dbl.ratio (m * m) (2 * e)).1
      (Dbl.ratio (m * m) (2 * e)).2).1 < 0))
    (Dbl.cosSeries (Dbl.ratio (m * m) (2 * e)).1 (Dbl.ratio (m * m) (2 * e)).2).1.natAbs
    (Dbl.cosSeries (Dbl.ratio (m * m) (2 * e)).1 (Dbl.ratio (m * m) (2 * e)).2).2

/-- The math library `sin` at a finite non-zero argument of magnitude at most 8. -/
def Dbl.sinNear (s : Bool) (m : Nat) (e : Int) : Dbl :=
  Dbl.round (xor s (decide ((Dbl.sinSeries (Dbl.ratio (m * m) (2 * e)).1
      (Dbl.ratio (m * m) (2 * e)).2).1 < 0)))
    ((Dbl.ratio m e).1 *
      (Dbl.sinSeries (Dbl.ratio (m * m) (2 * e)).1 (Dbl.ratio (m * m) (2 * e)).2).1.natAbs)
    ((Dbl.ratio m e).2 *
      (Dbl.sinSeries (Dbl.ratio (m * m) (2 * e)).1 (Dbl.ratio (m * m) (2 * e)).2).2)

/-- Whether the magnitude `m * 2^e` is at most `k`. -/
def Dbl.magLe (m : Nat) (e : Int) (k : Nat) : Bool :=
  decide ((Dbl.ratio m e).1 ≤ k * (Dbl.ratio m e).2)

/-- Whether the magnitude `m * 2^e` is at least `k`. -/
def Dbl.magGe (m : Nat) (e : Int) (k : Nat) : Bool :=
  decide (k * (Dbl.ratio m e).2 ≤ (Dbl.ratio m e).1)

/-- The results of `std::exp` that do not depend on the C library: the values C Annex F.10
fixes (`exp(±0) = 1`, `exp(-inf) = +0`, `exp(+inf) = +inf`, NaN for a NaN), the nearest
double for an argument of magnitude at most 32, and `+0` for an argument at or below
`-746`, where the exact value is less than half the smallest subnormal. -/
def Dbl.expKnown : Dbl → Option Dbl
  | .nan => some .nan
  | .inf true => some 0
  | .inf false => some (.inf false)
  | .finite _ 0 _ => some 1
  | .finite s (m + 1) e =>
    if Dbl.magLe (m + 1) e 32 then some (Dbl.expNear s (m + 1) e)
    else if s && Dbl.magGe (m + 1) e 746 then some 0
    else none

/-- The results of `std::sin` that do not depend on the C library: `sin(±0) = ±0`, NaN for
an infinity or a NaN, and the nearest double for an argument of magnitude at most 8. -/
def Dbl.sinKnown : Dbl → Option Dbl
  | .nan => some .nan
  | .inf _ => some .nan
  | .finite s 0 _ => some (.finite s 0 (-1074))
  | .finite s (m + 1) e =>
    if Dbl.magLe (m + 1) e 8 then some (Dbl.sinNear s (m + 1) e) else none

/-- The results of `std::cos` that do not depend on the C library: `cos(±0) = 1`, NaN for
an infinity or a NaN, and the nearest double for an argument of magnitude at most 8. -/
def Dbl.cosKnown : Dbl → Option Dbl
  | .nan => some .nan
  | .inf _ => some .nan
  | .finite _ 0 _ => some 1
  | .finite _ (m + 1) e =>
    if Dbl.magLe (m + 1) e 8 then some (Dbl.cosNear (m + 1) e) else none

/-- A C math library on doubles. `exp`, `sin` and `cos` return the results listed in
`Dbl.expKnown`, `Dbl.sinKnown` and `Dbl.cosKnown`: the special values of C Annex F.10 and,
at arguments of moderate size, the double nearest to the exact value. (An actual library
may return a neighbouring double at rare arguments; the GNU C library returns the nearest
one at every argument evaluated in the theorems below.) `std::pow(b, 2.0)`, the only
exponent the heat source uses, is the correctly rounded square `b * b`. Every other result
is left to the library `rest`, about which nothing is assumed. `libMesh::pi` is the double
nearest to pi. -/
def libm (rest : StdMath Dbl) : StdMath Dbl where
  exp x := (Dbl.expKnown x).getD (rest.exp x)
  sin x := (Dbl.sinKnown x).getD (rest.sin x)
  cos x := (Dbl.cosKnown x).getD (rest.cos x)
  pow b e := if e = 2.0 then b * b else rest.pow b e
  pi := 3.14159265358979323846

/-- A library every result of which is NaN. In `libm unknownMath` the results that `libm`
fixes are as in any C library, and a result it does not fix is NaN, so it shows up in
whatever is computed from it. -/
def unknownMath : StdMath Dbl :=
  ⟨fun _ => .nan, fun _ => .nan, fun _ => .nan, fun _ _ => .nan, .nan⟩

/-- The end-to-end scenario on doubles (centre at the origin, `ry = rz = 1`, `va = 1`), with
the power, the efficiency, `rx`, the tilt and `half_model` as given. -/
def dblScenario (power efficiency rx tilt : Dbl) (half : Bool) : InputParameters Dbl :=
  { path_x := some 0, path_y := some 0, path_z := some 0
    rx := some rx, ry := some 1, rz := some 1
    power := some power, efficiency := some efficiency, tilt := some tilt
    va := some 1, half_model := some half }

/-- The heat source object constructed from `dblScenario`; the functions behind the
function parameters are never called, all thirteen values being constants. -/
def dblSource (power efficiency rx tilt : Dbl) (half : Bool) :
    FunctionPathDiffusedEllipsoidHeatSource Dbl :=
  memberInit (fun _ _ => 0) (dblScenario power efficiency rx tilt half)

/-- The scenario `dblScenario 100 1 1 0 false` with the centre moved to `(0, cy, 0)`. -/
def shiftedScenario (cy : Dbl) : InputParameters Dbl :=
  { dblScenario 100.0 1 1 0 false with path_y := some cy }

/-- The heat source object constructed from `shiftedScenario`. -/
def shiftedSource (cy : Dbl) : FunctionPathDiffusedEllipsoidHeatSource Dbl :=
  memberInit (fun _ _ => 0) (shiftedScenario cy)

/-- The scenario `dblScenario 100 1 1 0 false` with the x weave amplitude `amp`. -/
def weaveXScenario (amp : Dbl) : InputParameters Dbl :=
  { dblScenario 100.0 1 1 0 false with weave_amp_x := some amp }

/-- The heat source object constructed from `weaveXScenario`. -/
def weaveXSource (amp : Dbl) : FunctionPathDiffusedEllipsoidHeatSource Dbl :=
  memberInit (fun _ _ => 0) (weaveXScenario amp)

/-! ## The constructor -/

theorem construct_eq_error {α : Type} [Zero α] [One α] (g : String → α → α)
    (p : InputParameters α) (msg : String) :
    FunctionPathDiffusedEllipsoidHeatSource.construct g p = .error msg ↔
      constructorBody p = .error msg := by
  unfold FunctionPathDiffusedEllipsoidHeatSource.construct
  cases constructorBody p <;> simp

theorem construct_eq_ok {α : Type} [Zero α] [One α] (g : String → α → α)
    (p : InputParameters α) (hs : FunctionPathDiffusedEllipsoidHeatSource α) :
    FunctionPathDiffusedEllipsoidHeatSource.construct g p = .ok hs ↔
      constructorBody p = .ok () ∧ hs = memberInit g p := by
  unfold FunctionPathDiffusedEllipsoidHeatSource.construct
  cases constructorBody p <;> simp [eq_comm]

theorem ite_error_eq_ok (c : Prop) [Decidable c] (e : String) (rest : Except String Unit) :
    (if c then Except.error e else rest) = Except.ok () ↔ ¬ c ∧ rest = Except.ok () := by
  by_cases h : c <;> simp [h]

theorem exists_error_iff (r : Except String Unit) :
    (∃ msg, r = Except.error msg) ↔ r ≠ Except.ok () := by
  cases r <;> simp

theorem TwoSource.forall_iff (Q : TwoSource → Prop) :
    (∀ P, Q P) ↔ Q .path_x ∧ Q .path_y ∧ Q .path_z ∧ Q .rx ∧ Q .ry ∧ Q .rz ∧ Q .power ∧
      Q .efficiency ∧ Q .tilt ∧ Q .weave_amp_x ∧ Q .weave_amp_y ∧ Q .weave_amp_z := by
  constructor
  · intro h
    exact ⟨h _, h _, h _, h _, h _, h _, h _, h _, h _, h _, h _, h _⟩
  · rintro ⟨h1, h2, h3, h4, h5, h6, h7, h8, h9, h10, h11, h12⟩ P
    cases P <;> assumption

theorem calibration_checks_iff (va fva ppva : Bool) :
    ((va = true → fva = false) ∧ (va = true → ppva = false) ∧ (fva = true → ppva = false) ∧
      (va = true ∧ fva = true → ppva = false) ∧ (va = false ∧ fva = false → ¬ ppva = false)) ↔
    va.toNat + fva.toNat + ppva.toNat = 1 := by
  revert va fva ppva
  decide

theorem required_check_iff (a b : Bool) :
    (a = false → ¬ b = false) ↔ (a = true ∨ b = true) := by
  revert a b
  decide

theorem constructorBody_ok_iff {α : Type} (p : InputParameters α) :
    constructorBody p = .ok () ↔
      (∀ P : TwoSource, ¬ (isParamSetByUser (P.constant p) = true ∧
          isParamSetByUser (P.function p) = true)) ∧
      (∀ P : TwoSource, P.required = true →
          isParamSetByUser (P.constant p) = true ∨ isParamSetByUser (P.function p) = true) ∧
      calibrationSourcesSet p = 1 := by
  simp only [constructorBody, ite_error_eq_ok, TwoSource.forall_iff, TwoSource.constant,
    TwoSource.function, TwoSource.required, calibrationSourcesSet, isParamSetByUser]
  simp only [Bool.and_eq_true, Bool.not_eq_true', not_and, Bool.not_eq_true, true_implies,
    false_implies, and_true, Bool.false_eq_true, Bool.not_eq_eq_eq_not, Bool.not_true]
  rw [calibration_checks_iff]
  simp only [required_check_iff]
  constructor
  · rintro ⟨a1, b1, a2, b2, a3, b3, a4, b4, a5, b5, a6, b6, a7, b7, c1, c2, c3, c4, c5, hv⟩
    exact ⟨⟨a1, a2, a3, a4, a5, a6, a7, c1, c2, c3, c4, c5⟩,
      ⟨b1, b2, b3, b4, b5, b6, b7⟩, hv⟩
  · rintro ⟨⟨a1, a2, a3, a4, a5, a6, a7, c1, c2, c3, c4, c5⟩,
      ⟨b1, b2, b3, b4, b5, b6, b7⟩, hv⟩
    exact ⟨a1, b1, a2, b2, a3, b3, a4, b4, a5, b5, a6, b6, a7, b7, c1, c2, c3, c4, c5, hv⟩

theorem constructorBody_setConstant {α : Type} (p : InputParameters α) (P : TwoSource)
    (c : α) (hreq : P.required = false)
    (hc : isParamSetByUser (P.constant p) = false)
    (hf : isParamSetByUser (P.function p) = false) :
    constructorBody (P.setConstant c p) = constructorBody p := by
  cases P <;> simp only [TwoSource.required, Bool.true_eq_false] at hreq <;>
    simp only [TwoSource.constant, TwoSource.function] at hc hf <;>
    simp only [constructorBody, TwoSource.setConstant, hc, hf, Bool.and_false, Bool.false_and]

/-- C2: when both forms of a two-source parameter are set, the constructor aborts. -/
theorem both_set_is_error {α : Type} [LinearOrderedField α] (g : String → α → α)
    (p : InputParameters α) (P : TwoSource)
    (hc : isParamSetByUser (P.constant p) = true)
    (hf : isParamSetByUser (P.function p) = true) :
    ∃ msg, FunctionPathDiffusedEllipsoidHeatSource.construct g p = .error msg := by
  simp only [construct_eq_error, exists_error_iff, ne_eq, constructorBody_ok_iff]
  intro h
  exact h.1 P ⟨hc, hf⟩

theorem both_set_is_error_witness :
    isParamSetByUser (TwoSource.weave_amp_z.constant
        { scenario ℚ false with weave_amp_z := some 2, function_weave_amp_z := some "wz" })
      = true ∧
    ∃ msg, FunctionPathDiffusedEllipsoidHeatSource.construct (fun _ _ => (0 : ℚ))
        { scenario ℚ false with weave_amp_z := some 2, function_weave_amp_z := some "wz" }
      = .error msg :=
  ⟨rfl, both_set_is_error _ _ TwoSource.weave_amp_z rfl rfl⟩

/-- C3: with neither form of a two-source parameter set, the constructor aborts when the
parameter is required; when it is optional, the outcome of the constructor (success, or
the error and its message) is the one obtained with the constant form supplied, so the
absence of the parameter is never the cause of an error. -/
theorem neither_set {α : Type} [LinearOrderedField α] (g : String → α → α)
    (p : InputParameters α) (P : TwoSource)
    (hc : isParamSetByUser (P.constant p) = false)
    (hf : isParamSetByUser (P.function p) = false) :
    (P.required = true →
      ∃ msg, FunctionPathDiffusedEllipsoidHeatSource.construct g p = .error msg) ∧
    (P.required = false → ∀ c : α,
      (∀ msg, FunctionPathDiffusedEllipsoidHeatSource.construct g p = .error msg ↔
        FunctionPathDiffusedEllipsoidHeatSource.construct g (P.setConstant c p) = .error msg) ∧
      ((∃ hs, FunctionPathDiffusedEllipsoidHeatSource.construct g p = .ok hs) ↔
        ∃ hs, FunctionPathDiffusedEllipsoidHeatSource.construct g (P.setConstant c p)
          = .ok hs)) := by
  constructor
  · intro hreq
    simp only [construct_eq_error, exists_error_iff, ne_eq, constructorBody_ok_iff]
    intro h
    rcases h.2.1 P hreq with h1 | h1
    · rw [hc] at h1
      exact Bool.false_ne_true h1
    · rw [hf] at h1
      exact Bool.false_ne_true h1
  · intro hreq c
    refine ⟨fun msg => ?_, ?_⟩
    · rw [construct_eq_error, construct_eq_error, constructorBody_setConstant p P c hreq hc hf]
    · simp only [construct_eq_ok, constructorBody_setConstant p P c hreq hc hf]
      constructor
      · rintro ⟨hs, h, -⟩
        exact ⟨_, h, rfl⟩
      · rintro ⟨hs, h, -⟩
        exact ⟨_, h, rfl⟩

theorem neither_set_witness :
    (∃ msg, FunctionPathDiffusedEllipsoidHeatSource.construct (fun _ _ => (0 : ℚ))
        { scenario ℚ false with power := none } = .error msg) ∧
    ((∃ hs, FunctionPathDiffusedEllipsoidHeatSource.construct (fun _ _ => (0 : ℚ))
        { scenario ℚ false with tilt := none } = .ok hs) ↔
      ∃ hs, FunctionPathDiffusedEllipsoidHeatSource.construct (fun _ _ => (0 : ℚ))
        (TwoSource.tilt.setConstant 3 { scenario ℚ false with tilt := none }) = .ok hs) :=
  ⟨(neither_set _ { scenario ℚ false with power := none } TwoSource.power rfl rfl).1 rfl,
   ((neither_set _ { scenario ℚ false with tilt := none } TwoSource.tilt rfl rfl).2 rfl 3).2⟩

/-- C4: when every other parameter group is validly configured, the constructor succeeds
exactly when one of `va`, `function_va`, `pp_va` is set, and aborts with an error for
every combination with none, two or three of them set. -/
theorem calibration_exactly_one {α : Type} [LinearOrderedField α] (g : String → α → α)
    (p : InputParameters α) (hv : othersValid p) :
    ((∃ hs, FunctionPathDiffusedEllipsoidHeatSource.construct g p = .ok hs) ↔
      calibrationSourcesSet p = 1) ∧
    (calibrationSourcesSet p ≠ 1 →
      ∃ msg, FunctionPathDiffusedEllipsoidHeatSource.construct g p = .error msg) ∧
    (calibrationSourcesSet p = 1 →
      ∀ msg, FunctionPathDiffusedEllipsoidHeatSource.construct g p ≠ .error msg) := by
  have hok : constructorBody p = .ok () ↔ calibrationSourcesSet p = 1 := by
    rw [constructorBody_ok_iff]
    exact ⟨fun h => h.2.2, fun h => ⟨fun P => (hv P).1, fun P => (hv P).2, h⟩⟩
  refine ⟨?_, ?_, ?_⟩
  · simp only [construct_eq_ok, ← hok]
    exact ⟨fun ⟨_, h, _⟩ => h, fun h => ⟨_, h, rfl⟩⟩
  · intro h
    simp only [construct_eq_error, exists_error_iff, ne_eq, hok]
    exact h
  · intro h msg
    simp only [ne_eq, construct_eq_error, hok.2 h]
    exact fun h => by cases h

theorem othersValid_scenario (half : Bool) : othersValid (scenario ℚ half) := by
  intro P
  cases P <;> simp [scenario, TwoSource.constant, TwoSource.function, TwoSource.required,
    isParamSetByUser]

theorem calibration_exactly_one_witness :
    othersValid (scenario ℚ false) ∧
    ((∃ hs, FunctionPathDiffusedEllipsoidHeatSource.construct (fun _ _ => (0 : ℚ))
        (scenario ℚ false) = .ok hs) ↔ calibrationSourcesSet (scenario ℚ false) = 1) :=
  ⟨othersValid_scenario false,
   (calibration_exactly_one _ (scenario ℚ false) (othersValid_scenario false)).1⟩

/-! ## The volumetric normaliser -/

theorem constructorBody_scenario (α : Type) [LinearOrderedField α] (half : Bool) :
    constructorBody (scenario α half) = .ok () := by
  simp [constructorBody, scenario, isParamSetByUser]

theorem rpow_two_literal (b : ℝ) : b ^ (2.0 : ℝ) = b ^ 2 := by
  have h : (2.0 : ℝ) = 2 := by norm_num
  rw [h, Real.rpow_two]

theorem computeQp_calc_va {α : Type} [Add α] [Sub α] [Mul α] [Div α] [Neg α] [LT α]
    [DecidableRel (fun a b : α => a < b)] [OfScientific α] [NatCast α]
    (m : StdMath α) (pp : String → α) (hs : FunctionPathDiffusedEllipsoidHeatSource α) (t x y z : α) :
    (hs.computeQpProperties m pp t x y z).calc_va =
      calc_va_temp m (resolveParameters hs t) (x_rot m (resolveParameters hs t) x y)
        (y_rot m (resolveParameters hs t) x y) z := rfl

theorem computeQp_heat_full {α : Type} [Add α] [Sub α] [Mul α] [Div α] [Neg α] [LT α]
    [DecidableRel (fun a b : α => a < b)] [OfScientific α] [NatCast α]
    (m : StdMath α) (pp : String → α) (hs : FunctionPathDiffusedEllipsoidHeatSource α) (t x y z : α)
    (hhalf : hs._half_model = false) :
    (hs.computeQpProperties m pp t x y z).volumetric_heat =
      (resolveParameters hs t).p_t * (resolveParameters hs t).eta_t *
        (hs.computeQpProperties m pp t x y z).calc_va / calibration pp hs t := by
  simp only [FunctionPathDiffusedEllipsoidHeatSource.computeQpProperties, calibration, hhalf,
    Bool.false_eq_true, if_false, if_true]
  split_ifs <;> rfl

theorem computeQp_heat_half {α : Type} [Add α] [Sub α] [Mul α] [Div α] [Neg α] [LT α]
    [DecidableRel (fun a b : α => a < b)] [OfScientific α] [NatCast α]
    (m : StdMath α) (pp : String → α) (hs : FunctionPathDiffusedEllipsoidHeatSource α) (t x y z : α)
    (hhalf : hs._half_model = true) :
    (hs.computeQpProperties m pp t x y z).volumetric_heat =
      0.5 * (resolveParameters hs t).p_t * (resolveParameters hs t).eta_t *
        (hs.computeQpProperties m pp t x y z).calc_va / calibration pp hs t := by
  simp only [FunctionPathDiffusedEllipsoidHeatSource.computeQpProperties, calibration, hhalf,
    Bool.false_eq_true, if_false, if_true]
  split_ifs <;> rfl

/-- C1: for an accepted configuration with `half_model` false, `volumetric_heat` is
`power(t) * efficiency(t) * calc_va / calibration(t)`, the calibration being `va` when set,
else `function_va` at `t` when set, else the current value of the postprocessor `pp_va`;
and in the end-to-end scenario the centre point has `calc_va = 1` and
`volumetric_heat = 100` at every time. -/
theorem volumetric_heat_formula :
    (∀ (α : Type) [LinearOrderedField α] (m : StdMath α) (g : String → α → α)
        (pp : String → α) (p : InputParameters α)
        (hs : FunctionPathDiffusedEllipsoidHeatSource α) (t x y z : α),
      FunctionPathDiffusedEllipsoidHeatSource.construct g p = .ok hs →
      getParam p.half_model false = false →
      (∀ v, p.va = some v →
        (hs.computeQpProperties m pp t x y z).volumetric_heat =
          (resolveParameters hs t).p_t * (resolveParameters hs t).eta_t *
            (hs.computeQpProperties m pp t x y z).calc_va / v) ∧
      (p.va = none → ∀ f, p.function_va = some f →
        (hs.computeQpProperties m pp t x y z).volumetric_heat =
          (resolveParameters hs t).p_t * (resolveParameters hs t).eta_t *
            (hs.computeQpProperties m pp t x y z).calc_va / g f t) ∧
      (p.va = none → p.function_va = none → ∃ n, p.pp_va = some n ∧
        (hs.computeQpProperties m pp t x y z).volumetric_heat =
          (resolveParameters hs t).p_t * (resolveParameters hs t).eta_t *
            (hs.computeQpProperties m pp t x y z).calc_va / pp n)) ∧
    (∀ (g : String → ℝ → ℝ) (pp : String → ℝ) (t : ℝ),
      ∃ hs, FunctionPathDiffusedEllipsoidHeatSource.construct g (scenario ℝ false) = .ok hs ∧
        (hs.computeQpProperties ⟨Real.exp, Real.sin, Real.cos, fun b e => b ^ e, Real.pi⟩
          pp t 0 0 0).calc_va = 1 ∧
        (hs.computeQpProperties ⟨Real.exp, Real.sin, Real.cos, fun b e => b ^ e, Real.pi⟩
          pp t 0 0 0).volumetric_heat = 100) := by
  constructor
  · intro α _ m g pp p hs t x y z hok hhalf
    rw [construct_eq_ok] at hok
    obtain ⟨hbody, rfl⟩ := hok
    have hcal := ((constructorBody_ok_iff p).1 hbody).2.2
    have hh : (memberInit g p)._half_model = false := hhalf
    rw [computeQp_heat_full m pp _ t x y z hh]
    refine ⟨?_, ?_, ?_⟩
    · intro v hv
      simp [calibration, memberInit, hv, isParamSetByUser, getParam]
    · intro hva f hf
      simp [calibration, memberInit, hva, hf, isParamSetByUser, getParam]
    · intro hva hf
      simp only [calibrationSourcesSet, hva, hf] at hcal
      cases hpp : p.pp_va with
      | none => simp [hpp] at hcal
      | some n =>
        refine ⟨n, rfl, ?_⟩
        simp [calibration, memberInit, hva, hf, hpp, isParamSetByUser, getParam]
  · intro g pp t
    refine ⟨memberInit g (scenario ℝ false), ?_, ?_⟩
    · rw [construct_eq_ok]
      exact ⟨constructorBody_scenario ℝ false, rfl⟩
    · have hc : ((memberInit g (scenario ℝ false)).computeQpProperties
          ⟨Real.exp, Real.sin, Real.cos, fun b e => b ^ e, Real.pi⟩ pp t 0 0 0).calc_va = 1 := by
        rw [computeQp_calc_va]
        simp [memberInit, scenario, isParamSetByUser, getParam, calc_va_temp, weaveActive,
          resolveParameters, baseGaussian, x_rot, y_rot, rpow_two_literal]
        norm_num
      refine ⟨hc, ?_⟩
      rw [computeQp_heat_full _ pp _ t 0 0 0 rfl, hc]
      simp [memberInit, scenario, isParamSetByUser, getParam, calibration, resolveParameters]

theorem construct_scenario (α : Type) [LinearOrderedField α] (g : String → α → α)
    (half : Bool) :
    FunctionPathDiffusedEllipsoidHeatSource.construct g (scenario α half) =
      .ok (memberInit g (scenario α half)) := by
  rw [construct_eq_ok]
  exact ⟨constructorBody_scenario α half, rfl⟩

theorem volumetric_heat_formula_witness :
    FunctionPathDiffusedEllipsoidHeatSource.construct (fun _ _ => (0 : ℝ)) (scenario ℝ false) =
      .ok (memberInit (fun _ _ => 0) (scenario ℝ false)) ∧
    ((memberInit (fun _ _ => (0 : ℝ)) (scenario ℝ false)).computeQpProperties
        ⟨Real.exp, Real.sin, Real.cos, fun b e => b ^ e, Real.pi⟩ (fun _ => 0) 2 3 4 5
      ).volumetric_heat =
      (resolveParameters (memberInit (fun _ _ => (0 : ℝ)) (scenario ℝ false)) 2).p_t *
        (resolveParameters (memberInit (fun _ _ => (0 : ℝ)) (scenario ℝ false)) 2).eta_t *
        ((memberInit (fun _ _ => (0 : ℝ)) (scenario ℝ false)).computeQpProperties
          ⟨Real.exp, Real.sin, Real.cos, fun b e => b ^ e, Real.pi⟩ (fun _ => 0) 2 3 4 5
        ).calc_va / 1 :=
  ⟨construct_scenario ℝ _ false,
   (volumetric_heat_formula.1 ℝ ⟨Real.exp, Real.sin, Real.cos, fun b e => b ^ e, Real.pi⟩
      (fun _ _ => 0) (fun _ => 0) (scenario ℝ false) _ 2 3 4 5
      (construct_scenario ℝ _ false) rfl).1 1 rfl⟩

/-! ## Parameter resolution -/

/-- C5: for a configuration accepted by the constructor, the local that
`computeQpProperties` uses for a two-source parameter is the user's constant when it was
set, else the named function at `t` when that was set; with neither set the parameter is
an optional one and the local is its default (efficiency 1, tilt 0, weave amplitudes 0). -/
theorem resolved_value {α : Type} [LinearOrderedField α] (g : String → α → α)
    (p : InputParameters α) (hs : FunctionPathDiffusedEllipsoidHeatSource α)
    (hok : FunctionPathDiffusedEllipsoidHeatSource.construct g p = .ok hs)
    (P : TwoSource) (t : α) :
    (∀ c, P.constant p = some c → P.resolved (resolveParameters hs t) = c) ∧
    (P.constant p = none → ∀ f, P.function p = some f →
      P.resolved (resolveParameters hs t) = g f t) ∧
    (P.constant p = none → P.function p = none →
      P.required = false ∧ P.resolved (resolveParameters hs t) = P.default) := by
  rw [construct_eq_ok] at hok
  obtain ⟨hbody, rfl⟩ := hok
  have hreq := ((constructorBody_ok_iff p).1 hbody).2.1 P
  refine ⟨?_, ?_, ?_⟩
  · intro c hc
    cases P <;> simp only [TwoSource.constant] at hc <;>
      simp [TwoSource.resolved, resolveParameters, memberInit, isParamSetByUser, getParam, hc]
  · intro hc f hf
    cases P <;> simp only [TwoSource.constant, TwoSource.function] at hc hf <;>
      simp [TwoSource.resolved, resolveParameters, memberInit, isParamSetByUser, getParam,
        hc, hf]
  · intro hc hf
    cases P <;> simp only [TwoSource.constant, TwoSource.function] at hc hf <;>
      simp [TwoSource.resolved, resolveParameters, memberInit, isParamSetByUser, getParam,
        hc, hf, TwoSource.required, TwoSource.default, TwoSource.constant,
        TwoSource.function] at hreq ⊢ <;>
      norm_num

theorem construct_rampScenario (g : String → ℚ → ℚ) :
    FunctionPathDiffusedEllipsoidHeatSource.construct g rampScenario =
      .ok (memberInit g rampScenario) := by
  rw [construct_eq_ok]
  exact ⟨by simp [constructorBody, rampScenario, scenario, isParamSetByUser], rfl⟩

theorem resolved_value_witness :
    FunctionPathDiffusedEllipsoidHeatSource.construct (fun _ v => v + 7) rampScenario =
      .ok (memberInit (fun _ v => v + 7) rampScenario) ∧
    TwoSource.power.resolved
      (resolveParameters (memberInit (fun _ v => v + 7) rampScenario) 5) = 5 + 7 :=
  ⟨construct_rampScenario _,
   (resolved_value (fun _ v => v + 7) rampScenario _ (construct_rampScenario _)
      TwoSource.power 5).2.1 rfl "ramp" rfl⟩

/-! ## Coordinate transform and shape function -/

theorem weaveActive_eq_false_iff {α : Type} [LinearOrderedField α] (l : Locals α) :
    weaveActive l = false ↔
      l.weave_x_t ≤ 1e-6 ∧ l.weave_y_t ≤ 1e-6 ∧ l.weave_z_t ≤ 1e-6 := by
  simp [weaveActive, and_assoc]

theorem weaveActive_eq_true_iff {α : Type} [LinearOrderedField α] (l : Locals α) :
    weaveActive l = true ↔
      l.weave_x_t > 1e-6 ∨ l.weave_y_t > 1e-6 ∨ l.weave_z_t > 1e-6 := by
  simp [weaveActive, or_assoc]

theorem calc_va_temp_no_weave {α : Type} [LinearOrderedField α] (m : StdMath α)
    (l : Locals α) (xr yr z : α) (h : weaveActive l = false) :
    calc_va_temp m l xr yr z = baseGaussian m l xr yr z := by
  have h0 : (0.0 : α) = 0 := by norm_num
  simp [calc_va_temp, h, h0]

theorem sum_axis {α : Type} [AddCommMonoid α] (f : Axis → α) :
    ∑ a : Axis, f a = f .x + f .y + f .z := by
  have h : (Finset.univ : Finset Axis) = {Axis.x, Axis.y, Axis.z} := by decide
  rw [h]
  simp [add_assoc]

theorem weaveTerm_x {α : Type} [LinearOrderedField α] (m : StdMath α) (l : Locals α)
    (xr yr z : α) (i : Nat) :
    weaveTerm m l xr yr z .x i =
      m.exp (-(
        m.pow (xr + l.weave_x_t * m.sin (m.pi * (i : α) / 6)) 2.0 / m.pow l.rx_t 2.0 +
        m.pow yr 2.0 / m.pow l.ry_t 2.0 +
        m.pow (z - l.path_z_t) 2.0 / m.pow l.rz_t 2.0)) := by
  simp [weaveTerm, Axis.amplitude]

theorem weaveTerm_y {α : Type} [LinearOrderedField α] (m : StdMath α) (l : Locals α)
    (xr yr z : α) (i : Nat) :
    weaveTerm m l xr yr z .y i =
      m.exp (-(
        m.pow xr 2.0 / m.pow l.rx_t 2.0 +
        m.pow (yr + l.weave_y_t * m.sin (m.pi * (i : α) / 6)) 2.0 / m.pow l.ry_t 2.0 +
        m.pow (z - l.path_z_t) 2.0 / m.pow l.rz_t 2.0)) := by
  simp [weaveTerm, Axis.amplitude]

theorem weaveTerm_z {α : Type} [LinearOrderedField α] (m : StdMath α) (l : Locals α)
    (xr yr z : α) (i : Nat) :
    weaveTerm m l xr yr z .z i =
      m.exp (-(
        m.pow xr 2.0 / m.pow l.rx_t 2.0 +
        m.pow yr 2.0 / m.pow l.ry_t 2.0 +
        m.pow (z - l.path_z_t + l.weave_z_t * m.sin (m.pi * (i : α) / 6)) 2.0 /
          m.pow l.rz_t 2.0)) := by
  simp [weaveTerm, Axis.amplitude]

theorem weaveLoopBody_eq {α : Type} [LinearOrderedField α] (m : StdMath α) (l : Locals α)
    (xr yr z acc : α) (i : Nat) :
    weaveLoopBody m l xr yr z acc i =
      acc + ∑ a ∈ Finset.univ.filter (fun a : Axis => a.amplitude l > 1e-6),
        weaveTerm m l xr yr z a i := by
  rw [Finset.sum_filter, sum_axis]
  simp only [weaveLoopBody, Nat.cast_ofNat, Axis.amplitude, ← weaveTerm_x, ← weaveTerm_y,
    ← weaveTerm_z]
  by_cases hx : l.weave_x_t > 1e-6 <;> by_cases hy : l.weave_y_t > 1e-6 <;>
    by_cases hz : l.weave_z_t > 1e-6 <;>
    simp only [hx, hy, hz, if_true, if_false, add_zero, zero_add, add_assoc]

theorem foldl_weaveLoopBody {α : Type} [LinearOrderedField α] (m : StdMath α) (l : Locals α)
    (xr yr z acc : α) (n : Nat) :
    (List.range n).foldl (weaveLoopBody m l xr yr z) acc =
      acc + ∑ i ∈ Finset.range n,
        ∑ a ∈ Finset.univ.filter (fun a : Axis => a.amplitude l > 1e-6),
          weaveTerm m l xr yr z a i := by
  induction n with
  | zero => simp
  | succ k ih =>
    rw [List.range_succ, List.foldl_append, ih, Finset.sum_range_succ]
    simp only [List.foldl_cons, List.foldl_nil]
    rw [weaveLoopBody_eq, add_assoc]

/-- C10: on the weave path `calc_va` is the sum, over the samples `i = 0..12` and over
exactly the axes whose resolved amplitude exceeds 1e-6, of the Gaussian term in which only
that axis is offset by `amplitude * sin(pi * i / 6)`; with x amplitude 0.1, the other
amplitudes 0, unit radii and the query point at the centre this is the sum for `i = 0..12`
of `exp(-(0.1 * sin(pi * i / 6))^2)`. -/
theorem weave_superposition :
    (∀ (α : Type) [LinearOrderedField α] (m : StdMath α) (pp : String → α)
        (hs : FunctionPathDiffusedEllipsoidHeatSource α) (t x y z : α),
      weaveActive (resolveParameters hs t) = true →
      (hs.computeQpProperties m pp t x y z).calc_va =
        ∑ i ∈ Finset.range 13,
          ∑ a ∈ Finset.univ.filter
              (fun a : Axis => a.amplitude (resolveParameters hs t) > 1e-6),
            weaveTerm m (resolveParameters hs t) (x_rot m (resolveParameters hs t) x y)
              (y_rot m (resolveParameters hs t) x y) z a i) ∧
    (∀ (pp : String → ℝ) (hs : FunctionPathDiffusedEllipsoidHeatSource ℝ) (t x y z : ℝ),
      (resolveParameters hs t).weave_x_t = 0.1 →
      (resolveParameters hs t).weave_y_t = 0 → (resolveParameters hs t).weave_z_t = 0 →
      (resolveParameters hs t).rx_t = 1 → (resolveParameters hs t).ry_t = 1 →
      (resolveParameters hs t).rz_t = 1 →
      x = (resolveParameters hs t).path_x_t → y = (resolveParameters hs t).path_y_t →
      z = (resolveParameters hs t).path_z_t →
      (hs.computeQpProperties ⟨Real.exp, Real.sin, Real.cos, fun b e => b ^ e, Real.pi⟩
          pp t x y z).calc_va =
        ∑ i ∈ Finset.range 13, Real.exp (-(0.1 * Real.sin (Real.pi * (i : ℝ) / 6)) ^ 2)) := by
  have hgen : ∀ (α : Type) [LinearOrderedField α] (m : StdMath α) (pp : String → α)
      (hs : FunctionPathDiffusedEllipsoidHeatSource α) (t x y z : α),
      weaveActive (resolveParameters hs t) = true →
      (hs.computeQpProperties m pp t x y z).calc_va =
        ∑ i ∈ Finset.range 13,
          ∑ a ∈ Finset.univ.filter
              (fun a : Axis => a.amplitude (resolveParameters hs t) > 1e-6),
            weaveTerm m (resolveParameters hs t) (x_rot m (resolveParameters hs t) x y)
              (y_rot m (resolveParameters hs t) x y) z a i := by
    intro α _ m pp hs t x y z h
    have h0 : (0.0 : α) = 0 := by norm_num
    rw [computeQp_calc_va]
    simp only [calc_va_temp, h, if_true]
    rw [foldl_weaveLoopBody, h0, zero_add]
  refine ⟨hgen, ?_⟩
  intro pp hs t x y z hwx hwy hwz hrx hry hrz ex ey ez
  have hact : weaveActive (resolveParameters hs t) = true := by
    rw [weaveActive_eq_true_iff, hwx]
    left
    norm_num
  rw [hgen ℝ _ pp hs t x y z hact]
  refine Finset.sum_congr rfl (fun i _ => ?_)
  rw [Finset.sum_filter, sum_axis]
  simp only [Axis.amplitude, hwx, hwy, hwz, weaveTerm_x]
  norm_num [x_rot, y_rot, ex, ey, hrx, hry, hrz, hwx, rpow_two_literal, ← ez]

theorem weave_superposition_witness :
    ((memberInit (fun _ _ => 0) (weaveScenario ℝ)).computeQpProperties
        ⟨Real.exp, Real.sin, Real.cos, fun b e => b ^ e, Real.pi⟩ (fun _ => 0) 4 0 0 0
      ).calc_va =
      ∑ i ∈ Finset.range 13, Real.exp (-(0.1 * Real.sin (Real.pi * (i : ℝ) / 6)) ^ 2) :=
  weave_superposition.2 (fun _ => 0) (memberInit (fun _ _ => 0) (weaveScenario ℝ)) 4 0 0 0
    (by norm_num [resolveParameters, memberInit, weaveScenario, scenario, isParamSetByUser,
      getParam])
    (by norm_num [resolveParameters, memberInit, weaveScenario, scenario, isParamSetByUser,
      getParam])
    (by norm_num [resolveParameters, memberInit, weaveScenario, scenario, isParamSetByUser,
      getParam])
    (by norm_num [resolveParameters, memberInit, weaveScenario, scenario, isParamSetByUser,
      getParam])
    (by norm_num [resolveParameters, memberInit, weaveScenario, scenario, isParamSetByUser,
      getParam])
    (by norm_num [resolveParameters, memberInit, weaveScenario, scenario, isParamSetByUser,
      getParam])
    (by norm_num [resolveParameters, memberInit, weaveScenario, scenario, isParamSetByUser,
      getParam])
    (by norm_num [resolveParameters, memberInit, weaveScenario, scenario, isParamSetByUser,
      getParam])
    (by norm_num [resolveParameters, memberInit, weaveScenario, scenario, isParamSetByUser,
      getParam])

/-! ## Error messages of the constructor -/

/-- C11: with both forms of `weave_amp_y` (or of `weave_amp_z`) set and every earlier check
passing, the constructor's message is the one of the `weave_amp_x` pair and contains
neither `weave_amp_y` nor `weave_amp_z`; for `weave_amp_x` itself the same message does
name the pair. -/
theorem weave_pair_message :
    (isParamSetByUser bothWeaveY.weave_amp_x = false ∧
      FunctionPathDiffusedEllipsoidHeatSource.construct (fun _ _ => 0) bothWeaveY =
        .error "Cannot set both weave_amp_x and function_weave_amp_x" ∧
      mentions "Cannot set both weave_amp_x and function_weave_amp_x" "weave_amp_y" = false) ∧
    (isParamSetByUser bothWeaveZ.weave_amp_x = false ∧
      FunctionPathDiffusedEllipsoidHeatSource.construct (fun _ _ => 0) bothWeaveZ =
        .error "Cannot set both weave_amp_x and function_weave_amp_x" ∧
      mentions "Cannot set both weave_amp_x and function_weave_amp_x" "weave_amp_z" = false) ∧
    (FunctionPathDiffusedEllipsoidHeatSource.construct (fun _ _ => 0) bothWeaveX =
        .error "Cannot set both weave_amp_x and function_weave_amp_x" ∧
      mentions "Cannot set both weave_amp_x and function_weave_amp_x" "weave_amp_x" = true ∧
      mentions "Cannot set both weave_amp_x and function_weave_amp_x" "function_weave_amp_x"
        = true) := by
  refine ⟨⟨rfl, ?_, by decide⟩, ⟨rfl, ?_, by decide⟩, ?_, by decide, by decide⟩
  · rw [construct_eq_error]
    rfl
  · rw [construct_eq_error]
    rfl
  · rw [construct_eq_error]
    rfl

theorem ite_error_eq_error (c : Prop) [Decidable c] (e m : String)
    (rest : Except String Unit) :
    (if c then Except.error e else rest) = Except.error m ↔
      (c ∧ e = m) ∨ (¬ c ∧ rest = Except.error m) := by
  by_cases h : c <;> simp [h]

theorem constructorBody_ne_three_way {α : Type} (p : InputParameters α) :
    constructorBody p ≠ .error "Cannot set va, function_va and pp_va" := by
  intro h
  simp only [constructorBody, ite_error_eq_error, String.reduceEq, and_false, false_or,
    and_true, reduceCtorEq, or_false] at h
  obtain ⟨-, -, -, -, -, -, -, -, -, -, -, -, -, -, -, -, -, -, -, h1, -, -, h2⟩ := h
  simp only [Bool.and_eq_true] at h1 h2
  exact h1 h2.1

theorem both_check_false (a b : Bool) (h : ¬ (a = true ∧ b = true)) : (a && b) = false := by
  revert h a b
  decide

theorem neither_check_false (a b : Bool) (h : a = true ∨ b = true) : (!a && !b) = false := by
  revert h a b
  decide

theorem constructorBody_of_othersValid {α : Type} (p : InputParameters α)
    (hv : othersValid p) :
    constructorBody p =
      if isParamSetByUser p.va && isParamSetByUser p.function_va then
        .error "Cannot set both va and function_va"
      else if isParamSetByUser p.va && isParamSetByUser p.pp_va then
        .error "Cannot set both va and pp_va"
      else if isParamSetByUser p.function_va && isParamSetByUser p.pp_va then
        .error "Cannot set both function_va and pp_va"
      else if isParamSetByUser p.va && isParamSetByUser p.function_va
          && isParamSetByUser p.pp_va then
        .error "Cannot set va, function_va and pp_va"
      else if !isParamSetByUser p.va && !isParamSetByUser p.function_va
          && !isParamSetByUser p.pp_va then
        .error "No va, function_va or pp_va defined"
      else
        .ok () := by
  have h1 := (hv .path_x).1
  have h2 := (hv .path_x).2 rfl
  have h3 := (hv .path_y).1
  have h4 := (hv .path_y).2 rfl
  have h5 := (hv .path_z).1
  have h6 := (hv .path_z).2 rfl
  have h7 := (hv .rx).1
  have h8 := (hv .rx).2 rfl
  have h9 := (hv .ry).1
  have h10 := (hv .ry).2 rfl
  have h11 := (hv .rz).1
  have h12 := (hv .rz).2 rfl
  have h13 := (hv .power).1
  have h14 := (hv .power).2 rfl
  have h15 := (hv .efficiency).1
  have h16 := (hv .tilt).1
  have h17 := (hv .weave_amp_x).1
  have h18 := (hv .weave_amp_y).1
  have h19 := (hv .weave_amp_z).1
  simp only [TwoSource.constant, TwoSource.function] at h1 h2 h3 h4 h5 h6 h7 h8 h9 h10
  simp only [TwoSource.constant, TwoSource.function] at h11 h12 h13 h14 h15 h16 h17 h18 h19
  simp only [constructorBody, both_check_false _ _ h1, neither_check_false _ _ h2,
    both_check_false _ _ h3, neither_check_false _ _ h4, both_check_false _ _ h5,
    neither_check_false _ _ h6, both_check_false _ _ h7, neither_check_false _ _ h8,
    both_check_false _ _ h9, neither_check_false _ _ h10, both_check_false _ _ h11,
    neither_check_false _ _ h12, both_check_false _ _ h13, neither_check_false _ _ h14,
    both_check_false _ _ h15, both_check_false _ _ h16, both_check_false _ _ h17,
    both_check_false _ _ h18, both_check_false _ _ h19, Bool.false_eq_true, if_false]

/-- C13: no input makes the constructor raise "Cannot set va, function_va and pp_va"; when
`va`, `function_va` and `pp_va` are all three set the constructor aborts with another
message, and when the calibration check is reached (every two-source group valid) that
message is "Cannot set both va and function_va". -/
theorem three_way_message_unreachable {α : Type} [LinearOrderedField α]
    (g : String → α → α) (p : InputParameters α) :
    (∀ msg, FunctionPathDiffusedEllipsoidHeatSource.construct g p = .error msg →
      msg ≠ "Cannot set va, function_va and pp_va") ∧
    (isParamSetByUser p.va = true → isParamSetByUser p.function_va = true →
      isParamSetByUser p.pp_va = true →
      (∃ msg, FunctionPathDiffusedEllipsoidHeatSource.construct g p = .error msg ∧
        msg ≠ "Cannot set va, function_va and pp_va") ∧
      (othersValid p →
        FunctionPathDiffusedEllipsoidHeatSource.construct g p =
          .error "Cannot set both va and function_va")) := by
  have hne : ∀ msg, FunctionPathDiffusedEllipsoidHeatSource.construct g p = .error msg →
      msg ≠ "Cannot set va, function_va and pp_va" := by
    intro msg h heq
    rw [construct_eq_error, heq] at h
    exact constructorBody_ne_three_way p h
  refine ⟨hne, ?_⟩
  intro hva hfva hpp
  constructor
  · have herr : ∃ msg, FunctionPathDiffusedEllipsoidHeatSource.construct g p = .error msg := by
      simp only [construct_eq_error, exists_error_iff, ne_eq, constructorBody_ok_iff]
      intro h
      have hc := h.2.2
      simp only [isParamSetByUser] at hva hfva hpp
      simp [calibrationSourcesSet, hva, hfva, hpp] at hc
    obtain ⟨msg, hmsg⟩ := herr
    exact ⟨msg, hmsg, hne msg hmsg⟩
  · intro hv
    rw [construct_eq_error, constructorBody_of_othersValid p hv]
    simp only [hva, hfva, Bool.and_self, if_true]

theorem othersValid_threeCalibrations : othersValid threeCalibrations := by
  intro P
  cases P <;> simp [threeCalibrations, scenario, TwoSource.constant, TwoSource.function,
    TwoSource.required, isParamSetByUser]

theorem three_way_message_unreachable_witness :
    isParamSetByUser threeCalibrations.va = true ∧
    isParamSetByUser threeCalibrations.function_va = true ∧
    isParamSetByUser threeCalibrations.pp_va = true ∧
    FunctionPathDiffusedEllipsoidHeatSource.construct (fun _ _ => 0) threeCalibrations =
      .error "Cannot set both va and function_va" :=
  ⟨rfl, rfl, rfl,
   ((three_way_message_unreachable (fun _ _ => 0) threeCalibrations).2 rfl rfl rfl).2
      othersValid_threeCalibrations⟩

/-! ## NEMLMaterialPropertyReset -/

theorem initialSetup_ok {α : Type} [LinearOrderedField α]
    (neml : Option (List String → List Nat)) (s self : NEMLMaterialPropertyReset α)
    (h : NEMLMaterialPropertyReset.initialSetup neml s = .ok self) :
    self._two_stage = s._two_stage ∧ self._variable = s._variable ∧
    self._critical_value = s._critical_value ∧ self._lower_value = s._lower_value ∧
    self._upper_value = s._upper_value ∧
    (self._two_stage = true → self._lower_value < self._upper_value) := by
  unfold NEMLMaterialPropertyReset.initialSetup at h
  cases neml with
  | none => simp at h
  | some f =>
    simp only at h
    split_ifs at h <;> injection h with h' <;> subst h' <;> simp_all

/-- C12: on a user object that passed `initialSetup`, `resetQp` at any quadrature point
with trigger value `v`: single-stage calls `reset_state` iff `v >= critical_value` and never
`const_state` (as the test variant does); two-stage calls `reset_state` iff
`v >= upper_value`, `const_state` iff `lower_value <= v < upper_value`, and neither when
`v < lower_value`; both are never called on the same point. -/
theorem resetQp_calls {α : Type} [LinearOrderedField α]
    (neml : Option (List String → List Nat)) (coupledValue : Nat → α)
    (p : ResetInputParameters α) (self : NEMLMaterialPropertyReset α)
    (hsetup : NEMLMaterialPropertyReset.initialSetup neml
      (NEMLMaterialPropertyReset.construct coupledValue p) = .ok self) (qp : Nat) :
    (self._two_stage = false →
      (callsReset (self.resetQp qp) = true ↔ self._variable qp ≥ self._critical_value) ∧
      callsConst (self.resetQp qp) = false ∧
      self.resetQp qp = NEMLMaterialPropertyResetTest.resetQp self._variable
        self._critical_value self._indices qp) ∧
    (self._two_stage = true →
      (callsReset (self.resetQp qp) = true ↔ self._variable qp ≥ self._upper_value) ∧
      (callsConst (self.resetQp qp) = true ↔
        self._lower_value ≤ self._variable qp ∧ self._variable qp < self._upper_value) ∧
      (self._variable qp < self._lower_value →
        callsReset (self.resetQp qp) = false ∧ callsConst (self.resetQp qp) = false)) ∧
    ¬ (callsReset (self.resetQp qp) = true ∧ callsConst (self.resetQp qp) = true) ∧
    self._variable = coupledValue ∧
    self._two_stage = getParam p.two_stage false ∧
    self._critical_value = getParam p.critical_value 0 ∧
    self._lower_value = getParam p.lower_value 0 ∧
    self._upper_value = getParam p.upper_value 0 := by
  obtain ⟨h2, hvar, hc, hl, hu, hlt⟩ := initialSetup_ok neml _ self hsetup
  refine ⟨?_, ?_, ?_, hvar, h2, hc, hl, hu⟩
  · intro hs
    simp only [NEMLMaterialPropertyReset.resetQp, NEMLMaterialPropertyResetTest.resetQp, hs]
    by_cases hv : self._variable qp ≥ self._critical_value <;>
      simp [hv, callsReset, callsConst]
  · intro hs
    have hlu := hlt hs
    simp only [NEMLMaterialPropertyReset.resetQp, hs]
    by_cases hv : self._variable qp ≥ self._upper_value
    · have hnl : ¬ self._variable qp < self._lower_value :=
        not_lt.2 (le_trans hlu.le hv)
      simp [hv, hnl, callsReset, callsConst]
    · by_cases hw : self._variable qp ≥ self._lower_value
      · have hnl : ¬ self._variable qp < self._lower_value := not_lt.2 hw
        have hv2 : self._variable qp < self._upper_value := not_le.1 hv
        simp [hv, hw, hv2, hnl, callsReset, callsConst]
      · simp [hv, hw, callsReset, callsConst]
  · simp only [NEMLMaterialPropertyReset.resetQp]
    split_ifs <;> simp [callsReset, callsConst]

theorem initialSetup_twoStage :
    NEMLMaterialPropertyReset.initialSetup (some (fun _ => [0]))
        (NEMLMaterialPropertyReset.construct (fun qp => (qp : ℚ)) twoStageInput) =
      .ok twoStageObject := by
  norm_num [NEMLMaterialPropertyReset.initialSetup, NEMLMaterialPropertyReset.construct,
    twoStageInput, twoStageObject, isParamSetByUser, getParam]

theorem resetQp_calls_witness :
    NEMLMaterialPropertyReset.initialSetup (some (fun _ => [0]))
        (NEMLMaterialPropertyReset.construct (fun qp => (qp : ℚ)) twoStageInput) =
      .ok twoStageObject ∧
    twoStageObject._two_stage = true ∧
    (callsConst (twoStageObject.resetQp 3) = true ↔
      twoStageObject._lower_value ≤ twoStageObject._variable 3 ∧
        twoStageObject._variable 3 < twoStageObject._upper_value) :=
  ⟨initialSetup_twoStage, rfl,
   ((resetQp_calls (some (fun _ => [0])) (fun qp => (qp : ℚ)) twoStageInput twoStageObject
      initialSetup_twoStage 3).2.1 rfl).2.1⟩

/-! ## Tilt invariance -/

theorem rot_sq_add_sq (l : Locals ℝ) (x y : ℝ) :
    (x_rot ⟨Real.exp, Real.sin, Real.cos, fun b e => b ^ e, Real.pi⟩ l x y) ^ 2 +
      (y_rot ⟨Real.exp, Real.sin, Real.cos, fun b e => b ^ e, Real.pi⟩ l x y) ^ 2 =
    (x - l.path_x_t) ^ 2 + (y - l.path_y_t) ^ 2 := by
  simp only [x_rot, y_rot]
  have h := Real.sin_sq_add_cos_sq l.tilt_t
  linear_combination ((x - l.path_x_t) ^ 2 + (y - l.path_y_t) ^ 2) * h

theorem baseGaussian_equal_radii (l : Locals ℝ) (x y z : ℝ) (hr : l.rx_t = l.ry_t) :
    baseGaussian ⟨Real.exp, Real.sin, Real.cos, fun b e => b ^ e, Real.pi⟩ l
        (x_rot ⟨Real.exp, Real.sin, Real.cos, fun b e => b ^ e, Real.pi⟩ l x y)
        (y_rot ⟨Real.exp, Real.sin, Real.cos, fun b e => b ^ e, Real.pi⟩ l x y) z =
      Real.exp (-(((x - l.path_x_t) ^ 2 + (y - l.path_y_t) ^ 2) / l.ry_t ^ 2 +
        (z - l.path_z_t) ^ 2 / l.rz_t ^ 2)) := by
  simp only [baseGaussian, rpow_two_literal, hr]
  rw [← rot_sq_add_sq l x y, add_div]

/-- C15: in exact real arithmetic the rotation preserves the planar distance to the
centre for every tilt (`x_rot^2 + y_rot^2 = (x - cx)^2 + (y - cy)^2`); so for two accepted
configurations that differ only in the tilt, with the resolved `rx = ry` non-zero and no
resolved weave amplitude above 1e-6, `calc_va` and `volumetric_heat` are equal. -/
theorem tilt_invariance :
    (∀ (hs : FunctionPathDiffusedEllipsoidHeatSource ℝ) (t x y : ℝ),
      (x_rot ⟨Real.exp, Real.sin, Real.cos, fun b e => b ^ e, Real.pi⟩
          (resolveParameters hs t) x y) ^ 2 +
        (y_rot ⟨Real.exp, Real.sin, Real.cos, fun b e => b ^ e, Real.pi⟩
          (resolveParameters hs t) x y) ^ 2 =
      (x - (resolveParameters hs t).path_x_t) ^ 2 +
        (y - (resolveParameters hs t).path_y_t) ^ 2) ∧
    (∀ (g : String → ℝ → ℝ) (pp : String → ℝ) (p : InputParameters ℝ)
        (tilt1 tilt2 : Option ℝ) (ftilt1 ftilt2 : Option String)
        (hs1 hs2 : FunctionPathDiffusedEllipsoidHeatSource ℝ) (t x y z : ℝ),
      FunctionPathDiffusedEllipsoidHeatSource.construct g
          { p with tilt := tilt1, function_tilt := ftilt1 } = .ok hs1 →
      FunctionPathDiffusedEllipsoidHeatSource.construct g
          { p with tilt := tilt2, function_tilt := ftilt2 } = .ok hs2 →
      (resolveParameters hs1 t).rx_t = (resolveParameters hs1 t).ry_t →
      (resolveParameters hs1 t).rx_t ≠ 0 →
      (resolveParameters hs1 t).weave_x_t ≤ 1e-6 →
      (resolveParameters hs1 t).weave_y_t ≤ 1e-6 →
      (resolveParameters hs1 t).weave_z_t ≤ 1e-6 →
      (hs1.computeQpProperties ⟨Real.exp, Real.sin, Real.cos, fun b e => b ^ e, Real.pi⟩
          pp t x y z).calc_va =
        (hs2.computeQpProperties ⟨Real.exp, Real.sin, Real.cos, fun b e => b ^ e, Real.pi⟩
          pp t x y z).calc_va ∧
      (hs1.computeQpProperties ⟨Real.exp, Real.sin, Real.cos, fun b e => b ^ e, Real.pi⟩
          pp t x y z).volumetric_heat =
        (hs2.computeQpProperties ⟨Real.exp, Real.sin, Real.cos, fun b e => b ^ e, Real.pi⟩
          pp t x y z).volumetric_heat) := by
  refine ⟨fun hs t x y => rot_sq_add_sq _ x y, ?_⟩
  intro g pp p tilt1 tilt2 ftilt1 ftilt2 hs1 hs2 t x y z h1 h2 hr _ hwx hwy hwz
  rw [construct_eq_ok] at h1 h2
  obtain ⟨-, rfl⟩ := h1
  obtain ⟨-, rfl⟩ := h2
  have hw1 : weaveActive (resolveParameters
      (memberInit g { p with tilt := tilt1, function_tilt := ftilt1 }) t) = false :=
    (weaveActive_eq_false_iff _).2 ⟨hwx, hwy, hwz⟩
  have hw2 : weaveActive (resolveParameters
      (memberInit g { p with tilt := tilt2, function_tilt := ftilt2 }) t) = false :=
    (weaveActive_eq_false_iff _).2 ⟨hwx, hwy, hwz⟩
  have hr2 : (resolveParameters
      (memberInit g { p with tilt := tilt2, function_tilt := ftilt2 }) t).rx_t =
      (resolveParameters
        (memberInit g { p with tilt := tilt2, function_tilt := ftilt2 }) t).ry_t := hr
  have hc : ((memberInit g { p with tilt := tilt1, function_tilt := ftilt1 }
        ).computeQpProperties ⟨Real.exp, Real.sin, Real.cos, fun b e => b ^ e, Real.pi⟩
        pp t x y z).calc_va =
      ((memberInit g { p with tilt := tilt2, function_tilt := ftilt2 }
        ).computeQpProperties ⟨Real.exp, Real.sin, Real.cos, fun b e => b ^ e, Real.pi⟩
        pp t x y z).calc_va := by
    rw [computeQp_calc_va, computeQp_calc_va, calc_va_temp_no_weave _ _ _ _ _ hw1,
      calc_va_temp_no_weave _ _ _ _ _ hw2, baseGaussian_equal_radii _ x y z hr,
      baseGaussian_equal_radii _ x y z hr2]
    rfl
  refine ⟨hc, ?_⟩
  cases hh : getParam p.half_model false with
  | false =>
    rw [computeQp_heat_full _ pp _ t x y z hh, computeQp_heat_full _ pp _ t x y z hh, hc]
    rfl
  | true =>
    rw [computeQp_heat_half _ pp _ t x y z hh, computeQp_heat_half _ pp _ t x y z hh, hc]
    rfl

theorem tilt_invariance_witness :
    ((memberInit (fun _ _ => 0) { scenario ℝ false with tilt := some 0, function_tilt := none }
        ).computeQpProperties ⟨Real.exp, Real.sin, Real.cos, fun b e => b ^ e, Real.pi⟩
        (fun _ => 0) 2 3 4 5).volumetric_heat =
      ((memberInit (fun _ _ => 0)
          { scenario ℝ false with tilt := some 1, function_tilt := none }
        ).computeQpProperties ⟨Real.exp, Real.sin, Real.cos, fun b e => b ^ e, Real.pi⟩
        (fun _ => 0) 2 3 4 5).volumetric_heat :=
  (tilt_invariance.2 (fun _ _ => 0) (fun _ => 0) (scenario ℝ false) (some 0) (some 1) none none
      _ _ 2 3 4 5
      ((construct_eq_ok _ _ _).2
        ⟨by simp [constructorBody, scenario, isParamSetByUser], rfl⟩)
      ((construct_eq_ok _ _ _).2
        ⟨by simp [constructorBody, scenario, isParamSetByUser], rfl⟩)
      (by norm_num [resolveParameters, memberInit, scenario, isParamSetByUser, getParam])
      (by norm_num [resolveParameters, memberInit, scenario, isParamSetByUser, getParam])
      (by norm_num [resolveParameters, memberInit, scenario, isParamSetByUser, getParam])
      (by norm_num [resolveParameters, memberInit, scenario, isParamSetByUser, getParam])
      (by norm_num [resolveParameters, memberInit, scenario, isParamSetByUser,
        getParam])).2

/-! ## Single-axis weave bounds -/

theorem weaveTerm_pos (l : Locals ℝ) (xr yr z : ℝ) (a : Axis) (i : Nat) :
    0 < weaveTerm ⟨Real.exp, Real.sin, Real.cos, fun b e => b ^ e, Real.pi⟩ l xr yr z a i := by
  simp only [weaveTerm]
  exact Real.exp_pos _

theorem weaveTerm_le_one (l : Locals ℝ) (xr yr z : ℝ) (a : Axis) (i : Nat) :
    weaveTerm ⟨Real.exp, Real.sin, Real.cos, fun b e => b ^ e, Real.pi⟩ l xr yr z a i ≤ 1 := by
  simp only [weaveTerm, rpow_two_literal]
  rw [Real.exp_le_one_iff, neg_nonpos]
  positivity

theorem weaveTerm_zero_offset (l : Locals ℝ) (xr yr z : ℝ) (a : Axis) (i : Nat)
    (h : a.amplitude l * Real.sin (Real.pi * (i : ℝ) / 6) = 0) :
    weaveTerm ⟨Real.exp, Real.sin, Real.cos, fun b e => b ^ e, Real.pi⟩ l xr yr z a i =
      baseGaussian ⟨Real.exp, Real.sin, Real.cos, fun b e => b ^ e, Real.pi⟩ l xr yr z := by
  simp only [weaveTerm, baseGaussian, h, ite_self, add_zero]

theorem sin_sample_zero (i : Nat) (hi : i = 0 ∨ i = 6 ∨ i = 12) :
    Real.sin (Real.pi * (i : ℝ) / 6) = 0 := by
  rcases hi with rfl | rfl | rfl
  · simp
  · have h : Real.pi * ((6 : ℕ) : ℝ) / 6 = Real.pi := by
      push_cast
      ring
    rw [h, Real.sin_pi]
  · have h : Real.pi * ((12 : ℕ) : ℝ) / 6 = 2 * Real.pi := by
      push_cast
      ring
    rw [h, Real.sin_two_pi]

theorem filter_single_axis {α : Type} [LinearOrderedField α] (l : Locals α) (a : Axis)
    (ha : a.amplitude l > 1e-6) (hother : ∀ b : Axis, b ≠ a → b.amplitude l ≤ 1e-6) :
    Finset.univ.filter (fun b : Axis => b.amplitude l > 1e-6) = {a} := by
  ext b
  simp only [Finset.mem_filter, Finset.mem_univ, true_and, Finset.mem_singleton]
  constructor
  · intro hb
    by_contra hne
    exact absurd hb (not_lt.2 (hother b hne))
  · rintro rfl
    exact ha

theorem weaveActive_of_axis {α : Type} [LinearOrderedField α] (l : Locals α) (a : Axis)
    (ha : a.amplitude l > 1e-6) : weaveActive l = true := by
  rw [weaveActive_eq_true_iff]
  cases a
  · exact Or.inl ha
  · exact Or.inr (Or.inl ha)
  · exact Or.inr (Or.inr ha)

theorem calc_va_single_axis (pp : String → ℝ)
    (hs : FunctionPathDiffusedEllipsoidHeatSource ℝ) (t x y z : ℝ) (a : Axis)
    (ha : a.amplitude (resolveParameters hs t) > 1e-6)
    (hother : ∀ b : Axis, b ≠ a → b.amplitude (resolveParameters hs t) ≤ 1e-6) :
    (hs.computeQpProperties ⟨Real.exp, Real.sin, Real.cos, fun b e => b ^ e, Real.pi⟩
        pp t x y z).calc_va =
      ∑ i ∈ Finset.range 13,
        weaveTerm ⟨Real.exp, Real.sin, Real.cos, fun b e => b ^ e, Real.pi⟩
          (resolveParameters hs t)
          (x_rot ⟨Real.exp, Real.sin, Real.cos, fun b e => b ^ e, Real.pi⟩
            (resolveParameters hs t) x y)
          (y_rot ⟨Real.exp, Real.sin, Real.cos, fun b e => b ^ e, Real.pi⟩
            (resolveParameters hs t) x y) z a i := by
  have h0 : (0.0 : ℝ) = 0 := by norm_num
  rw [computeQp_calc_va]
  simp only [calc_va_temp, weaveActive_of_axis _ a ha, if_true]
  rw [foldl_weaveLoopBody, h0, zero_add, filter_single_axis _ a ha hother]
  simp only [Finset.sum_singleton]

/-- C14: in exact real arithmetic, with exactly one weave axis active (resolved amplitude
above 1e-6, the other two at or below it) and non-zero radii, the samples 0, 6 and 12 have
zero offset and their terms equal the base Gaussian, so `calc_va` is at least 3 times the
base Gaussian at the same point and at most 13; at the source centre it is at least 3,
where the base Gaussian of the no-weave path is 1. -/
theorem single_axis_weave_bounds (pp : String → ℝ)
    (hs : FunctionPathDiffusedEllipsoidHeatSource ℝ) (t x y z : ℝ) (a : Axis)
    (ha : a.amplitude (resolveParameters hs t) > 1e-6)
    (hother : ∀ b : Axis, b ≠ a → b.amplitude (resolveParameters hs t) ≤ 1e-6)
    (_hrx : (resolveParameters hs t).rx_t ≠ 0) (_hry : (resolveParameters hs t).ry_t ≠ 0)
    (_hrz : (resolveParameters hs t).rz_t ≠ 0) :
    (∀ i : Nat, i = 0 ∨ i = 6 ∨ i = 12 →
      a.amplitude (resolveParameters hs t) * Real.sin (Real.pi * (i : ℝ) / 6) = 0) ∧
    3 * baseGaussian ⟨Real.exp, Real.sin, Real.cos, fun b e => b ^ e, Real.pi⟩
          (resolveParameters hs t)
          (x_rot ⟨Real.exp, Real.sin, Real.cos, fun b e => b ^ e, Real.pi⟩
            (resolveParameters hs t) x y)
          (y_rot ⟨Real.exp, Real.sin, Real.cos, fun b e => b ^ e, Real.pi⟩
            (resolveParameters hs t) x y) z ≤
      (hs.computeQpProperties ⟨Real.exp, Real.sin, Real.cos, fun b e => b ^ e, Real.pi⟩
        pp t x y z).calc_va ∧
    (hs.computeQpProperties ⟨Real.exp, Real.sin, Real.cos, fun b e => b ^ e, Real.pi⟩
        pp t x y z).calc_va ≤ 13 ∧
    (x = (resolveParameters hs t).path_x_t → y = (resolveParameters hs t).path_y_t →
      z = (resolveParameters hs t).path_z_t →
      3 ≤ (hs.computeQpProperties ⟨Real.exp, Real.sin, Real.cos, fun b e => b ^ e, Real.pi⟩
        pp t x y z).calc_va ∧
      baseGaussian ⟨Real.exp, Real.sin, Real.cos, fun b e => b ^ e, Real.pi⟩
          (resolveParameters hs t)
          (x_rot ⟨Real.exp, Real.sin, Real.cos, fun b e => b ^ e, Real.pi⟩
            (resolveParameters hs t) x y)
          (y_rot ⟨Real.exp, Real.sin, Real.cos, fun b e => b ^ e, Real.pi⟩
            (resolveParameters hs t) x y) z = 1) := by
  have hoff : ∀ i : Nat, i = 0 ∨ i = 6 ∨ i = 12 →
      a.amplitude (resolveParameters hs t) * Real.sin (Real.pi * (i : ℝ) / 6) = 0 := by
    intro i hi
    rw [sin_sample_zero i hi, mul_zero]
  have hsum := calc_va_single_axis pp hs t x y z a ha hother
  have hlow : 3 * baseGaussian ⟨Real.exp, Real.sin, Real.cos, fun b e => b ^ e, Real.pi⟩
          (resolveParameters hs t)
          (x_rot ⟨Real.exp, Real.sin, Real.cos, fun b e => b ^ e, Real.pi⟩
            (resolveParameters hs t) x y)
          (y_rot ⟨Real.exp, Real.sin, Real.cos, fun b e => b ^ e, Real.pi⟩
            (resolveParameters hs t) x y) z ≤
      (hs.computeQpProperties ⟨Real.exp, Real.sin, Real.cos, fun b e => b ^ e, Real.pi⟩
        pp t x y z).calc_va := by
    rw [hsum]
    have hsub : ({0, 6, 12} : Finset ℕ) ⊆ Finset.range 13 := by decide
    refine le_trans (le_of_eq ?_)
      (Finset.sum_le_sum_of_subset_of_nonneg hsub (fun i _ _ => (weaveTerm_pos _ _ _ _ a i).le))
    rw [Finset.sum_insert (by decide), Finset.sum_insert (by decide), Finset.sum_singleton,
      weaveTerm_zero_offset _ _ _ _ a 0 (hoff 0 (Or.inl rfl)),
      weaveTerm_zero_offset _ _ _ _ a 6 (hoff 6 (Or.inr (Or.inl rfl))),
      weaveTerm_zero_offset _ _ _ _ a 12 (hoff 12 (Or.inr (Or.inr rfl)))]
    ring
  refine ⟨hoff, hlow, ?_, ?_⟩
  · rw [hsum]
    refine le_trans (Finset.sum_le_sum (fun i _ => weaveTerm_le_one _ _ _ _ a i)) ?_
    simp
  · intro ex ey ez
    have hb : baseGaussian ⟨Real.exp, Real.sin, Real.cos, fun b e => b ^ e, Real.pi⟩
          (resolveParameters hs t)
          (x_rot ⟨Real.exp, Real.sin, Real.cos, fun b e => b ^ e, Real.pi⟩
            (resolveParameters hs t) x y)
          (y_rot ⟨Real.exp, Real.sin, Real.cos, fun b e => b ^ e, Real.pi⟩
            (resolveParameters hs t) x y) z = 1 := by
      simp [baseGaussian, rpow_two_literal, x_rot, y_rot, ex, ey, ez]
    rw [hb] at hlow
    exact ⟨by linarith, hb⟩

theorem single_axis_weave_bounds_witness :
    3 ≤ ((memberInit (fun _ _ => 0) (weaveScenario ℝ)).computeQpProperties
        ⟨Real.exp, Real.sin, Real.cos, fun b e => b ^ e, Real.pi⟩ (fun _ => 0) 4 0 0 0
      ).calc_va :=
  ((single_axis_weave_bounds (fun _ => 0) (memberInit (fun _ _ => 0) (weaveScenario ℝ))
      4 0 0 0 Axis.x
      (by norm_num [Axis.amplitude, resolveParameters, memberInit, weaveScenario, scenario,
        isParamSetByUser, getParam])
      (by
        intro b hb
        cases b
        · exact absurd rfl hb
        · norm_num [Axis.amplitude, resolveParameters, memberInit, weaveScenario, scenario,
            isParamSetByUser, getParam]
        · norm_num [Axis.amplitude, resolveParameters, memberInit, weaveScenario, scenario,
            isParamSetByUser, getParam])
      (by norm_num [resolveParameters, memberInit, weaveScenario, scenario, isParamSetByUser,
        getParam])
      (by norm_num [resolveParameters, memberInit, weaveScenario, scenario, isParamSetByUser,
        getParam])
      (by norm_num [resolveParameters, memberInit, weaveScenario, scenario, isParamSetByUser,
        getParam])).2.2.2
    (by norm_num [resolveParameters, memberInit, weaveScenario, scenario, isParamSetByUser,
      getParam])
    (by norm_num [resolveParameters, memberInit, weaveScenario, scenario, isParamSetByUser,
      getParam])
    (by norm_num [resolveParameters, memberInit, weaveScenario, scenario, isParamSetByUser,
      getParam])).1

/-! ## Evaluation on doubles -/

theorem libm_pow_two (rest : StdMath Dbl) (b : Dbl) : (libm rest).pow b 2.0 = b * b := by
  simp [libm]

theorem libm_exp_known (rest : StdMath Dbl) (x : Dbl)
    (h : (Dbl.expKnown x).isSome = true) :
    (libm rest).exp x = (Dbl.expKnown x).getD .nan := by
  show (Dbl.expKnown x).getD (rest.exp x) = _
  cases hx : Dbl.expKnown x with
  | none => rw [hx] at h; cases h
  | some v => rfl

theorem libm_sin_known (rest : StdMath Dbl) (x : Dbl)
    (h : (Dbl.sinKnown x).isSome = true) :
    (libm rest).sin x = (Dbl.sinKnown x).getD .nan := by
  show (Dbl.sinKnown x).getD (rest.sin x) = _
  cases hx : Dbl.sinKnown x with
  | none => rw [hx] at h; cases h
  | some v => rfl

theorem libm_cos_known (rest : StdMath Dbl) (x : Dbl)
    (h : (Dbl.cosKnown x).isSome = true) :
    (libm rest).cos x = (Dbl.cosKnown x).getD .nan := by
  show (Dbl.cosKnown x).getD (rest.cos x) = _
  cases hx : Dbl.cosKnown x with
  | none => rw [hx] at h; cases h
  | some v => rfl

theorem libm_exp_negZero (rest : StdMath Dbl) (x : Dbl) (h : x = .finite true 0 (-1074)) :
    (libm rest).exp x = 1 := by
  subst h
  rfl

theorem libm_exp_nan (rest : StdMath Dbl) (x : Dbl) (h : x = .nan) :
    (libm rest).exp x = .nan := by
  subst h
  rfl

theorem calc_va_temp_inactive {α : Type} [Add α] [Sub α] [Mul α] [Div α] [Neg α] [LT α]
    [DecidableRel (fun a b : α => a < b)] [OfScientific α] [NatCast α]
    (m : StdMath α) (l : Locals α) (xr yr z : α) (h : weaveActive l = false) :
    calc_va_temp m l xr yr z = 0.0 + baseGaussian m l xr yr z := by
  simp only [calc_va_temp, h, Bool.false_eq_true, if_false]

theorem libm_cos_of_zero (rest : StdMath Dbl) (x : Dbl) (h : x = 0) :
    (libm rest).cos x = 1 := by
  subst h
  rfl

theorem libm_sin_of_zero (rest : StdMath Dbl) (x : Dbl) (h : x = 0) :
    (libm rest).sin x = 0 := by
  subst h
  rfl

theorem construct_dbl (g : String → Dbl → Dbl) (p : InputParameters Dbl)
    (h : constructorBody p = .ok ()) :
    FunctionPathDiffusedEllipsoidHeatSource.construct g p = .ok (memberInit g p) := by
  unfold FunctionPathDiffusedEllipsoidHeatSource.construct
  rw [h]

theorem calc_va_temp_active {α : Type} [Add α] [Sub α] [Mul α] [Div α] [Neg α] [LT α]
    [DecidableRel (fun a b : α => a < b)] [OfScientific α] [NatCast α]
    (m : StdMath α) (l : Locals α) (xr yr z : α) (h : weaveActive l = true) :
    calc_va_temp m l xr yr z = (List.range 13).foldl (weaveLoopBody m l xr yr z) 0.0 := by
  simp only [calc_va_temp, h, if_true]

theorem libm_pi (rest : StdMath Dbl) : (libm rest).pi = 3.14159265358979323846 := rfl

theorem weaveLoopBody_x_only {α : Type} [Add α] [Sub α] [Mul α] [Div α] [Neg α] [LT α]
    [DecidableRel (fun a b : α => a < b)] [OfScientific α] [NatCast α]
    (m : StdMath α) (l : Locals α) (xr yr z acc : α) (i : Nat)
    (hx : l.weave_x_t > 1e-6) (hy : ¬ l.weave_y_t > 1e-6) (hz : ¬ l.weave_z_t > 1e-6) :
    weaveLoopBody m l xr yr z acc i =
      acc + m.exp (-(
        m.pow (xr + l.weave_x_t * m.sin (m.pi * (i : α) / ((6 : Nat) : α))) 2.0 /
          m.pow l.rx_t 2.0 +
        m.pow yr 2.0 / m.pow l.ry_t 2.0 +
        m.pow (z - l.path_z_t) 2.0 / m.pow l.rz_t 2.0)) := by
  simp only [weaveLoopBody, hx, hy, hz, if_true, if_false]

/-- For every C library `rest`, in doubles: with power `4.9e-324` (the smallest subnormal),
efficiency 4 and the rest of the end-to-end scenario, at the centre, the run with
`half_model = true` gives heat 0 (the product `0.5 * power` rounds to zero) while the run
with `half_model = false` gives `2^-1072`, whose half is `2^-1073`. -/
theorem halving_underflows :
    ∀ rest : StdMath Dbl,
      FunctionPathDiffusedEllipsoidHeatSource.construct (fun _ _ => 0) (dblScenario 4.9e-324 4.0 1 0 true) =
        .ok (dblSource 4.9e-324 4.0 1 0 true) ∧
      FunctionPathDiffusedEllipsoidHeatSource.construct (fun _ _ => 0) (dblScenario 4.9e-324 4.0 1 0 false) =
        .ok (dblSource 4.9e-324 4.0 1 0 false) ∧
      ((dblSource 4.9e-324 4.0 1 0 true).computeQpProperties (libm rest) (fun _ => 0) 0 0 0 0).volumetric_heat =
        .finite false 0 (-1074) ∧
      ((dblSource 4.9e-324 4.0 1 0 false).computeQpProperties (libm rest) (fun _ => 0) 0 0 0 0).volumetric_heat =
        .finite false 4 (-1074) ∧
      0.5 * ((dblSource 4.9e-324 4.0 1 0 false).computeQpProperties (libm rest) (fun _ => 0) 0 0 0 0).volumetric_heat =
        .finite false 2 (-1074) ∧
      ((dblSource 4.9e-324 4.0 1 0 true).computeQpProperties (libm rest) (fun _ => 0) 0 0 0 0).volumetric_heat ≠
        0.5 * ((dblSource 4.9e-324 4.0 1 0 false).computeQpProperties (libm rest) (fun _ => 0) 0 0 0 0).volumetric_heat := by
  intro rest
  have hcT : ((dblSource 4.9e-324 4.0 1 0 true).computeQpProperties (libm rest) (fun _ => 0) 0 0 0 0).calc_va = 1 := by
    rw [computeQp_calc_va, calc_va_temp_inactive _ _ _ _ _ (by decide!)]
    simp only [baseGaussian, x_rot, y_rot, libm_pow_two]
    rw [libm_cos_known rest _ (by decide!), libm_sin_known rest _ (by decide!),
      libm_exp_known rest _ (by decide!)]
    decide!
  have hcF : ((dblSource 4.9e-324 4.0 1 0 false).computeQpProperties (libm rest) (fun _ => 0) 0 0 0 0).calc_va = 1 := by
    rw [computeQp_calc_va, calc_va_temp_inactive _ _ _ _ _ (by decide!)]
    simp only [baseGaussian, x_rot, y_rot, libm_pow_two]
    rw [libm_cos_known rest _ (by decide!), libm_sin_known rest _ (by decide!),
      libm_exp_known rest _ (by decide!)]
    decide!
  have hT : ((dblSource 4.9e-324 4.0 1 0 true).computeQpProperties (libm rest) (fun _ => 0) 0 0 0 0).volumetric_heat =
      .finite false 0 (-1074) := by
    rw [computeQp_heat_half _ _ _ _ _ _ _ (by decide!), hcT]
    decide!
  have hF : ((dblSource 4.9e-324 4.0 1 0 false).computeQpProperties (libm rest) (fun _ => 0) 0 0 0 0).volumetric_heat =
      .finite false 4 (-1074) := by
    rw [computeQp_heat_full _ _ _ _ _ _ _ (by decide!), hcF]
    decide!
  refine ⟨construct_dbl _ _ rfl, construct_dbl _ _ rfl, hT, hF, ?_, ?_⟩
  · rw [hF]
    decide!
  · rw [hT, hF]
    decide!

/-- C6, counterexample: in doubles, with power `4.9e-324` (the smallest subnormal),
efficiency 4 and the rest of the end-to-end scenario, at the centre, the run with
`half_model = true` gives heat 0 (the product `0.5 * power` rounds to zero) while the run
with `half_model = false` gives `2^-1072`, whose half is `2^-1073`. -/
theorem half_model_not_exact_in_doubles :
    FunctionPathDiffusedEllipsoidHeatSource.construct (fun _ _ => 0) (dblScenario 4.9e-324 4.0 1 0 true) =
      .ok (dblSource 4.9e-324 4.0 1 0 true) ∧
    FunctionPathDiffusedEllipsoidHeatSource.construct (fun _ _ => 0) (dblScenario 4.9e-324 4.0 1 0 false) =
      .ok (dblSource 4.9e-324 4.0 1 0 false) ∧
    ((dblSource 4.9e-324 4.0 1 0 true).computeQpProperties (libm unknownMath) (fun _ => 0) 0 0 0 0).volumetric_heat =
      .finite false 0 (-1074) ∧
    ((dblSource 4.9e-324 4.0 1 0 false).computeQpProperties (libm unknownMath) (fun _ => 0) 0 0 0 0).volumetric_heat =
      .finite false 4 (-1074) ∧
    0.5 * ((dblSource 4.9e-324 4.0 1 0 false).computeQpProperties (libm unknownMath) (fun _ => 0) 0 0 0 0).volumetric_heat =
      .finite false 2 (-1074) ∧
    ((dblSource 4.9e-324 4.0 1 0 true).computeQpProperties (libm unknownMath) (fun _ => 0) 0 0 0 0).volumetric_heat ≠
      0.5 * ((dblSource 4.9e-324 4.0 1 0 false).computeQpProperties (libm unknownMath) (fun _ => 0) 0 0 0 0).volumetric_heat :=
  halving_underflows unknownMath

/-- For every C library `rest`, in doubles: with the positive radius `rx = 1e-200` (and
`ry = rz = 1`, tilt 0, no weave) the square `pow(rx, 2.0)` underflows to zero, the x term
at the centre is `0 / 0`, and `calc_va` at the query point equal to the centre is NaN,
not 1. -/
theorem centre_nan_for_tiny_radius :
    ∀ rest : StdMath Dbl,
      FunctionPathDiffusedEllipsoidHeatSource.construct (fun _ _ => 0) (dblScenario 100.0 1 1e-200 0 false) =
        .ok (dblSource 100.0 1 1e-200 0 false) ∧
      (0 : Dbl) < (resolveParameters (dblSource 100.0 1 1e-200 0 false) 0).rx_t ∧
      (0 : Dbl) < (resolveParameters (dblSource 100.0 1 1e-200 0 false) 0).ry_t ∧
      (0 : Dbl) < (resolveParameters (dblSource 100.0 1 1e-200 0 false) 0).rz_t ∧
      weaveActive (resolveParameters (dblSource 100.0 1 1e-200 0 false) 0) = false ∧
      (libm rest).pow (resolveParameters (dblSource 100.0 1 1e-200 0 false) 0).rx_t 2.0 = 0 ∧
      ((dblSource 100.0 1 1e-200 0 false).computeQpProperties (libm rest) (fun _ => 0) 0 0 0 0).calc_va = .nan ∧
      ((dblSource 100.0 1 1e-200 0 false).computeQpProperties (libm rest) (fun _ => 0) 0 0 0 0).calc_va ≠ 1 := by
  intro rest
  have hc : ((dblSource 100.0 1 1e-200 0 false).computeQpProperties (libm rest) (fun _ => 0) 0 0 0 0).calc_va = .nan := by
    rw [computeQp_calc_va, calc_va_temp_inactive _ _ _ _ _ (by decide!)]
    simp only [baseGaussian, x_rot, y_rot, libm_pow_two]
    rw [libm_cos_known rest _ (by decide!), libm_sin_known rest _ (by decide!),
      libm_exp_known rest _ (by decide!)]
    decide!
  refine ⟨construct_dbl _ _ rfl, by decide!, by decide!, by decide!, by decide!, ?_, hc, ?_⟩
  · rw [libm_pow_two]
    decide!
  · rw [hc]
    decide!

/-- C7, counterexample: in doubles, with the positive radius `rx = 1e-200` (and
`ry = rz = 1`, tilt 0, no weave) the square `pow(rx, 2.0)` underflows to zero, the x term
at the centre is `0 / 0`, and `calc_va` at the query point equal to the centre is NaN,
not 1. -/
theorem centre_value_not_one_in_doubles :
    FunctionPathDiffusedEllipsoidHeatSource.construct (fun _ _ => 0) (dblScenario 100.0 1 1e-200 0 false) =
      .ok (dblSource 100.0 1 1e-200 0 false) ∧
    (0 : Dbl) < (resolveParameters (dblSource 100.0 1 1e-200 0 false) 0).rx_t ∧
    (0 : Dbl) < (resolveParameters (dblSource 100.0 1 1e-200 0 false) 0).ry_t ∧
    (0 : Dbl) < (resolveParameters (dblSource 100.0 1 1e-200 0 false) 0).rz_t ∧
    weaveActive (resolveParameters (dblSource 100.0 1 1e-200 0 false) 0) = false ∧
    (libm unknownMath).pow (resolveParameters (dblSource 100.0 1 1e-200 0 false) 0).rx_t 2.0 = 0 ∧
    ((dblSource 100.0 1 1e-200 0 false).computeQpProperties (libm unknownMath) (fun _ => 0) 0 0 0 0).calc_va = .nan ∧
    ((dblSource 100.0 1 1e-200 0 false).computeQpProperties (libm unknownMath) (fun _ => 0) 0 0 0 0).calc_va ≠ 1 :=
  centre_nan_for_tiny_radius unknownMath

/-- For every C library `rest`, in doubles: with the tilt
`libMesh::pi / 2 = 1.5707963267948966`, centre at the origin and query point `(1, 0)`, the
cosine of the tilt is `6.123233995736766e-17`, not 0, so `x_rot` is
`6.123233995736766e-17` while `-(y - cy)` is `-0`: the quarter turn is not exact. And with
tilt 0, centre `(0, -1e308, 0)` and query point `(0, 1e308)` the difference `y - cy`
overflows to infinity, its product with `sin(0) = 0` is NaN, and `x_rot` is NaN although
`x - cx` is 0. -/
theorem quarter_turn_residue :
    ∀ rest : StdMath Dbl,
      FunctionPathDiffusedEllipsoidHeatSource.construct (fun _ _ => 0) (dblScenario 100.0 1 1 1.5707963267948966 false) =
        .ok (dblSource 100.0 1 1 1.5707963267948966 false) ∧
      (resolveParameters (dblSource 100.0 1 1 1.5707963267948966 false) 0).tilt_t = (libm rest).pi / 2 ∧
      (libm rest).cos (resolveParameters (dblSource 100.0 1 1 1.5707963267948966 false) 0).tilt_t = 6.123233995736766e-17 ∧
      x_rot (libm rest) (resolveParameters (dblSource 100.0 1 1 1.5707963267948966 false) 0) 1 0 = 6.123233995736766e-17 ∧
      -((0 : Dbl) - (resolveParameters (dblSource 100.0 1 1 1.5707963267948966 false) 0).path_y_t) = .finite true 0 (-1074) ∧
      x_rot (libm rest) (resolveParameters (dblSource 100.0 1 1 1.5707963267948966 false) 0) 1 0 ≠
        -((0 : Dbl) - (resolveParameters (dblSource 100.0 1 1 1.5707963267948966 false) 0).path_y_t) ∧
      Dbl.eq (x_rot (libm rest) (resolveParameters (dblSource 100.0 1 1 1.5707963267948966 false) 0) 1 0)
        (-((0 : Dbl) - (resolveParameters (dblSource 100.0 1 1 1.5707963267948966 false) 0).path_y_t)) = false ∧
      FunctionPathDiffusedEllipsoidHeatSource.construct (fun _ _ => 0) (shiftedScenario (-1e308)) =
        .ok (shiftedSource (-1e308)) ∧
      (resolveParameters (shiftedSource (-1e308)) 0).tilt_t = 0 ∧
      (1e308 : Dbl) - (resolveParameters (shiftedSource (-1e308)) 0).path_y_t = .inf false ∧
      x_rot (libm rest) (resolveParameters (shiftedSource (-1e308)) 0) 0 1e308 = .nan ∧
      (0 : Dbl) - (resolveParameters (shiftedSource (-1e308)) 0).path_x_t = 0 ∧
      x_rot (libm rest) (resolveParameters (shiftedSource (-1e308)) 0) 0 1e308 ≠
        (0 : Dbl) - (resolveParameters (shiftedSource (-1e308)) 0).path_x_t := by
  intro rest
  have hq : x_rot (libm rest) (resolveParameters (dblSource 100.0 1 1 1.5707963267948966 false) 0) 1 0 =
      6.123233995736766e-17 := by
    simp only [x_rot]
    rw [libm_cos_known rest _ (by decide!), libm_sin_known rest _ (by decide!)]
    decide!
  have hx : x_rot (libm rest) (resolveParameters (shiftedSource (-1e308)) 0) 0 1e308 = .nan := by
    simp only [x_rot]
    rw [libm_cos_known rest _ (by decide!), libm_sin_known rest _ (by decide!)]
    decide!
  refine ⟨construct_dbl _ _ rfl, ?_, ?_, hq, by decide!, ?_, ?_, construct_dbl _ _ rfl,
    by decide!, by decide!, hx, by decide!, ?_⟩
  · rw [libm_pi]
    decide!
  · rw [libm_cos_known rest _ (by decide!)]
    decide!
  · rw [hq]
    decide!
  · rw [hq]
    decide!
  · rw [hx]
    decide!

/-- C8, counterexample: in doubles, with the tilt
`libMesh::pi / 2 = 1.5707963267948966`, centre at the origin and query point `(1, 0)`, the
cosine of the tilt is `6.123233995736766e-17`, not 0, so `x_rot` is
`6.123233995736766e-17` while `-(y - cy)` is `-0`: the quarter turn is not exact. And with
tilt 0, centre `(0, -1e308, 0)` and query point `(0, 1e308)` the difference `y - cy`
overflows to infinity, its product with `sin(0) = 0` is NaN, and `x_rot` is NaN although
`x - cx` is 0. -/
theorem quarter_turn_not_exact_in_doubles :
    FunctionPathDiffusedEllipsoidHeatSource.construct (fun _ _ => 0) (dblScenario 100.0 1 1 1.5707963267948966 false) =
      .ok (dblSource 100.0 1 1 1.5707963267948966 false) ∧
    (resolveParameters (dblSource 100.0 1 1 1.5707963267948966 false) 0).tilt_t = (libm unknownMath).pi / 2 ∧
    (libm unknownMath).cos (resolveParameters (dblSource 100.0 1 1 1.5707963267948966 false) 0).tilt_t = 6.123233995736766e-17 ∧
    x_rot (libm unknownMath) (resolveParameters (dblSource 100.0 1 1 1.5707963267948966 false) 0) 1 0 = 6.123233995736766e-17 ∧
    -((0 : Dbl) - (resolveParameters (dblSource 100.0 1 1 1.5707963267948966 false) 0).path_y_t) = .finite true 0 (-1074) ∧
    x_rot (libm unknownMath) (resolveParameters (dblSource 100.0 1 1 1.5707963267948966 false) 0) 1 0 ≠
      -((0 : Dbl) - (resolveParameters (dblSource 100.0 1 1 1.5707963267948966 false) 0).path_y_t) ∧
    Dbl.eq (x_rot (libm unknownMath) (resolveParameters (dblSource 100.0 1 1 1.5707963267948966 false) 0) 1 0)
      (-((0 : Dbl) - (resolveParameters (dblSource 100.0 1 1 1.5707963267948966 false) 0).path_y_t)) = false ∧
    FunctionPathDiffusedEllipsoidHeatSource.construct (fun _ _ => 0) (shiftedScenario (-1e308)) =
      .ok (shiftedSource (-1e308)) ∧
    (resolveParameters (shiftedSource (-1e308)) 0).tilt_t = 0 ∧
    (1e308 : Dbl) - (resolveParameters (shiftedSource (-1e308)) 0).path_y_t = .inf false ∧
    x_rot (libm unknownMath) (resolveParameters (shiftedSource (-1e308)) 0) 0 1e308 = .nan ∧
    (0 : Dbl) - (resolveParameters (shiftedSource (-1e308)) 0).path_x_t = 0 ∧
    x_rot (libm unknownMath) (resolveParameters (shiftedSource (-1e308)) 0) 0 1e308 ≠
      (0 : Dbl) - (resolveParameters (shiftedSource (-1e308)) 0).path_x_t :=
  quarter_turn_residue unknownMath

/-- For every C library `rest`, in doubles: two accepted configurations that differ only
in the tilt, 0 against 0.3, with `rx = ry = rz = 1`, centre at the origin, power 100,
`va = 1` and no weave, evaluated at the point `(1, 2, 0)`: for tilt 0.3 the rounded
`x_rot^2 + y_rot^2` is `4.999999999999999`, not 5, `calc_va` is `0.006737946999085467` for
tilt 0 and `0.006737946999085473` for tilt 0.3, and the heats are `0.6737946999085467`
and `0.6737946999085473`. -/
theorem tilt_rounding :
    ∀ rest : StdMath Dbl,
      FunctionPathDiffusedEllipsoidHeatSource.construct (fun _ _ => 0) (dblScenario 100.0 1 1 0 false) =
        .ok (dblSource 100.0 1 1 0 false) ∧
      FunctionPathDiffusedEllipsoidHeatSource.construct (fun _ _ => 0) (dblScenario 100.0 1 1 0.3 false) =
        .ok (dblSource 100.0 1 1 0.3 false) ∧
      (resolveParameters (dblSource 100.0 1 1 0.3 false) 0).rx_t = (resolveParameters (dblSource 100.0 1 1 0.3 false) 0).ry_t ∧
      (resolveParameters (dblSource 100.0 1 1 0.3 false) 0).rx_t ≠ 0 ∧
      weaveActive (resolveParameters (dblSource 100.0 1 1 0.3 false) 0) = false ∧
      x_rot (libm rest) (resolveParameters (dblSource 100.0 1 1 0.3 false) 0) 1 2 *
          x_rot (libm rest) (resolveParameters (dblSource 100.0 1 1 0.3 false) 0) 1 2 +
        y_rot (libm rest) (resolveParameters (dblSource 100.0 1 1 0.3 false) 0) 1 2 *
          y_rot (libm rest) (resolveParameters (dblSource 100.0 1 1 0.3 false) 0) 1 2 = 4.999999999999999 ∧
      ((1 : Dbl) - (resolveParameters (dblSource 100.0 1 1 0.3 false) 0).path_x_t) *
          ((1 : Dbl) - (resolveParameters (dblSource 100.0 1 1 0.3 false) 0).path_x_t) +
        ((2 : Dbl) - (resolveParameters (dblSource 100.0 1 1 0.3 false) 0).path_y_t) *
          ((2 : Dbl) - (resolveParameters (dblSource 100.0 1 1 0.3 false) 0).path_y_t) = 5 ∧
      ((dblSource 100.0 1 1 0 false).computeQpProperties (libm rest) (fun _ => 0) 0 1 2 0).calc_va =
        0.006737946999085467 ∧
      ((dblSource 100.0 1 1 0.3 false).computeQpProperties (libm rest) (fun _ => 0) 0 1 2 0).calc_va =
        0.006737946999085473 ∧
      ((dblSource 100.0 1 1 0 false).computeQpProperties (libm rest) (fun _ => 0) 0 1 2 0).volumetric_heat =
        0.6737946999085467 ∧
      ((dblSource 100.0 1 1 0.3 false).computeQpProperties (libm rest) (fun _ => 0) 0 1 2 0).volumetric_heat =
        0.6737946999085473 ∧
      ((dblSource 100.0 1 1 0 false).computeQpProperties (libm rest) (fun _ => 0) 0 1 2 0).calc_va ≠
        ((dblSource 100.0 1 1 0.3 false).computeQpProperties (libm rest) (fun _ => 0) 0 1 2 0).calc_va ∧
      ((dblSource 100.0 1 1 0 false).computeQpProperties (libm rest) (fun _ => 0) 0 1 2 0).volumetric_heat ≠
        ((dblSource 100.0 1 1 0.3 false).computeQpProperties (libm rest) (fun _ => 0) 0 1 2 0).volumetric_heat := by
  intro rest
  have hc0 : ((dblSource 100.0 1 1 0 false).computeQpProperties (libm rest) (fun _ => 0) 0 1 2 0).calc_va =
      0.006737946999085467 := by
    rw [computeQp_calc_va, calc_va_temp_inactive _ _ _ _ _ (by decide!)]
    simp only [baseGaussian, x_rot, y_rot, libm_pow_two]
    rw [libm_cos_known rest _ (by decide!), libm_sin_known rest _ (by decide!),
      libm_exp_known rest _ (by decide!)]
    decide!
  have hc3 : ((dblSource 100.0 1 1 0.3 false).computeQpProperties (libm rest) (fun _ => 0) 0 1 2 0).calc_va =
      0.006737946999085473 := by
    rw [computeQp_calc_va, calc_va_temp_inactive _ _ _ _ _ (by decide!)]
    simp only [baseGaussian, x_rot, y_rot, libm_pow_two]
    rw [libm_cos_known rest _ (by decide!), libm_sin_known rest _ (by decide!),
      libm_exp_known rest _ (by decide!)]
    decide!
  have hh0 : ((dblSource 100.0 1 1 0 false).computeQpProperties (libm rest) (fun _ => 0) 0 1 2 0).volumetric_heat =
      0.6737946999085467 := by
    rw [computeQp_heat_full _ _ _ _ _ _ _ (by decide!), hc0]
    decide!
  have hh3 : ((dblSource 100.0 1 1 0.3 false).computeQpProperties (libm rest) (fun _ => 0) 0 1 2 0).volumetric_heat =
      0.6737946999085473 := by
    rw [computeQp_heat_full _ _ _ _ _ _ _ (by decide!), hc3]
    decide!
  refine ⟨construct_dbl _ _ rfl, construct_dbl _ _ rfl, by decide!, by decide!, by decide!,
    ?_, by decide!, hc0, hc3, hh0, hh3, ?_, ?_⟩
  · simp only [x_rot, y_rot]
    rw [libm_cos_known rest _ (by decide!), libm_sin_known rest _ (by decide!)]
    decide!
  · rw [hc0, hc3]
    decide!
  · rw [hh0, hh3]
    decide!

/-- C15, counterexample: in doubles, two accepted configurations that differ only
in the tilt, 0 against 0.3, with `rx = ry = rz = 1`, centre at the origin, power 100,
`va = 1` and no weave, evaluated at the point `(1, 2, 0)`: for tilt 0.3 the rounded
`x_rot^2 + y_rot^2` is `4.999999999999999`, not 5, `calc_va` is `0.006737946999085467` for
tilt 0 and `0.006737946999085473` for tilt 0.3, and the heats are `0.6737946999085467`
and `0.6737946999085473`. -/
theorem tilt_changes_result_in_doubles :
    FunctionPathDiffusedEllipsoidHeatSource.construct (fun _ _ => 0) (dblScenario 100.0 1 1 0 false) =
      .ok (dblSource 100.0 1 1 0 false) ∧
    FunctionPathDiffusedEllipsoidHeatSource.construct (fun _ _ => 0) (dblScenario 100.0 1 1 0.3 false) =
      .ok (dblSource 100.0 1 1 0.3 false) ∧
    (resolveParameters (dblSource 100.0 1 1 0.3 false) 0).rx_t = (resolveParameters (dblSource 100.0 1 1 0.3 false) 0).ry_t ∧
    (resolveParameters (dblSource 100.0 1 1 0.3 false) 0).rx_t ≠ 0 ∧
    weaveActive (resolveParameters (dblSource 100.0 1 1 0.3 false) 0) = false ∧
    x_rot (libm unknownMath) (resolveParameters (dblSource 100.0 1 1 0.3 false) 0) 1 2 *
        x_rot (libm unknownMath) (resolveParameters (dblSource 100.0 1 1 0.3 false) 0) 1 2 +
      y_rot (libm unknownMath) (resolveParameters (dblSource 100.0 1 1 0.3 false) 0) 1 2 *
        y_rot (libm unknownMath) (resolveParameters (dblSource 100.0 1 1 0.3 false) 0) 1 2 = 4.999999999999999 ∧
    ((1 : Dbl) - (resolveParameters (dblSource 100.0 1 1 0.3 false) 0).path_x_t) *
        ((1 : Dbl) - (resolveParameters (dblSource 100.0 1 1 0.3 false) 0).path_x_t) +
      ((2 : Dbl) - (resolveParameters (dblSource 100.0 1 1 0.3 false) 0).path_y_t) *
        ((2 : Dbl) - (resolveParameters (dblSource 100.0 1 1 0.3 false) 0).path_y_t) = 5 ∧
    ((dblSource 100.0 1 1 0 false).computeQpProperties (libm unknownMath) (fun _ => 0) 0 1 2 0).calc_va =
      0.006737946999085467 ∧
    ((dblSource 100.0 1 1 0.3 false).computeQpProperties (libm unknownMath) (fun _ => 0) 0 1 2 0).calc_va =
      0.006737946999085473 ∧
    ((dblSource 100.0 1 1 0 false).computeQpProperties (libm unknownMath) (fun _ => 0) 0 1 2 0).volumetric_heat =
      0.6737946999085467 ∧
    ((dblSource 100.0 1 1 0.3 false).computeQpProperties (libm unknownMath) (fun _ => 0) 0 1 2 0).volumetric_heat =
      0.6737946999085473 ∧
    ((dblSource 100.0 1 1 0 false).computeQpProperties (libm unknownMath) (fun _ => 0) 0 1 2 0).calc_va ≠
      ((dblSource 100.0 1 1 0.3 false).computeQpProperties (libm unknownMath) (fun _ => 0) 0 1 2 0).calc_va ∧
    ((dblSource 100.0 1 1 0 false).computeQpProperties (libm unknownMath) (fun _ => 0) 0 1 2 0).volumetric_heat ≠
      ((dblSource 100.0 1 1 0.3 false).computeQpProperties (libm unknownMath) (fun _ => 0) 0 1 2 0).volumetric_heat :=
  tilt_rounding unknownMath

/-- For every C library `rest`, in doubles: with only the x weave active,
`rx = ry = rz = 1`, tilt 0 and centre at the origin, the samples 6 and 12 have the
non-zero offsets `weave_amp_x * sin(libMesh::pi * 6 / 6)` and
`weave_amp_x * sin(libMesh::pi * 12 / 6)`, the sines being `1.2246467991473532e-16` and
`-2.4492935982947064e-16`. With `weave_amp_x = 100` at the point `(-5, 0, 0)`, `calc_va`
is `4.1663831594890334e-11`, below 3 times the base Gaussian `1.3887943864964021e-11`,
which is `4.166383159489206e-11`. With `weave_amp_x = 1e16` at the centre, `calc_va` is
`1.2256649013981789`, below 3. -/
theorem weave_samples_offset :
    ∀ rest : StdMath Dbl,
      FunctionPathDiffusedEllipsoidHeatSource.construct (fun _ _ => 0) (weaveXScenario 100.0) = .ok (weaveXSource 100.0) ∧
      FunctionPathDiffusedEllipsoidHeatSource.construct (fun _ _ => 0) (weaveXScenario 1e16) = .ok (weaveXSource 1e16) ∧
      (resolveParameters (weaveXSource 100.0) 0).weave_x_t > 1e-6 ∧
      ¬ (resolveParameters (weaveXSource 100.0) 0).weave_y_t > 1e-6 ∧
      ¬ (resolveParameters (weaveXSource 100.0) 0).weave_z_t > 1e-6 ∧
      (resolveParameters (weaveXSource 100.0) 0).rx_t ≠ 0 ∧
      (resolveParameters (weaveXSource 100.0) 0).ry_t ≠ 0 ∧
      (resolveParameters (weaveXSource 100.0) 0).rz_t ≠ 0 ∧
      (libm rest).sin ((libm rest).pi * ((6 : Nat) : Dbl) / ((6 : Nat) : Dbl)) =
        1.2246467991473532e-16 ∧
      (libm rest).sin ((libm rest).pi * ((12 : Nat) : Dbl) / ((6 : Nat) : Dbl)) =
        -2.4492935982947064e-16 ∧
      ((weaveXSource 100.0).computeQpProperties (libm rest) (fun _ => 0) 0 (-5.0) 0 0).calc_va =
        4.1663831594890334e-11 ∧
      baseGaussian (libm rest) (resolveParameters (weaveXSource 100.0) 0)
          (x_rot (libm rest) (resolveParameters (weaveXSource 100.0) 0) (-5.0) 0)
          (y_rot (libm rest) (resolveParameters (weaveXSource 100.0) 0) (-5.0) 0) 0 =
        1.3887943864964021e-11 ∧
      3.0 * baseGaussian (libm rest) (resolveParameters (weaveXSource 100.0) 0)
          (x_rot (libm rest) (resolveParameters (weaveXSource 100.0) 0) (-5.0) 0)
          (y_rot (libm rest) (resolveParameters (weaveXSource 100.0) 0) (-5.0) 0) 0 =
        4.166383159489206e-11 ∧
      ¬ 3.0 * baseGaussian (libm rest) (resolveParameters (weaveXSource 100.0) 0)
          (x_rot (libm rest) (resolveParameters (weaveXSource 100.0) 0) (-5.0) 0)
          (y_rot (libm rest) (resolveParameters (weaveXSource 100.0) 0) (-5.0) 0) 0 ≤
        ((weaveXSource 100.0).computeQpProperties (libm rest) (fun _ => 0) 0 (-5.0) 0 0).calc_va ∧
      (resolveParameters (weaveXSource 1e16) 0).weave_x_t > 1e-6 ∧
      ¬ (resolveParameters (weaveXSource 1e16) 0).weave_y_t > 1e-6 ∧
      ¬ (resolveParameters (weaveXSource 1e16) 0).weave_z_t > 1e-6 ∧
      ((weaveXSource 1e16).computeQpProperties (libm rest) (fun _ => 0) 0 0 0 0).calc_va =
        1.2256649013981789 ∧
      ¬ (3.0 : Dbl) ≤
        ((weaveXSource 1e16).computeQpProperties (libm rest) (fun _ => 0) 0 0 0 0).calc_va := by
  intro rest
  have hc : ((weaveXSource 100.0).computeQpProperties (libm rest) (fun _ => 0) 0 (-5.0) 0 0).calc_va =
      4.1663831594890334e-11 := by
    rw [computeQp_calc_va, calc_va_temp_active _ _ _ _ _ (by decide!)]
    have hr : List.range 13 = [0, 1, 2, 3, 4, 5, 6, 7, 8, 9, 10, 11, 12] := by decide
    rw [hr]
    simp only [List.foldl_cons, List.foldl_nil]
    simp only [weaveLoopBody_x_only (libm rest) (resolveParameters (weaveXSource 100.0) 0) _ _ _ _ _
      (by decide!) (by decide!) (by decide!)]
    simp only [x_rot, y_rot, libm_pow_two, libm_pi]
    rw [libm_cos_known rest _ (by decide!)]
    repeat rw [libm_sin_known rest _ (by decide!)]
    repeat rw [libm_exp_known rest _ (by decide!)]
    decide!
  have hb : baseGaussian (libm rest) (resolveParameters (weaveXSource 100.0) 0)
      (x_rot (libm rest) (resolveParameters (weaveXSource 100.0) 0) (-5.0) 0)
      (y_rot (libm rest) (resolveParameters (weaveXSource 100.0) 0) (-5.0) 0) 0 =
        1.3887943864964021e-11 := by
    simp only [baseGaussian, x_rot, y_rot, libm_pow_two]
    rw [libm_cos_known rest _ (by decide!), libm_sin_known rest _ (by decide!),
      libm_exp_known rest _ (by decide!)]
    decide!
  have hv : ((weaveXSource 1e16).computeQpProperties (libm rest) (fun _ => 0) 0 0 0 0).calc_va =
      1.2256649013981789 := by
    rw [computeQp_calc_va, calc_va_temp_active _ _ _ _ _ (by decide!)]
    have hr : List.range 13 = [0, 1, 2, 3, 4, 5, 6, 7, 8, 9, 10, 11, 12] := by decide
    rw [hr]
    simp only [List.foldl_cons, List.foldl_nil]
    simp only [weaveLoopBody_x_only (libm rest) (resolveParameters (weaveXSource 1e16) 0) _ _ _ _ _
      (by decide!) (by decide!) (by decide!)]
    simp only [x_rot, y_rot, libm_pow_two, libm_pi]
    rw [libm_cos_known rest _ (by decide!)]
    repeat rw [libm_sin_known rest _ (by decide!)]
    repeat rw [libm_exp_known rest _ (by decide!)]
    decide!
  refine ⟨construct_dbl _ _ rfl, construct_dbl _ _ rfl, by decide!, by decide!, by decide!,
    by decide!, by decide!, by decide!, ?_, ?_, hc, hb, ?_, ?_, by decide!, by decide!,
    by decide!, hv, ?_⟩
  · rw [libm_pi, libm_sin_known rest _ (by decide!)]
    decide!
  · rw [libm_pi, libm_sin_known rest _ (by decide!)]
    decide!
  · rw [hb]
    decide!
  · rw [hc, hb]
    decide!
  · rw [hv]
    decide!

/-- C14, counterexample: in doubles, with only the x weave active,
`rx = ry = rz = 1`, tilt 0 and centre at the origin, the samples 6 and 12 have the
non-zero offsets `weave_amp_x * sin(libMesh::pi * 6 / 6)` and
`weave_amp_x * sin(libMesh::pi * 12 / 6)`, the sines being `1.2246467991473532e-16` and
`-2.4492935982947064e-16`. With `weave_amp_x = 100` at the point `(-5, 0, 0)`, `calc_va`
is `4.1663831594890334e-11`, below 3 times the base Gaussian `1.3887943864964021e-11`,
which is `4.166383159489206e-11`. With `weave_amp_x = 1e16` at the centre, `calc_va` is
`1.2256649013981789`, below 3. -/
theorem weave_bound_fails_in_doubles :
    FunctionPathDiffusedEllipsoidHeatSource.construct (fun _ _ => 0) (weaveXScenario 100.0) = .ok (weaveXSource 100.0) ∧
    FunctionPathDiffusedEllipsoidHeatSource.construct (fun _ _ => 0) (weaveXScenario 1e16) = .ok (weaveXSource 1e16) ∧
    (resolveParameters (weaveXSource 100.0) 0).weave_x_t > 1e-6 ∧
    ¬ (resolveParameters (weaveXSource 100.0) 0).weave_y_t > 1e-6 ∧
    ¬ (resolveParameters (weaveXSource 100.0) 0).weave_z_t > 1e-6 ∧
    (resolveParameters (weaveXSource 100.0) 0).rx_t ≠ 0 ∧
    (resolveParameters (weaveXSource 100.0) 0).ry_t ≠ 0 ∧
    (resolveParameters (weaveXSource 100.0) 0).rz_t ≠ 0 ∧
    (libm unknownMath).sin ((libm unknownMath).pi * ((6 : Nat) : Dbl) / ((6 : Nat) : Dbl)) =
      1.2246467991473532e-16 ∧
    (libm unknownMath).sin ((libm unknownMath).pi * ((12 : Nat) : Dbl) / ((6 : Nat) : Dbl)) =
      -2.4492935982947064e-16 ∧
    ((weaveXSource 100.0).computeQpProperties (libm unknownMath) (fun _ => 0) 0 (-5.0) 0 0).calc_va =
      4.1663831594890334e-11 ∧
    baseGaussian (libm unknownMath) (resolveParameters (weaveXSource 100.0) 0)
        (x_rot (libm unknownMath) (resolveParameters (weaveXSource 100.0) 0) (-5.0) 0)
        (y_rot (libm unknownMath) (resolveParameters (weaveXSource 100.0) 0) (-5.0) 0) 0 =
      1.3887943864964021e-11 ∧
    3.0 * baseGaussian (libm unknownMath) (resolveParameters (weaveXSource 100.0) 0)
        (x_rot (libm unknownMath) (resolveParameters (weaveXSource 100.0) 0) (-5.0) 0)
        (y_rot (libm unknownMath) (resolveParameters (weaveXSource 100.0) 0) (-5.0) 0) 0 =
      4.166383159489206e-11 ∧
    ¬ 3.0 * baseGaussian (libm unknownMath) (resolveParameters (weaveXSource 100.0) 0)
        (x_rot (libm unknownMath) (resolveParameters (weaveXSource 100.0) 0) (-5.0) 0)
        (y_rot (libm unknownMath) (resolveParameters (weaveXSource 100.0) 0) (-5.0) 0) 0 ≤
      ((weaveXSource 100.0).computeQpProperties (libm unknownMath) (fun _ => 0) 0 (-5.0) 0 0).calc_va ∧
    (resolveParameters (weaveXSource 1e16) 0).weave_x_t > 1e-6 ∧
    ¬ (resolveParameters (weaveXSource 1e16) 0).weave_y_t > 1e-6 ∧
    ¬ (resolveParameters (weaveXSource 1e16) 0).weave_z_t > 1e-6 ∧
    ((weaveXSource 1e16).computeQpProperties (libm unknownMath) (fun _ => 0) 0 0 0 0).calc_va =
      1.2256649013981789 ∧
    ¬ (3.0 : Dbl) ≤
      ((weaveXSource 1e16).computeQpProperties (libm unknownMath) (fun _ => 0) 0 0 0 0).calc_va :=
  weave_samples_offset unknownMath

theorem Dbl.sub_self_of_isFinite (x : Dbl) (h : x.isFinite = true) : x - x = 0 := by
  cases x with
  | finite s m e =>
    show Dbl.add (.finite s m e) (Dbl.neg (.finite s m e)) = .finite false 0 (-1074)
    cases s <;> simp [Dbl.neg, Dbl.add, Dbl.scaled]
  | inf s => cases h
  | nan => cases h

theorem Dbl.isZero_zero_mul (c : Dbl) (h : c.isFinite = true) : ((0 : Dbl) * c).isZero = true := by
  cases c with
  | finite t k f =>
    show (Dbl.mul (.finite false 0 (-1074)) (.finite t k f)).isZero = true
    simp only [Dbl.mul, Nat.zero_mul]
    split_ifs <;> simp [Dbl.round, Dbl.isZero]
  | inf s => cases h
  | nan => cases h

theorem Dbl.isZero_add (a b : Dbl) (ha : a.isZero = true) (hb : b.isZero = true) :
    (a + b).isZero = true := by
  cases a with
  | finite s m e =>
    cases b with
    | finite t k f =>
      cases m with
      | zero =>
        cases k with
        | zero =>
          show (Dbl.add (.finite s 0 e) (.finite t 0 f)).isZero = true
          simp [Dbl.add, Dbl.scaled, Dbl.isZero]
        | succ k => cases hb
      | succ m => cases ha
    | inf t => cases hb
    | nan => cases hb
  | inf s => cases ha
  | nan => cases ha

theorem Dbl.isZero_neg (a : Dbl) (ha : a.isZero = true) : (-a).isZero = true := by
  cases a with
  | finite s m e =>
    cases m with
    | zero => rfl
    | succ m => cases ha
  | inf s => cases ha
  | nan => cases ha

theorem Dbl.isZero_sub (a b : Dbl) (ha : a.isZero = true) (hb : b.isZero = true) :
    (a - b).isZero = true :=
  Dbl.isZero_add a (-b) ha (Dbl.isZero_neg b hb)

theorem Dbl.mul_self_of_isZero (a : Dbl) (ha : a.isZero = true) : a * a = 0 := by
  cases a with
  | finite s m e =>
    cases m with
    | zero =>
      show Dbl.mul (.finite s 0 e) (.finite s 0 e) = .finite false 0 (-1074)
      simp only [Dbl.mul, Nat.zero_mul, Nat.mul_zero]
      split_ifs <;> simp [Dbl.round]
    | succ m => cases ha
  | inf s => cases ha
  | nan => cases ha

theorem Dbl.zero_div_of_isPositive (r : Dbl) (h : r.isPositive = true) : (0 : Dbl) / r = 0 := by
  cases r with
  | finite t k f =>
    cases t with
    | true => cases h
    | false =>
      cases k with
      | zero => cases h
      | succ k =>
        show Dbl.div (.finite false 0 (-1074)) (.finite false (k + 1) f) = .finite false 0 (-1074)
        simp only [Dbl.div, Nat.zero_mul]
        split_ifs <;> simp_all [Dbl.round]
  | inf s => cases h
  | nan => cases h

/-- C7: when no resolved weave amplitude exceeds 1e-6, `calc_va` is the code's expression
`0.0 + exp(-(pow(x_rot, 2.0)/pow(rx, 2.0) + pow(y_rot, 2.0)/pow(ry, 2.0) +
pow(z - cz, 2.0)/pow(rz, 2.0)))` in any arithmetic; in exact real arithmetic, for positive
radii, this is `exp(-(x_rot^2/rx^2 + y_rot^2/ry^2 + (z - cz)^2/rz^2))` and it is exactly 1
at the query point equal to the source centre, for every tilt and every centre; in
doubles it is exactly 1 at the query point equal to the centre whenever the centre
coordinates are finite, the cosine and sine of the tilt are finite, and the squares of
the three radii are finite, positive and not zero. -/
theorem base_gaussian_shape :
    (∀ (α : Type) [Add α] [Sub α] [Mul α] [Div α] [Neg α] [LT α]
        [DecidableRel (fun a b : α => a < b)] [OfScientific α] [NatCast α]
        (m : StdMath α) (pp : String → α) (hs : FunctionPathDiffusedEllipsoidHeatSource α)
        (t x y z : α),
      weaveActive (resolveParameters hs t) = false →
      (hs.computeQpProperties m pp t x y z).calc_va =
        0.0 + m.exp (-(
          m.pow (x_rot m (resolveParameters hs t) x y) 2.0 /
            m.pow (resolveParameters hs t).rx_t 2.0 +
          m.pow (y_rot m (resolveParameters hs t) x y) 2.0 /
            m.pow (resolveParameters hs t).ry_t 2.0 +
          m.pow (z - (resolveParameters hs t).path_z_t) 2.0 /
            m.pow (resolveParameters hs t).rz_t 2.0))) ∧
    (∀ (pp : String → ℝ) (hs : FunctionPathDiffusedEllipsoidHeatSource ℝ) (t x y z : ℝ),
      (resolveParameters hs t).weave_x_t ≤ 1e-6 →
      (resolveParameters hs t).weave_y_t ≤ 1e-6 →
      (resolveParameters hs t).weave_z_t ≤ 1e-6 →
      0 < (resolveParameters hs t).rx_t → 0 < (resolveParameters hs t).ry_t →
      0 < (resolveParameters hs t).rz_t →
      (hs.computeQpProperties ⟨Real.exp, Real.sin, Real.cos, fun b e => b ^ e, Real.pi⟩
          pp t x y z).calc_va =
        Real.exp (-(
          (x_rot ⟨Real.exp, Real.sin, Real.cos, fun b e => b ^ e, Real.pi⟩
              (resolveParameters hs t) x y) ^ 2 / (resolveParameters hs t).rx_t ^ 2 +
          (y_rot ⟨Real.exp, Real.sin, Real.cos, fun b e => b ^ e, Real.pi⟩
              (resolveParameters hs t) x y) ^ 2 / (resolveParameters hs t).ry_t ^ 2 +
          (z - (resolveParameters hs t).path_z_t) ^ 2 / (resolveParameters hs t).rz_t ^ 2)) ∧
      (x = (resolveParameters hs t).path_x_t → y = (resolveParameters hs t).path_y_t →
        z = (resolveParameters hs t).path_z_t →
        (hs.computeQpProperties ⟨Real.exp, Real.sin, Real.cos, fun b e => b ^ e, Real.pi⟩
          pp t x y z).calc_va = 1)) ∧
    (∀ (rest : StdMath Dbl) (pp : String → Dbl)
        (hs : FunctionPathDiffusedEllipsoidHeatSource Dbl) (t x y z : Dbl),
      weaveActive (resolveParameters hs t) = false →
      x = (resolveParameters hs t).path_x_t → y = (resolveParameters hs t).path_y_t →
      z = (resolveParameters hs t).path_z_t →
      x.isFinite = true → y.isFinite = true → z.isFinite = true →
      ((libm rest).cos (resolveParameters hs t).tilt_t).isFinite = true →
      ((libm rest).sin (resolveParameters hs t).tilt_t).isFinite = true →
      ((libm rest).pow (resolveParameters hs t).rx_t 2.0).isPositive = true →
      ((libm rest).pow (resolveParameters hs t).ry_t 2.0).isPositive = true →
      ((libm rest).pow (resolveParameters hs t).rz_t 2.0).isPositive = true →
      (hs.computeQpProperties (libm rest) pp t x y z).calc_va = 1) := by
  refine ⟨?_, ?_, ?_⟩
  · intro α _ _ _ _ _ _ _ _ _ m pp hs t x y z hw
    rw [computeQp_calc_va, calc_va_temp_inactive _ _ _ _ _ hw]
    rfl
  · intro pp hs t x y z hx hy hz _ _ _
    have hw : weaveActive (resolveParameters hs t) = false :=
      (weaveActive_eq_false_iff _).2 ⟨hx, hy, hz⟩
    have hform := calc_va_temp_no_weave
      ⟨Real.exp, Real.sin, Real.cos, fun b e => b ^ e, Real.pi⟩ (resolveParameters hs t)
      (x_rot ⟨Real.exp, Real.sin, Real.cos, fun b e => b ^ e, Real.pi⟩
        (resolveParameters hs t) x y)
      (y_rot ⟨Real.exp, Real.sin, Real.cos, fun b e => b ^ e, Real.pi⟩
        (resolveParameters hs t) x y) z hw
    rw [computeQp_calc_va, hform]
    refine ⟨?_, ?_⟩
    · simp only [baseGaussian, rpow_two_literal]
    · intro ex ey ez
      simp [baseGaussian, rpow_two_literal, x_rot, y_rot, ex, ey, ez]
  · intro rest pp hs t x y z hw ex ey ez hfx hfy hfz hc hsn hrx hry hrz
    rw [computeQp_calc_va, calc_va_temp_inactive _ _ _ _ _ hw]
    simp only [libm_pow_two] at hrx hry hrz
    simp only [baseGaussian, x_rot, y_rot, libm_pow_two]
    rw [← ex, ← ey, ← ez, Dbl.sub_self_of_isFinite x hfx, Dbl.sub_self_of_isFinite y hfy,
      Dbl.sub_self_of_isFinite z hfz,
      Dbl.mul_self_of_isZero _ (Dbl.isZero_sub _ _ (Dbl.isZero_zero_mul _ hc)
        (Dbl.isZero_zero_mul _ hsn)),
      Dbl.mul_self_of_isZero _ (Dbl.isZero_add _ _ (Dbl.isZero_zero_mul _ hsn)
        (Dbl.isZero_zero_mul _ hc)),
      Dbl.mul_self_of_isZero 0 rfl,
      Dbl.zero_div_of_isPositive _ hrx, Dbl.zero_div_of_isPositive _ hry,
      Dbl.zero_div_of_isPositive _ hrz, libm_exp_negZero rest _ (by decide!)]
    decide!

theorem base_gaussian_shape_witness :
    ((memberInit (fun _ _ => 0) (scenario ℝ false)).computeQpProperties
        ⟨Real.exp, Real.sin, Real.cos, fun b e => b ^ e, Real.pi⟩ (fun _ => 0) 4 0 0 0
      ).calc_va = 1 ∧
    ((memberInit (fun _ _ => 0) (dblScenario 100.0 1 1e-100 0 false)).computeQpProperties
        (libm ⟨fun x => x, fun x => x, fun x => x, fun b _ => b, 0⟩) (fun _ => 0) 0 0 0 0
      ).calc_va = 1 :=
  ⟨((base_gaussian_shape.2.1 (fun _ => 0) (memberInit (fun _ _ => 0) (scenario ℝ false))
      4 0 0 0
      (by norm_num [resolveParameters, memberInit, scenario, isParamSetByUser])
      (by norm_num [resolveParameters, memberInit, scenario, isParamSetByUser])
      (by norm_num [resolveParameters, memberInit, scenario, isParamSetByUser])
      (by norm_num [resolveParameters, memberInit, scenario, isParamSetByUser, getParam])
      (by norm_num [resolveParameters, memberInit, scenario, isParamSetByUser, getParam])
      (by norm_num [resolveParameters, memberInit, scenario, isParamSetByUser, getParam])).2
    (by norm_num [resolveParameters, memberInit, scenario, isParamSetByUser, getParam])
    (by norm_num [resolveParameters, memberInit, scenario, isParamSetByUser, getParam])
    (by norm_num [resolveParameters, memberInit, scenario, isParamSetByUser, getParam])),
   base_gaussian_shape.2.2 ⟨fun x => x, fun x => x, fun x => x, fun b _ => b, 0⟩
    (fun _ => 0) (memberInit (fun _ _ => 0) (dblScenario 100.0 1 1e-100 0 false)) 0 0 0 0
    (by decide!) (by decide!) (by decide!) (by decide!) (by decide!) (by decide!)
    (by decide!) (by decide!) (by decide!) (by decide!) (by decide!) (by decide!)⟩

/-! ## Rounding to nearest -/

theorem Dbl.round_eq (s : Bool) (n d : Nat) :
    Dbl.round s n d =
      if n = 0 then .finite s 0 (-1074)
      else if Dbl.atLeast n d 2046 then .inf s
      else Dbl.roundAt s n d (Dbl.expo n d) := rfl

theorem Dbl.atLeast_iff (n d b : Nat) :
    Dbl.atLeast n d b = true ↔ d * 2 ^ (b + 52) ≤ n * 2 ^ 1074 := by
  unfold Dbl.atLeast
  exact decide_eq_true_iff

theorem Dbl.atLeast_mono (n d : Nat) {b c : Nat} (h : c ≤ b)
    (hb : Dbl.atLeast n d b = true) : Dbl.atLeast n d c = true := by
  rw [Dbl.atLeast_iff] at *
  exact le_trans
    (Nat.mul_le_mul_left d (Nat.pow_le_pow_right (by norm_num) (by omega))) hb

theorem Dbl.atLeast_false_mono (n d : Nat) {b c : Nat} (h : b ≤ c)
    (hb : Dbl.atLeast n d b = false) : Dbl.atLeast n d c = false := by
  cases hc : Dbl.atLeast n d c with
  | false => rfl
  | true =>
    rw [Dbl.atLeast_mono n d h hc] at hb
    cases hb

theorem Dbl.search_spec (n d : Nat) : ∀ (fuel lo hi : Nat), lo < hi → hi ≤ lo + 2 ^ fuel →
    Dbl.atLeast n d lo = true → Dbl.atLeast n d hi = false →
    Dbl.atLeast n d (Dbl.search n d fuel lo hi) = true ∧
      Dbl.atLeast n d (Dbl.search n d fuel lo hi + 1) = false ∧
      Dbl.search n d fuel lo hi < hi := by
  intro fuel
  induction fuel with
  | zero =>
    intro lo hi h1 h2 hlo hhi
    have hh : hi = lo + 1 := by
      simp at h2
      omega
    subst hh
    exact ⟨hlo, hhi, by simp [Dbl.search]⟩
  | succ k ih =>
    intro lo hi h1 h2 hlo hhi
    rw [pow_succ] at h2
    unfold Dbl.search
    split_ifs with hc hm
    · have hh : hi = lo + 1 := by omega
      subst hh
      exact ⟨hlo, hhi, by omega⟩
    · exact ih ((lo + hi) / 2) hi (by omega) (by omega) hm hhi
    · have hm2 : Dbl.atLeast n d ((lo + hi) / 2) = false := by simpa using hm
      have h3 := ih lo ((lo + hi) / 2) (by omega) (by omega) hlo hm2
      exact ⟨h3.1, h3.2.1, by omega⟩

theorem Dbl.atLeast_unique (n d b c : Nat)
    (hb : Dbl.atLeast n d b = true) (hb1 : Dbl.atLeast n d (b + 1) = false)
    (hc : Dbl.atLeast n d c = true) (hc1 : Dbl.atLeast n d (c + 1) = false) : b = c := by
  by_contra hne
  rcases Nat.lt_or_gt_of_ne hne with h | h
  · have h2 := Dbl.atLeast_mono n d (show b + 1 ≤ c by omega) hc
    rw [hb1] at h2
    cases h2
  · have h2 := Dbl.atLeast_mono n d (show c + 1 ≤ b by omega) hb
    rw [hc1] at h2
    cases h2

theorem Dbl.expo_spec (n d : Nat) (h0 : Dbl.atLeast n d 0 = true)
    (h : Dbl.atLeast n d 2046 = false) :
    Dbl.atLeast n d (Dbl.expo n d) = true ∧ Dbl.atLeast n d (Dbl.expo n d + 1) = false ∧
      Dbl.expo n d < 2046 := by
  unfold Dbl.expo
  rw [if_pos h0]
  exact Dbl.search_spec n d 12 0 2046 (by norm_num) (by norm_num) h0 h

theorem Dbl.expo_eq (n d b : Nat) (hb : Dbl.atLeast n d b = true)
    (hb1 : Dbl.atLeast n d (b + 1) = false) (hb2 : b + 1 ≤ 2046) : Dbl.expo n d = b := by
  have h0 := Dbl.atLeast_mono n d (Nat.zero_le b) hb
  have h2046 : Dbl.atLeast n d 2046 = false := Dbl.atLeast_false_mono n d hb2 hb1
  obtain ⟨h1, h2, _⟩ := Dbl.expo_spec n d h0 h2046
  exact Dbl.atLeast_unique n d _ _ h1 h2 hb hb1

theorem Dbl.atLeast_den_double (n d b : Nat) :
    Dbl.atLeast n (2 * d) b = Dbl.atLeast n d (b + 1) := by
  unfold Dbl.atLeast
  have h : 2 * d * 2 ^ (b + 52) = d * 2 ^ (b + 1 + 52) := by
    rw [show b + 1 + 52 = (b + 52) + 1 by omega, pow_succ]
    ring
  rw [h]

theorem Dbl.roundAt_exponent (s : Bool) (n d b : Nat) (s1 : Bool) (m : Nat) (e : Int)
    (h : Dbl.roundAt s n d b = .finite s1 m e) :
    s1 = s ∧ (e = (b : Int) - 1074 ∨ (e = (b : Int) + 1 - 1074 ∧ m = 2 ^ 52 ∧ b + 1 ≠ 2046)) := by
  unfold Dbl.roundAt at h
  split_ifs at h with h1 h2
  · cases h
    exact ⟨rfl, Or.inr ⟨rfl, rfl, h2⟩⟩
  · cases h
    exact ⟨rfl, Or.inl rfl⟩

theorem Dbl.quotient_den_double (n d b : Nat) (hb : 1 ≤ b) :
    Dbl.quotient n (2 * d) (b - 1) = Dbl.quotient n d b := by
  have hden : 2 * d * 2 ^ (b - 1) = d * 2 ^ b := by
    obtain ⟨c, rfl⟩ : ∃ c, b = c + 1 := ⟨b - 1, by omega⟩
    simp only [Nat.add_sub_cancel, pow_succ]
    ring
  unfold Dbl.quotient
  rw [hden]

theorem Dbl.roundAt_den_double (s : Bool) (n d b : Nat) (hb : 1 ≤ b) (hb2 : b < 2046)
    (s1 : Bool) (m : Nat) (e : Int) (h : Dbl.roundAt s n d b = .finite s1 m e) :
    Dbl.roundAt s n (2 * d) (b - 1) = .finite s1 m (e - 1) := by
  unfold Dbl.roundAt at h ⊢
  rw [Dbl.quotient_den_double n d b hb]
  have hcast : ((b - 1 : Nat) : Int) = (b : Int) - 1 := by omega
  split_ifs at h ⊢ with h1 h2 h3
  · clear h h1
    omega
  · obtain ⟨hs, hm, he⟩ := Dbl.finite.inj h
    rw [← hs, ← hm, ← he, hcast,
      show (b : Int) - 1 + 1 - 1074 = (b : Int) + 1 - 1074 - 1 by ring]
  · obtain ⟨hs, hm, he⟩ := Dbl.finite.inj h
    rw [← hs, ← hm, ← he, hcast,
      show (b : Int) - 1 - 1074 = (b : Int) - 1074 - 1 by ring]

theorem Dbl.round_den_double (s : Bool) (n d : Nat) (s1 : Bool) (m : Nat) (e : Int)
    (h : Dbl.round s n d = .finite s1 m e) (he : -1072 ≤ e) :
    Dbl.round s n (2 * d) = .finite s1 m (e - 1) := by
  rw [Dbl.round_eq] at h ⊢
  by_cases hn : n = 0
  · rw [if_pos hn] at h
    cases h
    omega
  rw [if_neg hn] at h ⊢
  by_cases hbig : Dbl.atLeast n d 2046 = true
  · rw [if_pos hbig] at h
    cases h
  rw [if_neg hbig] at h
  have hbig1 : Dbl.atLeast n d 2046 = false := by simpa using hbig
  have hbig2 : Dbl.atLeast n (2 * d) 2046 = false := by
    rw [Dbl.atLeast_den_double]
    exact Dbl.atLeast_false_mono n d (by norm_num) hbig1
  rw [if_neg (by simp [hbig2])]
  obtain ⟨-, hexp⟩ := Dbl.roundAt_exponent s n d _ s1 m e h
  have hb : 1 ≤ Dbl.expo n d := by omega
  have h0 : Dbl.atLeast n d 0 = true := by
    by_contra hc
    have : Dbl.expo n d = 0 := by
      unfold Dbl.expo
      rw [if_neg hc]
    omega
  obtain ⟨h1, h2, h3⟩ := Dbl.expo_spec n d h0 hbig1
  have hexpo : Dbl.expo n (2 * d) = Dbl.expo n d - 1 := by
    apply Dbl.expo_eq
    · rw [Dbl.atLeast_den_double, Nat.sub_add_cancel hb]
      exact h1
    · rw [Dbl.atLeast_den_double, Nat.sub_add_cancel hb]
      exact h2
    · omega
  rw [hexpo]
  exact Dbl.roundAt_den_double s n d _ hb h3 s1 m e h
theorem Dbl.atLeast_scale (c n d b : Nat) (hc : 0 < c) :
    Dbl.atLeast (c * n) (c * d) b = Dbl.atLeast n d b := by
  unfold Dbl.atLeast
  rw [Nat.mul_assoc, Nat.mul_assoc]
  generalize d * 2 ^ (b + 52) = X
  generalize n * 2 ^ 1074 = Y
  have h : c * X ≤ c * Y ↔ X ≤ Y :=
    ⟨fun h => Nat.le_of_mul_le_mul_left h hc, fun h => Nat.mul_le_mul_left c h⟩
  simp only [h]

theorem Dbl.search_scale (c n d : Nat) (hc : 0 < c) : ∀ (fuel lo hi : Nat),
    Dbl.search (c * n) (c * d) fuel lo hi = Dbl.search n d fuel lo hi := by
  intro fuel
  induction fuel with
  | zero =>
    intro lo hi
    rfl
  | succ k ih =>
    intro lo hi
    unfold Dbl.search
    rw [Dbl.atLeast_scale c n d _ hc, ih, ih]

theorem Dbl.expo_scale (c n d : Nat) (hc : 0 < c) :
    Dbl.expo (c * n) (c * d) = Dbl.expo n d := by
  unfold Dbl.expo
  rw [Dbl.atLeast_scale c n d _ hc, Dbl.search_scale c n d hc]

theorem Dbl.quotient_scale (c n d b : Nat) (hc : 0 < c) :
    Dbl.quotient (c * n) (c * d) b = Dbl.quotient n d b := by
  unfold Dbl.quotient
  rw [Nat.mul_assoc, Nat.mul_assoc]
  generalize d * 2 ^ b = X
  generalize n * 2 ^ 1074 = Y
  simp only [Nat.mul_div_mul_left _ _ hc, Nat.mul_mod_mul_left]
  have h1 : c * X < 2 * (c * (Y % X)) ↔ X < 2 * (Y % X) := by
    rw [show 2 * (c * (Y % X)) = c * (2 * (Y % X)) by ring]
    exact Nat.mul_lt_mul_left hc
  have h2 : 2 * (c * (Y % X)) = c * X ↔ 2 * (Y % X) = X := by
    rw [show 2 * (c * (Y % X)) = c * (2 * (Y % X)) by ring]
    exact Nat.mul_left_cancel_iff hc
  simp only [h1, h2]

theorem Dbl.round_scale (s : Bool) (c n d : Nat) (hc : 0 < c) :
    Dbl.round s (c * n) (c * d) = Dbl.round s n d := by
  rw [Dbl.round_eq, Dbl.round_eq]
  unfold Dbl.roundAt
  rw [Dbl.atLeast_scale c n d _ hc, Dbl.expo_scale c n d hc, Dbl.quotient_scale c n d _ hc]
  have h : c * n = 0 ↔ n = 0 := by
    constructor
    · intro h0
      rcases Nat.mul_eq_zero.1 h0 with h1 | h1
      · omega
      · exact h1
    · intro h0
      rw [h0, Nat.mul_zero]
  simp only [h]

theorem Dbl.mul_half_left (s : Bool) (m : Nat) (e : Int) (y : Dbl) (s1 : Bool) (m1 : Nat)
    (e1 : Int) (h : Dbl.mul (.finite s m e) y = .finite s1 m1 e1) (he : -1072 ≤ e1) :
    Dbl.mul (.finite s m (e - 1)) y = .finite s1 m1 (e1 - 1) := by
  cases y with
  | nan => cases h
  | inf t =>
    simp only [Dbl.mul] at h
    split_ifs at h
  | finite t k f =>
    simp only [Dbl.mul] at h ⊢
    by_cases hlt : e + f < 0
    · rw [if_pos hlt] at h
      rw [if_pos (by omega)]
      have hx : (-(e - 1 + f)).toNat = (-(e + f)).toNat + 1 := by omega
      rw [hx, pow_succ, Nat.mul_comm (2 ^ (-(e + f)).toNat) 2]
      exact Dbl.round_den_double _ _ _ _ _ _ h he
    · rw [if_neg hlt] at h
      by_cases h0 : e + f = 0
      · rw [if_pos (by omega)]
        have hx : (-(e - 1 + f)).toNat = 1 := by omega
        have hy : (e + f).toNat = 0 := by omega
        rw [hy, pow_zero, Nat.mul_one] at h
        rw [hx, pow_one, show (2 : Nat) = 2 * 1 by norm_num]
        exact Dbl.round_den_double _ _ _ _ _ _ h he
      · rw [if_neg (by omega)]
        have hx : (e + f).toNat = (e - 1 + f).toNat + 1 := by omega
        rw [hx, pow_succ, ← Nat.mul_assoc,
          Nat.mul_comm (m * k * 2 ^ (e - 1 + f).toNat) 2] at h
        have h2 := Dbl.round_den_double _ _ _ _ _ _ h he
        rw [Dbl.round_scale _ 2 _ 1 (by norm_num)] at h2
        exact h2

theorem Dbl.div_half_left (s : Bool) (m : Nat) (e : Int) (y : Dbl) (s1 : Bool) (m1 : Nat)
    (e1 : Int) (h : Dbl.div (.finite s m e) y = .finite s1 m1 e1) (he : -1072 ≤ e1) :
    Dbl.div (.finite s m (e - 1)) y = .finite s1 m1 (e1 - 1) := by
  cases y with
  | nan => cases h
  | inf t =>
    simp only [Dbl.div] at h
    obtain ⟨-, -, h3⟩ := Dbl.finite.inj h
    omega
  | finite t k f =>
    simp only [Dbl.div] at h ⊢
    by_cases hk : k = 0
    · rw [if_pos hk] at h
      split_ifs at h
    rw [if_neg hk] at h ⊢
    by_cases hlt : e - f < 0
    · rw [if_pos hlt] at h
      rw [if_pos (by omega)]
      have hx : (-(e - 1 - f)).toNat = (-(e - f)).toNat + 1 := by omega
      rw [hx, pow_succ, ← Nat.mul_assoc, Nat.mul_comm (k * 2 ^ (-(e - f)).toNat) 2]
      exact Dbl.round_den_double _ _ _ _ _ _ h he
    · rw [if_neg hlt] at h
      by_cases h0 : e - f = 0
      · rw [if_pos (by omega)]
        have hx : (-(e - 1 - f)).toNat = 1 := by omega
        have hy : (e - f).toNat = 0 := by omega
        rw [hy, pow_zero, Nat.mul_one] at h
        rw [hx, pow_one, Nat.mul_comm k 2]
        exact Dbl.round_den_double _ _ _ _ _ _ h he
      · rw [if_neg (by omega)]
        have hx : (e - f).toNat = (e - 1 - f).toNat + 1 := by omega
        rw [hx, pow_succ, ← Nat.mul_assoc,
          Nat.mul_comm (m * 2 ^ (e - 1 - f).toNat) 2] at h
        have h2 := Dbl.round_den_double _ _ _ _ _ _ h he
        rw [Dbl.round_scale _ 2 _ _ (by norm_num)] at h2
        exact h2
theorem Dbl.round_representable (s : Bool) (n d m : Nat) (e : Int) (hd : 0 < d)
    (hm1 : 2 ^ 52 ≤ m) (hm2 : m < 2 ^ 53) (he1 : -1074 ≤ e) (he2 : e ≤ 971)
    (hval : n * 2 ^ 1074 = m * (d * 2 ^ (e + 1074).toNat)) :
    Dbl.round s n d = .finite s m e := by
  have hB : 0 < d * 2 ^ (e + 1074).toNat := Nat.mul_pos hd (Nat.pow_pos (by norm_num))
  have hb : Dbl.atLeast n d (e + 1074).toNat = true := by
    rw [Dbl.atLeast_iff, hval, pow_add, ← Nat.mul_assoc, Nat.mul_comm m]
    exact Nat.mul_le_mul_left _ hm1
  have hb1 : Dbl.atLeast n d ((e + 1074).toNat + 1) = false := by
    cases hc : Dbl.atLeast n d ((e + 1074).toNat + 1) with
    | false => rfl
    | true =>
      rw [Dbl.atLeast_iff, hval, show (e + 1074).toNat + 1 + 52 = (e + 1074).toNat + 53 by omega,
        pow_add, ← Nat.mul_assoc, Nat.mul_comm m] at hc
      have := Nat.le_of_mul_le_mul_left hc hB
      omega
  have hexpo : Dbl.expo n d = (e + 1074).toNat := Dbl.expo_eq n d _ hb hb1 (by omega)
  have hn : n ≠ 0 := by
    intro h0
    rw [h0, Nat.zero_mul] at hval
    have : 0 < m * (d * 2 ^ (e + 1074).toNat) :=
      Nat.mul_pos (lt_of_lt_of_le (Nat.pow_pos (by norm_num)) hm1) hB
    omega
  have hbig : Dbl.atLeast n d 2046 = false :=
    Dbl.atLeast_false_mono n d (by omega) hb1
  have hq : Dbl.quotient n d (e + 1074).toNat = m := by
    unfold Dbl.quotient
    rw [hval, Nat.mul_div_cancel _ hB, Nat.mul_mod_left]
    simp only [Nat.mul_zero, Nat.not_lt_zero, false_or]
    rw [if_neg]
    intro h
    omega
  rw [Dbl.round_eq]
  unfold Dbl.roundAt
  rw [if_neg hn, hbig, hexpo, hq]
  simp only [Bool.false_eq_true, if_false]
  rw [if_neg (by omega), show ((e + 1074).toNat : Int) - 1074 = e by omega]

theorem Dbl.half_mul (s : Bool) (m : Nat) (e : Int) (hm1 : 2 ^ 52 ≤ m) (hm2 : m < 2 ^ 53)
    (he1 : -1072 ≤ e) (he2 : e ≤ 971) :
    (0.5 : Dbl) * .finite s m e = .finite s m (e - 1) := by
  have h5 : (0.5 : Dbl) = .finite false (2 ^ 52) (-53) := by decide!
  rw [h5]
  show Dbl.mul (.finite false (2 ^ 52) (-53)) (.finite s m e) = _
  simp only [Dbl.mul, Bool.false_xor]
  split_ifs with h
  · apply Dbl.round_representable _ _ _ _ _ (Nat.pow_pos (by norm_num)) hm1 hm2 (by omega)
      (by omega)
    rw [Nat.mul_comm (2 ^ 52) m, Nat.mul_assoc, ← pow_add, ← pow_add,
      show (-(-53 + e)).toNat + (e - 1 + 1074).toNat = 52 + 1074 by omega]
  · apply Dbl.round_representable _ _ _ _ _ (by norm_num) hm1 hm2 (by omega) (by omega)
    rw [Nat.mul_comm (2 ^ 52) m, Nat.mul_assoc, Nat.mul_assoc, Nat.one_mul, ← pow_add,
      ← pow_add, show 52 + ((-53 + e).toNat + 1074) = (e - 1 + 1074).toNat by omega]

theorem Dbl.half_product (p eta c d : Dbl) (hp : p.isHalvable = true)
    (h1 : (p * eta).isHalvable = true) (h2 : (p * eta * c).isHalvable = true)
    (h3 : (p * eta * c / d).isHalvable = true) :
    0.5 * p * eta * c / d = 0.5 * (p * eta * c / d) := by
  cases p with
  | nan => cases hp
  | inf s => cases hp
  | finite sp mp ep =>
    simp only [Dbl.isHalvable, decide_eq_true_eq] at hp
    cases hx1 : Dbl.finite sp mp ep * eta with
    | nan => rw [hx1] at h1; cases h1
    | inf s => rw [hx1] at h1; cases h1
    | finite s1 m1 e1 =>
      rw [hx1] at h1 h2 h3
      simp only [Dbl.isHalvable, decide_eq_true_eq] at h1
      cases hx2 : Dbl.finite s1 m1 e1 * c with
      | nan => rw [hx2] at h2; cases h2
      | inf s => rw [hx2] at h2; cases h2
      | finite s2 m2 e2 =>
        rw [hx2] at h2 h3
        simp only [Dbl.isHalvable, decide_eq_true_eq] at h2
        cases hx3 : Dbl.finite s2 m2 e2 / d with
        | nan => rw [hx3] at h3; cases h3
        | inf s => rw [hx3] at h3; cases h3
        | finite s3 m3 e3 =>
          rw [hx3] at h3
          simp only [Dbl.isHalvable, decide_eq_true_eq] at h3
          rw [Dbl.half_mul sp mp ep hp.1 hp.2.1 hp.2.2.1 hp.2.2.2,
            Dbl.half_mul s3 m3 e3 h3.1 h3.2.1 h3.2.2.1 h3.2.2.2]
          have k1 : Dbl.finite sp mp (ep - 1) * eta = .finite s1 m1 (e1 - 1) :=
            Dbl.mul_half_left sp mp ep eta s1 m1 e1 hx1 h1.2.2.1
          have k2 : Dbl.finite s1 m1 (e1 - 1) * c = .finite s2 m2 (e2 - 1) :=
            Dbl.mul_half_left s1 m1 e1 c s2 m2 e2 hx2 h2.2.2.1
          have k3 : Dbl.finite s2 m2 (e2 - 1) / d = .finite s3 m3 (e3 - 1) :=
            Dbl.div_half_left s2 m2 e2 d s3 m3 e3 hx3 h3.2.2.1
          rw [k1, k2, k3]

theorem Dbl.round_subnormal (s : Bool) (n d m : Nat) (hd : 0 < d) (hm0 : 0 < m)
    (hm : m < 2 ^ 52) (hval : n * 2 ^ 1074 = m * d) :
    Dbl.round s n d = .finite s m (-1074) := by
  have h0 : Dbl.atLeast n d 0 = false := by
    cases hc : Dbl.atLeast n d 0 with
    | false => rfl
    | true =>
      rw [Dbl.atLeast_iff, hval, Nat.zero_add, Nat.mul_comm m d] at hc
      have := Nat.le_of_mul_le_mul_left hc hd
      omega
  have hexpo : Dbl.expo n d = 0 := by
    unfold Dbl.expo
    rw [h0]
    rfl
  have hn : n ≠ 0 := by
    intro hn0
    rw [hn0, Nat.zero_mul] at hval
    have : 0 < m * d := Nat.mul_pos hm0 hd
    omega
  have hbig : Dbl.atLeast n d 2046 = false := Dbl.atLeast_false_mono n d (by omega) h0
  have hq : Dbl.quotient n d 0 = m := by
    unfold Dbl.quotient
    rw [hval, pow_zero, Nat.mul_one, Nat.mul_div_cancel _ hd, Nat.mul_mod_left]
    simp only [Nat.mul_zero, Nat.not_lt_zero, false_or]
    rw [if_neg]
    intro h
    omega
  rw [Dbl.round_eq]
  unfold Dbl.roundAt
  rw [if_neg hn, hbig, hexpo, hq]
  simp only [Bool.false_eq_true, if_false]
  rw [if_neg (by omega)]
  rfl

theorem Dbl.round_isDouble (s : Bool) (n d m : Nat) (e : Int) (hd : 0 < d) (hm0 : 0 < m)
    (hx : (Dbl.finite s m e).isDouble = true)
    (hval : n * 2 ^ 1074 = m * (d * 2 ^ (e + 1074).toNat)) :
    Dbl.round s n d = .finite s m e := by
  simp only [Dbl.isDouble, decide_eq_true_eq] at hx
  obtain ⟨h1, h2, h3, h4⟩ := hx
  by_cases hn : 2 ^ 52 ≤ m
  · exact Dbl.round_representable s n d m e hd hn h1 h2 h3 hval
  · have he : e = -1074 := by
      rcases h4 with h | h
      · exact absurd h hn
      · exact h
    subst he
    rw [show (-1074 + 1074 : Int).toNat = 0 by rfl, pow_zero, Nat.mul_one] at hval
    exact Dbl.round_subnormal s n d m hd hm0 (by omega) hval

theorem Dbl.mul_one_of_isDouble (x : Dbl) (hx : x.isDouble = true) : x * 1 = x := by
  cases x with
  | nan => cases hx
  | inf s => cases hx
  | finite s m e =>
    have h1 : (1 : Dbl) = .finite false (2 ^ 52) (-52) := by decide!
    rw [h1]
    show Dbl.mul (.finite s m e) (.finite false (2 ^ 52) (-52)) = _
    simp only [Dbl.mul, Bool.xor_false]
    by_cases hm0 : m = 0
    · subst hm0
      simp only [Dbl.isDouble, decide_eq_true_eq] at hx
      have he : e = -1074 := by
        rcases hx.2.2.2 with h | h
        · exact absurd h (by norm_num)
        · exact h
      subst he
      simp only [Nat.zero_mul]
      split_ifs <;> rfl
    · have hpos : 0 < m := Nat.pos_of_ne_zero hm0
      have hb := hx
      simp only [Dbl.isDouble, decide_eq_true_eq] at hb
      split_ifs with h
      · apply Dbl.round_isDouble _ _ _ _ _ (Nat.pow_pos (by norm_num)) hpos hx
        rw [Nat.mul_assoc, ← pow_add, ← pow_add,
          show (-(e + -52)).toNat + (e + 1074).toNat = 52 + 1074 by omega]
      · apply Dbl.round_isDouble _ _ _ _ _ (by norm_num) hpos hx
        rw [Nat.mul_assoc, Nat.mul_assoc, Nat.one_mul, ← pow_add, ← pow_add,
          show 52 + ((e + -52).toNat + 1074) = (e + 1074).toNat by omega]

theorem Dbl.round_zero (s : Bool) (d : Nat) : Dbl.round s 0 d = .finite s 0 (-1074) := by
  rw [Dbl.round_eq, if_pos rfl]

theorem Dbl.mul_zero_of_finite (s : Bool) (m : Nat) (e : Int) (t : Bool) (f : Int) :
    Dbl.finite s m e * Dbl.finite t 0 f = .finite (xor s t) 0 (-1074) := by
  show Dbl.mul (.finite s m e) (.finite t 0 f) = _
  simp only [Dbl.mul, Nat.mul_zero, Nat.zero_mul]
  split_ifs <;> exact Dbl.round_zero _ _

theorem Dbl.scaled_zero (t : Bool) (e base : Int) : Dbl.scaled t 0 e base = 0 := by
  cases t <;> simp [Dbl.scaled]

theorem Dbl.add_signed_zero (x : Dbl) (hx : x.isDouble = true) (t : Bool) :
    x + Dbl.finite t 0 (-1074) = x ∨
      ((x + Dbl.finite t 0 (-1074)).isZero = true ∧ x.isZero = true) := by
  cases x with
  | nan => cases hx
  | inf s => cases hx
  | finite s m e =>
    have hb := hx
    simp only [Dbl.isDouble, decide_eq_true_eq] at hb
    have hmin : min e (-1074) = -1074 := min_eq_right hb.2.1
    show Dbl.add (.finite s m e) (.finite t 0 (-1074)) = _ ∨
      (Dbl.add (.finite s m e) (.finite t 0 (-1074))).isZero = true ∧ _
    simp only [Dbl.add, hmin, Dbl.scaled_zero, add_zero]
    by_cases hm0 : m = 0
    · subst hm0
      right
      rw [Dbl.scaled_zero, if_pos rfl]
      exact ⟨rfl, rfl⟩
    · left
      have hpos : 0 < m := Nat.pos_of_ne_zero hm0
      have hN : 0 < m * 2 ^ (e - -1074).toNat := Nat.mul_pos hpos (Nat.pow_pos (by norm_num))
      have hval : m * 2 ^ (e - -1074).toNat * 2 ^ 1074 =
          m * (2 ^ (- (-1074 : Int)).toNat * 2 ^ (e + 1074).toNat) := by
        rw [show (e - -1074).toNat = (e + 1074).toNat by omega,
          show (- (-1074 : Int)).toNat = 1074 by rfl, Nat.mul_assoc,
          Nat.mul_comm (2 ^ (e + 1074).toNat)]
      cases s with
      | false =>
        have hA : Dbl.scaled false m e (-1074) = ((m * 2 ^ (e - -1074).toNat : Nat) : Int) :=
          rfl
        rw [hA, if_neg (by omega), if_pos (by norm_num), Int.natAbs_ofNat,
          show decide (((m * 2 ^ (e - -1074).toNat : Nat) : Int) < 0) = false by
            rw [decide_eq_false_iff_not]
            omega]
        exact Dbl.round_isDouble _ _ _ _ _ (Nat.pow_pos (by norm_num)) hpos hx hval
      | true =>
        have hA : Dbl.scaled true m e (-1074) = -((m * 2 ^ (e - -1074).toNat : Nat) : Int) :=
          rfl
        rw [hA, if_neg (by omega), if_pos (by norm_num), Int.natAbs_neg, Int.natAbs_ofNat,
          show decide (-((m * 2 ^ (e - -1074).toNat : Nat) : Int) < 0) = true by
            rw [decide_eq_true_iff]
            omega]
        exact Dbl.round_isDouble _ _ _ _ _ (Nat.pow_pos (by norm_num)) hpos hx hval

theorem Dbl.signed_zero_add (x : Dbl) (hx : x.isDouble = true) (t : Bool) :
    Dbl.finite t 0 (-1074) + x = x ∨
      ((Dbl.finite t 0 (-1074) + x).isZero = true ∧ x.isZero = true) := by
  cases x with
  | nan => cases hx
  | inf s => cases hx
  | finite s m e =>
    have hb := hx
    simp only [Dbl.isDouble, decide_eq_true_eq] at hb
    have hmin : min (-1074) e = -1074 := min_eq_left hb.2.1
    show Dbl.add (.finite t 0 (-1074)) (.finite s m e) = _ ∨
      (Dbl.add (.finite t 0 (-1074)) (.finite s m e)).isZero = true ∧ _
    simp only [Dbl.add, hmin, Dbl.scaled_zero, zero_add]
    by_cases hm0 : m = 0
    · subst hm0
      right
      rw [Dbl.scaled_zero, if_pos rfl]
      exact ⟨rfl, rfl⟩
    · left
      have hpos : 0 < m := Nat.pos_of_ne_zero hm0
      have hN : 0 < m * 2 ^ (e - -1074).toNat := Nat.mul_pos hpos (Nat.pow_pos (by norm_num))
      have hval : m * 2 ^ (e - -1074).toNat * 2 ^ 1074 =
          m * (2 ^ (- (-1074 : Int)).toNat * 2 ^ (e + 1074).toNat) := by
        rw [show (e - -1074).toNat = (e + 1074).toNat by omega,
          show (- (-1074 : Int)).toNat = 1074 by rfl, Nat.mul_assoc,
          Nat.mul_comm (2 ^ (e + 1074).toNat)]
      cases s with
      | false =>
        have hA : Dbl.scaled false m e (-1074) = ((m * 2 ^ (e - -1074).toNat : Nat) : Int) :=
          rfl
        rw [hA, if_neg (by omega), if_pos (by norm_num), Int.natAbs_ofNat,
          show decide (((m * 2 ^ (e - -1074).toNat : Nat) : Int) < 0) = false by
            rw [decide_eq_false_iff_not]
            omega]
        exact Dbl.round_isDouble _ _ _ _ _ (Nat.pow_pos (by norm_num)) hpos hx hval
      | true =>
        have hA : Dbl.scaled true m e (-1074) = -((m * 2 ^ (e - -1074).toNat : Nat) : Int) :=
          rfl
        rw [hA, if_neg (by omega), if_pos (by norm_num), Int.natAbs_neg, Int.natAbs_ofNat,
          show decide (-((m * 2 ^ (e - -1074).toNat : Nat) : Int) < 0) = true by
            rw [decide_eq_true_iff]
            omega]
        exact Dbl.round_isDouble _ _ _ _ _ (Nat.pow_pos (by norm_num)) hpos hx hval

theorem Dbl.eq_of_eq_or_zero (r x : Dbl) (hx : x.isDouble = true)
    (h : r = x ∨ (r.isZero = true ∧ x.isZero = true)) : Dbl.eq r x = true := by
  rcases h with h | ⟨h1, h2⟩
  · subst h
    cases r with
    | nan => cases hx
    | inf s => cases hx
    | finite s m e => simp [Dbl.eq]
  · cases r with
    | nan => cases h1
    | inf s => cases h1
    | finite s m e =>
      cases x with
      | nan => cases h2
      | inf t => cases h2
      | finite t k f =>
        cases m with
        | succ m => cases h1
        | zero =>
          cases k with
          | succ k => cases h2
          | zero => simp [Dbl.eq, Dbl.scaled_zero]

theorem libm_cos_isZero (rest : StdMath Dbl) (x : Dbl) (h : x.isZero = true) :
    (libm rest).cos x = 1 := by
  cases x with
  | nan => cases h
  | inf s => cases h
  | finite s m e =>
    cases m with
    | zero => rfl
    | succ m => cases h

theorem libm_sin_isZero (rest : StdMath Dbl) (x : Dbl) (h : x.isZero = true) :
    ∃ s, (libm rest).sin x = .finite s 0 (-1074) := by
  cases x with
  | nan => cases h
  | inf s => cases h
  | finite s m e =>
    cases m with
    | zero => exact ⟨s, rfl⟩
    | succ m => cases h

theorem Dbl.sub_signed_zero (x : Dbl) (hx : x.isDouble = true) (t : Bool) :
    x - Dbl.finite t 0 (-1074) = x ∨
      ((x - Dbl.finite t 0 (-1074)).isZero = true ∧ x.isZero = true) :=
  Dbl.add_signed_zero x hx (!t)

theorem Dbl.exists_finite_of_isDouble (x : Dbl) (hx : x.isDouble = true) :
    ∃ s m e, x = .finite s m e := by
  cases x with
  | nan => cases hx
  | inf s => cases hx
  | finite s m e => exact ⟨s, m, e, rfl⟩

theorem x_rot_tilt_zero (rest : StdMath Dbl) (l : Locals Dbl) (x y : Dbl)
    (h0 : l.tilt_t.isZero = true) (hdx : (x - l.path_x_t).isDouble = true)
    (hdy : (y - l.path_y_t).isDouble = true) :
    Dbl.eq (x_rot (libm rest) l x y) (x - l.path_x_t) = true := by
  obtain ⟨st, hst⟩ := libm_sin_isZero rest _ h0
  obtain ⟨sy, my, ey, hy⟩ := Dbl.exists_finite_of_isDouble _ hdy
  simp only [x_rot]
  rw [libm_cos_isZero rest _ h0, hst, Dbl.mul_one_of_isDouble _ hdx, hy,
    Dbl.mul_zero_of_finite]
  exact Dbl.eq_of_eq_or_zero _ _ hdx (Dbl.sub_signed_zero _ hdx _)

theorem y_rot_tilt_zero (rest : StdMath Dbl) (l : Locals Dbl) (x y : Dbl)
    (h0 : l.tilt_t.isZero = true) (hdx : (x - l.path_x_t).isDouble = true)
    (hdy : (y - l.path_y_t).isDouble = true) :
    Dbl.eq (y_rot (libm rest) l x y) (y - l.path_y_t) = true := by
  obtain ⟨st, hst⟩ := libm_sin_isZero rest _ h0
  obtain ⟨sx, mx, ex, hx⟩ := Dbl.exists_finite_of_isDouble _ hdx
  simp only [y_rot]
  rw [libm_cos_isZero rest _ h0, hst, Dbl.mul_one_of_isDouble _ hdy, hx,
    Dbl.mul_zero_of_finite]
  exact Dbl.eq_of_eq_or_zero _ _ hdy (Dbl.signed_zero_add _ hdy _)

/-! ## Half model -/

/-- C6: in exact arithmetic (any ordered field), with all other inputs equal, the run with
`half_model = true` has exactly 0.5 times the `volumetric_heat` of the run with
`half_model = false` (set to false, or left at its default) and the same `calc_va`,
whichever calibration source is configured, and the end-to-end scenario with
`half_model = true` has heat 50 at the centre. In any arithmetic, doubles included,
`calc_va` is the same in both runs and the two heats are the code's expressions
`0.5 * p * eta * calc_va / calibration` and `p * eta * calc_va / calibration`, evaluated
left to right on the same `p`, `eta`, `calc_va` and calibration. In doubles, whatever the
math library, the first heat is exactly 0.5 times the second whenever `p`, `p * eta`,
`p * eta * calc_va` and the full-model heat are normal doubles of magnitude at least
`2^-1020`, that is, when no product overflows or comes near the subnormal range; and the
end-to-end scenario with `half_model = true` has heat exactly 50.0 at the centre. -/
theorem half_model_scaling :
    (∀ (α : Type) [LinearOrderedField α] (m : StdMath α) (g : String → α → α)
        (pp : String → α) (p : InputParameters α) (off : Option Bool)
        (hsT hsF : FunctionPathDiffusedEllipsoidHeatSource α) (t x y z : α),
      getParam off false = false →
      FunctionPathDiffusedEllipsoidHeatSource.construct g { p with half_model := some true }
        = .ok hsT →
      FunctionPathDiffusedEllipsoidHeatSource.construct g { p with half_model := off }
        = .ok hsF →
      (hsT.computeQpProperties m pp t x y z).volumetric_heat =
        0.5 * (hsF.computeQpProperties m pp t x y z).volumetric_heat ∧
      (hsT.computeQpProperties m pp t x y z).calc_va =
        (hsF.computeQpProperties m pp t x y z).calc_va) ∧
    (∀ (g : String → ℝ → ℝ) (pp : String → ℝ) (t : ℝ),
      ∃ hs, FunctionPathDiffusedEllipsoidHeatSource.construct g (scenario ℝ true) = .ok hs ∧
        (hs.computeQpProperties ⟨Real.exp, Real.sin, Real.cos, fun b e => b ^ e, Real.pi⟩
          pp t 0 0 0).calc_va = 1 ∧
        (hs.computeQpProperties ⟨Real.exp, Real.sin, Real.cos, fun b e => b ^ e, Real.pi⟩
          pp t 0 0 0).volumetric_heat = 50) ∧
    (∀ (α : Type) [Zero α] [One α] [Add α] [Sub α] [Mul α] [Div α] [Neg α] [LT α]
        [DecidableRel (fun a b : α => a < b)] [OfScientific α] [NatCast α]
        (m : StdMath α) (g : String → α → α) (pp : String → α) (p : InputParameters α)
        (off : Option Bool) (hsT hsF : FunctionPathDiffusedEllipsoidHeatSource α)
        (t x y z : α),
      getParam off false = false →
      FunctionPathDiffusedEllipsoidHeatSource.construct g { p with half_model := some true }
        = .ok hsT →
      FunctionPathDiffusedEllipsoidHeatSource.construct g { p with half_model := off }
        = .ok hsF →
      (hsT.computeQpProperties m pp t x y z).calc_va =
        (hsF.computeQpProperties m pp t x y z).calc_va ∧
      (hsT.computeQpProperties m pp t x y z).volumetric_heat =
        0.5 * (resolveParameters hsF t).p_t * (resolveParameters hsF t).eta_t *
          (hsF.computeQpProperties m pp t x y z).calc_va / calibration pp hsF t ∧
      (hsF.computeQpProperties m pp t x y z).volumetric_heat =
        (resolveParameters hsF t).p_t * (resolveParameters hsF t).eta_t *
          (hsF.computeQpProperties m pp t x y z).calc_va / calibration pp hsF t) ∧
    (∀ (m : StdMath Dbl) (g : String → Dbl → Dbl) (pp : String → Dbl)
        (p : InputParameters Dbl) (off : Option Bool)
        (hsT hsF : FunctionPathDiffusedEllipsoidHeatSource Dbl) (t x y z : Dbl),
      getParam off false = false →
      FunctionPathDiffusedEllipsoidHeatSource.construct g { p with half_model := some true }
        = .ok hsT →
      FunctionPathDiffusedEllipsoidHeatSource.construct g { p with half_model := off }
        = .ok hsF →
      (resolveParameters hsF t).p_t.isHalvable = true →
      ((resolveParameters hsF t).p_t * (resolveParameters hsF t).eta_t).isHalvable = true →
      ((resolveParameters hsF t).p_t * (resolveParameters hsF t).eta_t *
        (hsF.computeQpProperties m pp t x y z).calc_va).isHalvable = true →
      (hsF.computeQpProperties m pp t x y z).volumetric_heat.isHalvable = true →
      (hsT.computeQpProperties m pp t x y z).volumetric_heat =
        0.5 * (hsF.computeQpProperties m pp t x y z).volumetric_heat ∧
      (hsT.computeQpProperties m pp t x y z).calc_va =
        (hsF.computeQpProperties m pp t x y z).calc_va) ∧
    (∀ rest : StdMath Dbl,
      FunctionPathDiffusedEllipsoidHeatSource.construct (fun _ _ => 0)
          (dblScenario 100.0 1 1 0 true) = .ok (dblSource 100.0 1 1 0 true) ∧
      ((dblSource 100.0 1 1 0 true).computeQpProperties (libm rest) (fun _ => 0)
        0 0 0 0).calc_va = 1 ∧
      ((dblSource 100.0 1 1 0 true).computeQpProperties (libm rest) (fun _ => 0)
        0 0 0 0).volumetric_heat = 50.0) := by
  refine ⟨?_, ?_, ?_, ?_, ?_⟩
  · intro α _ m g pp p off hsT hsF t x y z hoff hT hF
    rw [construct_eq_ok] at hT hF
    obtain ⟨-, rfl⟩ := hT
    obtain ⟨-, rfl⟩ := hF
    have hc : ((memberInit g { p with half_model := some true }).computeQpProperties
          m pp t x y z).calc_va =
        ((memberInit g { p with half_model := off }).computeQpProperties m pp t x y z).calc_va :=
      rfl
    refine ⟨?_, hc⟩
    have key : ∀ a b c d : α, 0.5 * a * b * c / d = 0.5 * (a * b * c / d) := by
      intro a b c d
      ring
    rw [computeQp_heat_half m pp _ t x y z rfl, computeQp_heat_full m pp _ t x y z hoff]
    exact key _ _ _ _
  · intro g pp t
    refine ⟨memberInit g (scenario ℝ true), construct_scenario ℝ g true, ?_⟩
    have hc : ((memberInit g (scenario ℝ true)).computeQpProperties
        ⟨Real.exp, Real.sin, Real.cos, fun b e => b ^ e, Real.pi⟩ pp t 0 0 0).calc_va = 1 := by
      rw [computeQp_calc_va]
      simp [memberInit, scenario, isParamSetByUser, getParam, calc_va_temp, weaveActive,
        resolveParameters, baseGaussian, x_rot, y_rot, rpow_two_literal]
      norm_num
    refine ⟨hc, ?_⟩
    rw [computeQp_heat_half _ pp _ t 0 0 0 rfl, hc]
    simp [memberInit, scenario, isParamSetByUser, getParam, calibration, resolveParameters]
    norm_num
  · intro α _ _ _ _ _ _ _ _ _ _ _ m g pp p off hsT hsF t x y z hoff hT hF
    rw [construct_eq_ok] at hT hF
    obtain ⟨-, rfl⟩ := hT
    obtain ⟨-, rfl⟩ := hF
    refine ⟨rfl, ?_, ?_⟩
    · rw [computeQp_heat_half m pp _ t x y z rfl]
      rfl
    · rw [computeQp_heat_full m pp _ t x y z hoff]
  · intro m g pp p off hsT hsF t x y z hoff hT hF h0 h1 h2 h3
    rw [construct_eq_ok] at hT hF
    obtain ⟨-, rfl⟩ := hT
    obtain ⟨-, rfl⟩ := hF
    refine ⟨?_, rfl⟩
    rw [computeQp_heat_full m pp _ t x y z hoff] at h3
    rw [computeQp_heat_half m pp _ t x y z rfl, computeQp_heat_full m pp _ t x y z hoff]
    exact Dbl.half_product _ _ _ _ h0 h1 h2 h3
  · intro rest
    have hc : ((dblSource 100.0 1 1 0 true).computeQpProperties (libm rest) (fun _ => 0)
        0 0 0 0).calc_va = 1 := by
      rw [computeQp_calc_va, calc_va_temp_inactive _ _ _ _ _ (by decide!)]
      simp only [baseGaussian, x_rot, y_rot, libm_pow_two]
      rw [libm_cos_of_zero rest _ (by decide!), libm_sin_of_zero rest _ (by decide!),
        libm_exp_negZero rest]
      · decide!
      · decide!
    refine ⟨construct_dbl _ _ rfl, hc, ?_⟩
    rw [computeQp_heat_half _ _ _ _ _ _ _ rfl, hc]
    decide!

theorem half_model_scaling_witness :
    getParam (none : Option Bool) false = false ∧
    ((memberInit (fun _ _ => 0) { scenario ℝ false with half_model := some true }
        ).computeQpProperties ⟨Real.exp, Real.sin, Real.cos, fun b e => b ^ e, Real.pi⟩
        (fun _ => 0) 2 1 1 1).volumetric_heat =
      0.5 * ((memberInit (fun _ _ => 0) { scenario ℝ false with half_model := none }
        ).computeQpProperties ⟨Real.exp, Real.sin, Real.cos, fun b e => b ^ e, Real.pi⟩
        (fun _ => 0) 2 1 1 1).volumetric_heat ∧
    ((memberInit (fun _ _ => 0) { dblScenario 100.0 1 1 0 false with half_model := some true }
        ).computeQpProperties (libm unknownMath) (fun _ => 0) 0 0 0 0).volumetric_heat =
      0.5 * ((memberInit (fun _ _ => 0) { dblScenario 100.0 1 1 0 false with half_model := none }
        ).computeQpProperties (libm unknownMath) (fun _ => 0) 0 0 0 0).volumetric_heat :=
  ⟨rfl,
   (half_model_scaling.1 ℝ ⟨Real.exp, Real.sin, Real.cos, fun b e => b ^ e, Real.pi⟩
      (fun _ _ => 0) (fun _ => 0) (scenario ℝ false) none _ _ 2 1 1 1 rfl
      ((construct_eq_ok _ _ _).2 ⟨constructorBody_scenario ℝ false, rfl⟩)
      ((construct_eq_ok _ _ _).2 ⟨constructorBody_scenario ℝ false, rfl⟩)).1,
   (half_model_scaling.2.2.2.1 (libm unknownMath) (fun _ _ => 0) (fun _ => 0)
      (dblScenario 100.0 1 1 0 false) none _ _ 0 0 0 0 rfl
      ((construct_eq_ok _ _ _).2 ⟨rfl, rfl⟩) ((construct_eq_ok _ _ _).2 ⟨rfl, rfl⟩)
      (by decide!) (by decide!) (by decide!) (by decide!)).1⟩

/-! ## Coordinate transform -/

/-- C8: in any arithmetic the transform is `x_rot = dx*cos(tilt) - dy*sin(tilt)`,
`y_rot = dx*sin(tilt) + dy*cos(tilt)` with `dx = x - cx(t)`, `dy = y - cy(t)`, and `z` is
left unrotated: on the no-weave path `calc_va` is `0.0 + exp(-(pow(dx*cos - dy*sin, 2)/
pow(rx, 2) + pow(dx*sin + dy*cos, 2)/pow(ry, 2) + pow(z - cz, 2)/pow(rz, 2)))`, and on the
weave path it is the 13-pass sum in which `z` occurs only as `z - cz`, offset by the z
weave in the z term. In exact real arithmetic the transform is the identity for tilt 0
(`x_rot = x - cx`, `y_rot = y - cy`) and gives `x_rot = -(y - cy)`, `y_rot = x - cx` for
tilt pi/2. In doubles, for tilt `+0` or `-0` the transform is the identity in the sense
of `==` (`x_rot == x - cx`, `y_rot == y - cy`) whenever the differences `x - cx` and
`y - cy` are finite. -/
theorem rotation_transform :
    (∀ (α : Type) [Add α] [Sub α] [Mul α] [Div α] [Neg α] [LT α]
        [DecidableRel (fun a b : α => a < b)] [OfScientific α] [NatCast α]
        (m : StdMath α) (pp : String → α) (hs : FunctionPathDiffusedEllipsoidHeatSource α)
        (t x y z : α),
      x_rot m (resolveParameters hs t) x y =
        (x - (resolveParameters hs t).path_x_t) * m.cos (resolveParameters hs t).tilt_t -
          (y - (resolveParameters hs t).path_y_t) * m.sin (resolveParameters hs t).tilt_t ∧
      y_rot m (resolveParameters hs t) x y =
        (x - (resolveParameters hs t).path_x_t) * m.sin (resolveParameters hs t).tilt_t +
          (y - (resolveParameters hs t).path_y_t) * m.cos (resolveParameters hs t).tilt_t ∧
      (weaveActive (resolveParameters hs t) = false →
        (hs.computeQpProperties m pp t x y z).calc_va =
          0.0 + m.exp (-(
            m.pow ((x - (resolveParameters hs t).path_x_t) * m.cos (resolveParameters hs t).tilt_t -
                (y - (resolveParameters hs t).path_y_t) * m.sin (resolveParameters hs t).tilt_t) 2.0 /
              m.pow (resolveParameters hs t).rx_t 2.0 +
            m.pow ((x - (resolveParameters hs t).path_x_t) * m.sin (resolveParameters hs t).tilt_t +
                (y - (resolveParameters hs t).path_y_t) * m.cos (resolveParameters hs t).tilt_t) 2.0 /
              m.pow (resolveParameters hs t).ry_t 2.0 +
            m.pow (z - (resolveParameters hs t).path_z_t) 2.0 / m.pow (resolveParameters hs t).rz_t 2.0))) ∧
      (weaveActive (resolveParameters hs t) = true →
        (hs.computeQpProperties m pp t x y z).calc_va =
          (List.range 13).foldl (fun (acc : α) (i : Nat) =>
            let acc1 :=
              if (resolveParameters hs t).weave_x_t > 1e-6 then
                acc + m.exp (-(
                  m.pow ((x - (resolveParameters hs t).path_x_t) * m.cos (resolveParameters hs t).tilt_t -
                      (y - (resolveParameters hs t).path_y_t) * m.sin (resolveParameters hs t).tilt_t +
                      (resolveParameters hs t).weave_x_t * m.sin (m.pi * (i : α) / ((6 : Nat) : α))) 2.0 /
                    m.pow (resolveParameters hs t).rx_t 2.0 +
                  m.pow ((x - (resolveParameters hs t).path_x_t) * m.sin (resolveParameters hs t).tilt_t +
                      (y - (resolveParameters hs t).path_y_t) * m.cos (resolveParameters hs t).tilt_t) 2.0 /
                    m.pow (resolveParameters hs t).ry_t 2.0 +
                  m.pow (z - (resolveParameters hs t).path_z_t) 2.0 / m.pow (resolveParameters hs t).rz_t 2.0))
              else acc
            let acc2 :=
              if (resolveParameters hs t).weave_y_t > 1e-6 then
                acc1 + m.exp (-(
                  m.pow ((x - (resolveParameters hs t).path_x_t) * m.cos (resolveParameters hs t).tilt_t -
                      (y - (resolveParameters hs t).path_y_t) * m.sin (resolveParameters hs t).tilt_t) 2.0 /
                    m.pow (resolveParameters hs t).rx_t 2.0 +
                  m.pow ((x - (resolveParameters hs t).path_x_t) * m.sin (resolveParameters hs t).tilt_t +
                      (y - (resolveParameters hs t).path_y_t) * m.cos (resolveParameters hs t).tilt_t +
                      (resolveParameters hs t).weave_y_t * m.sin (m.pi * (i : α) / ((6 : Nat) : α))) 2.0 /
                    m.pow (resolveParameters hs t).ry_t 2.0 +
                  m.pow (z - (resolveParameters hs t).path_z_t) 2.0 / m.pow (resolveParameters hs t).rz_t 2.0))
              else acc1
            if (resolveParameters hs t).weave_z_t > 1e-6 then
              acc2 + m.exp (-(
                m.pow ((x - (resolveParameters hs t).path_x_t) * m.cos (resolveParameters hs t).tilt_t -
                    (y - (resolveParameters hs t).path_y_t) * m.sin (resolveParameters hs t).tilt_t) 2.0 /
                  m.pow (resolveParameters hs t).rx_t 2.0 +
                m.pow ((x - (resolveParameters hs t).path_x_t) * m.sin (resolveParameters hs t).tilt_t +
                    (y - (resolveParameters hs t).path_y_t) * m.cos (resolveParameters hs t).tilt_t) 2.0 /
                  m.pow (resolveParameters hs t).ry_t 2.0 +
                m.pow (z - (resolveParameters hs t).path_z_t +
                    (resolveParameters hs t).weave_z_t * m.sin (m.pi * (i : α) / ((6 : Nat) : α))) 2.0 /
                  m.pow (resolveParameters hs t).rz_t 2.0))
            else acc2) 0.0)) ∧
    (∀ (pp : String → ℝ) (hs : FunctionPathDiffusedEllipsoidHeatSource ℝ) (t x y z : ℝ),
      ((resolveParameters hs t).tilt_t = 0 →
        x_rot ⟨Real.exp, Real.sin, Real.cos, fun b e => b ^ e, Real.pi⟩ (resolveParameters hs t) x y =
          x - (resolveParameters hs t).path_x_t ∧
        y_rot ⟨Real.exp, Real.sin, Real.cos, fun b e => b ^ e, Real.pi⟩ (resolveParameters hs t) x y =
          y - (resolveParameters hs t).path_y_t) ∧
      ((resolveParameters hs t).tilt_t = Real.pi / 2 →
        x_rot ⟨Real.exp, Real.sin, Real.cos, fun b e => b ^ e, Real.pi⟩ (resolveParameters hs t) x y =
          -(y - (resolveParameters hs t).path_y_t) ∧
        y_rot ⟨Real.exp, Real.sin, Real.cos, fun b e => b ^ e, Real.pi⟩ (resolveParameters hs t) x y =
          x - (resolveParameters hs t).path_x_t) ∧
      (weaveActive (resolveParameters hs t) = false →
        (resolveParameters hs t).rx_t ≠ 0 → (resolveParameters hs t).ry_t ≠ 0 → (resolveParameters hs t).rz_t ≠ 0 →
        (hs.computeQpProperties ⟨Real.exp, Real.sin, Real.cos, fun b e => b ^ e, Real.pi⟩
            pp t x y z).calc_va =
          Real.exp (-(
            ((x - (resolveParameters hs t).path_x_t) * Real.cos (resolveParameters hs t).tilt_t -
                (y - (resolveParameters hs t).path_y_t) * Real.sin (resolveParameters hs t).tilt_t) ^ 2 / (resolveParameters hs t).rx_t ^ 2 +
            ((x - (resolveParameters hs t).path_x_t) * Real.sin (resolveParameters hs t).tilt_t +
                (y - (resolveParameters hs t).path_y_t) * Real.cos (resolveParameters hs t).tilt_t) ^ 2 / (resolveParameters hs t).ry_t ^ 2 +
            (z - (resolveParameters hs t).path_z_t) ^ 2 / (resolveParameters hs t).rz_t ^ 2)))) ∧
    (∀ (rest : StdMath Dbl) (hs : FunctionPathDiffusedEllipsoidHeatSource Dbl)
        (t x y : Dbl),
      (resolveParameters hs t).tilt_t.isZero = true →
      (x - (resolveParameters hs t).path_x_t).isDouble = true → (y - (resolveParameters hs t).path_y_t).isDouble = true →
      Dbl.eq (x_rot (libm rest) (resolveParameters hs t) x y) (x - (resolveParameters hs t).path_x_t) = true ∧
      Dbl.eq (y_rot (libm rest) (resolveParameters hs t) x y) (y - (resolveParameters hs t).path_y_t) = true) := by
  refine ⟨?_, ?_, ?_⟩
  · intro α _ _ _ _ _ _ _ _ _ m pp hs t x y z
    refine ⟨rfl, rfl, ?_, ?_⟩
    · intro hw
      rw [computeQp_calc_va, calc_va_temp_inactive _ _ _ _ _ hw]
      rfl
    · intro hw
      rw [computeQp_calc_va, calc_va_temp_active _ _ _ _ _ hw]
      refine congrArg (fun f => List.foldl f 0.0 (List.range 13)) ?_
      funext acc i
      rfl
  · intro pp hs t x y z
    refine ⟨?_, ?_, ?_⟩
    · intro h0
      simp [x_rot, y_rot, h0]
    · intro h2
      simp [x_rot, y_rot, h2]
    · intro hw _ _ _
      rw [computeQp_calc_va, calc_va_temp_no_weave _ _ _ _ _ hw]
      simp only [baseGaussian, rpow_two_literal, x_rot, y_rot]
  · intro rest hs t x y h0 hdx hdy
    exact ⟨x_rot_tilt_zero rest _ x y h0 hdx hdy, y_rot_tilt_zero rest _ x y h0 hdx hdy⟩

theorem rotation_transform_witness :
    (x_rot ⟨Real.exp, Real.sin, Real.cos, fun b e => b ^ e, Real.pi⟩
        (resolveParameters (memberInit (fun _ _ => 0) (scenario ℝ false)) 4) 3 5 = 3 ∧
      y_rot ⟨Real.exp, Real.sin, Real.cos, fun b e => b ^ e, Real.pi⟩
        (resolveParameters (memberInit (fun _ _ => 0) (scenario ℝ false)) 4) 3 5 = 5) ∧
    ((memberInit (fun _ _ => 0) (scenario ℝ false)).computeQpProperties
        ⟨Real.exp, Real.sin, Real.cos, fun b e => b ^ e, Real.pi⟩ (fun _ => 0) 4 3 5 2
      ).calc_va = Real.exp (-(3 ^ 2 + 5 ^ 2 + 2 ^ 2)) ∧
    Dbl.eq (x_rot (libm unknownMath)
        (resolveParameters (memberInit (fun _ _ => 0) (dblScenario 100.0 1 1 0 false)) 0)
        0.1 0.7)
      (0.1 - (resolveParameters (memberInit (fun _ _ => 0)
        (dblScenario 100.0 1 1 0 false)) 0).path_x_t) = true := by
  have h := (rotation_transform.2.1 (fun _ => 0) (memberInit (fun _ _ => 0) (scenario ℝ false))
    4 3 5 2).1
    (by norm_num [resolveParameters, memberInit, scenario, isParamSetByUser, getParam])
  have hc := (rotation_transform.2.1 (fun _ => 0)
    (memberInit (fun _ _ => 0) (scenario ℝ false)) 4 3 5 2).2.2
    (by norm_num [weaveActive, resolveParameters, memberInit, scenario, isParamSetByUser,
      getParam])
    (by norm_num [resolveParameters, memberInit, scenario, isParamSetByUser, getParam])
    (by norm_num [resolveParameters, memberInit, scenario, isParamSetByUser, getParam])
    (by norm_num [resolveParameters, memberInit, scenario, isParamSetByUser, getParam])
  have hd := (rotation_transform.2.2 unknownMath
    (memberInit (fun _ _ => 0) (dblScenario 100.0 1 1 0 false)) 0 0.1 0.7
    (by decide!) (by decide!) (by decide!)).1
  refine ⟨?_, ?_, hd⟩
  · simpa [resolveParameters, memberInit, scenario, isParamSetByUser, getParam] using h
  · rw [hc]
    simp [resolveParameters, memberInit, scenario, isParamSetByUser, getParam]

end Tg4


